import Mathlib

/-!
# Surround bus: Return Stage and Send Stage

A shallow embedding of `libs/ardour/surround_return.cc` and
`libs/ardour/surround_send.cc`.

* Sample positions and counts (`samplepos_t`, `samplecnt_t`, 64 bit signed) are `Int`;
  `pframes_t`, `uint32_t` and `size_t` counters are `Nat`.
* `pan_t` is a C float.  The code only copies and compares pan values (`!=`, `> 0`); a
  value is the rational number that the float denotes, or NaN, which `!=` tells apart from
  every value, itself included.  Audio samples are only copied; a sample is modelled by the
  rational number that the float denotes.
* Every operation returns the new state together with the list of events it produced,
  in program order: the calls made on the renderer plugin, the audio buffer operations,
  and two bookkeeping events (`assign`, `evaluate`) that record that a loop body or
  `evaluate` was entered.
-/

namespace ARDOUR

/-- A C `float` holding a pan value: the number that it denotes, or NaN. -/
inductive pan_t where
  | val (q : ℚ)
  | nan
  deriving DecidableEq

instance (n : Nat) : OfNat pan_t n := ⟨pan_t.val n⟩

/-- The C comparison `a != b` on floats: two numbers differ when they are not equal, and NaN
differs from everything, NaN included. -/
def pan_t.ne : pan_t → pan_t → Bool
  | pan_t.val x, pan_t.val y => decide (x ≠ y)
  | _, _ => true

/-- The C comparison `a > 0` on a float; it is false for NaN. -/
def pan_t.gt_zero : pan_t → Bool
  | pan_t.val x => decide (x > 0)
  | pan_t.nan => false

abbrev Sample := ℚ

/-- An audio buffer: the sample stored at each frame index. -/
abbrev AudioBuffer := Nat → Sample

/-- The buffer that holds silence. -/
def AudioBuffer.silent : AudioBuffer := fun _ => 0

/-- Effect of `dst.read_from (src, nframes)`: the first `nframes` samples are copied. -/
def AudioBuffer.read_from (dst src : AudioBuffer) (nframes : Nat) : AudioBuffer :=
  fun k => if k < nframes then src k else dst k

/-- Effect of `dst.merge_from (src, nframes)`: the first `nframes` samples are summed in. -/
def AudioBuffer.merge_from (dst src : AudioBuffer) (nframes : Nat) : AudioBuffer :=
  fun k => if k < nframes then dst k + src k else dst k

/-- Effect of `silence (nframes, 0)` on one buffer. -/
def AudioBuffer.silence (dst : AudioBuffer) (nframes : Nat) : AudioBuffer :=
  fun k => if k < nframes then 0 else dst k

/-- Modelled from the spec: the `AutoState` enumeration (ardour/types.h is not part of the
sources at hand).  "Automation state is one of manual, play, touch, latch"; `Write` is kept
for the remaining state of the enumeration. -/
inductive AutoState where
  | Off
  | Write
  | Touch
  | Play
  | Latch
  deriving DecidableEq, Repr

/-- One automatable pan parameter: its current value (`get_value ()`, already converted to
`pan_t`) and the point query of its automation list (`list ()->rt_safe_eval (when, ok)`),
which yields the value and the `ok` flag. -/
structure AutomationControl where
  get_value : pan_t
  rt_safe_eval : Int → pan_t × Bool

/-- The Pan Parameter Set of one channel, as far as the Return Stage reads it: five pan
parameters, the render-mode selector (`binaural_render_mode->get_value ()` converted to
`int`), the automation state, the touch flag and the times of the automation breakpoints
of its controls. -/
structure SurroundPannable where
  pan_pos_x : AutomationControl
  pan_pos_y : AutomationControl
  pan_pos_z : AutomationControl
  pan_size : AutomationControl
  pan_snap : AutomationControl
  binaural_render_mode : Int
  automation_state : AutoState
  touching : Bool
  events : List Int

/-- The earliest time of a list of event times, if there is one. -/
def earliest : List Int → Option Int
  | [] => none
  | t :: ts =>
    match earliest ts with
    | none => some t
    | some m => some (if t < m then t else m)

/-- Modelled from the spec: `Automatable::find_next_event` is not part of the sources at
hand.  "Locate the next automation breakpoint strictly within" the given range: the
earliest breakpoint `when` with `start < when < stop`, if any. -/
def SurroundPannable.find_next_event (p : SurroundPannable) (start stop : Int) :
    Option Int :=
  earliest (p.events.filter (fun t => decide (start < t) && decide (t < stop)))

/-- A delay line, as far as the Send Stage uses it: its length. -/
structure DelayLine where
  delay : Int
  deriving DecidableEq, Repr

/-- Modelled from the spec: `DelayLine::set_delay` is not part of the sources at hand.  It
sets the length of the delay line and reports whether the length effectively changed. -/
def DelayLine.set_delay (d : DelayLine) (signal_delay : Int) : DelayLine × Bool :=
  ({ delay := signal_delay }, decide (signal_delay ≠ d.delay))

/-- The Send Stage.  `active` is the value of `Processor::active ()`; `_mixbufs` holds one
audio buffer per send channel (`bufs ().count ().n_audio ()` is its length). -/
structure SurroundSend where
  active : Bool
  _pending_active : Bool
  _pannable : List SurroundPannable
  _mixbufs : List AudioBuffer
  _delay_in : Int
  _delay_out : Int
  _send_delay : DelayLine
  _thru_delay : DelayLine

/-- A track as seen by the Return Stage. -/
structure Route where
  active : Bool
  surround_send : Option SurroundSend

abbrev RouteList := List Route

/-- The URIDs used by the control protocol (fields of `URIMap::URIDs`). -/
inductive URID where
  | surr_Settings
  | surr_Channel
  | surr_ChannelCount
  | surr_BinauralRenderMode
  | surr_MetaData
  | time_frame
  | surr_PosX
  | surr_PosY
  | surr_PosZ
  | surr_Size
  | surr_Snap
  deriving DecidableEq, Repr

/-- The value of one property of a forged object. -/
inductive Atom where
  | int (v : Int)
  | float (v : pan_t)
  | bool (b : Bool)
  deriving DecidableEq

/-- A forged LV2 atom object: its type and its key/value properties in order. -/
structure Msg where
  otype : URID
  props : List (URID × Atom)
  deriving DecidableEq

/-- What a cycle of the Return Stage does, in program order. -/
inductive Event where
  /-- The body of the channel loop is entered for channel `chn` of the route at position
  `route` of the ordered route list, with object id `id`. -/
  | assign (route chn id : Nat)
  /-- Slot `id` of the multiplex buffer is overwritten with the source channel. -/
  | read_from (id : Nat)
  /-- The source channel is summed into slot `id` of the multiplex buffer. -/
  | merge_from (id : Nat)
  /-- Call of `evaluate (id, p, when, sample)`. -/
  | evaluate (id : Nat) (when : Int) (sample : Nat)
  /-- A forged message is handed to the renderer (`write_from_ui`). -/
  | write_from_ui (m : Msg)
  /-- Call of `_surround_processor->flush ()`. -/
  | flush
  /-- Call of `_surround_processor->connect_and_run (...)`. -/
  | connect_and_run
  deriving DecidableEq

def max_object_id : Nat := 128

def num_pan_parameters : Nat := 5

/-- The Return Stage: the per-slot caches, the stored object count, the multiplex buffer
(one audio buffer per slot) and the flush flag. -/
structure SurroundReturn where
  _current_value : Nat → Nat → pan_t
  _current_render_mode : Nat → Int
  _current_n_objects : Nat
  _surround_bufs : Nat → AudioBuffer
  _flush : Int

/-- State set up by the constructor (surround_return.cc, lines 32 to 61). -/
def SurroundReturn.new : SurroundReturn where
  _current_value := fun _ _ => pan_t.val (-1111)
  _current_render_mode := fun _ => -1
  _current_n_objects := max_object_id
  _surround_bufs := fun _ => AudioBuffer.silent
  _flush := 0

/-- Effect of `SurroundReturn::flush ()`. -/
def SurroundReturn.flush (self : SurroundReturn) : SurroundReturn :=
  { self with _flush := 1 }

/-- Effect of `SurroundReturn::forge_int_msg`; a `key2` of 0 is `none`. -/
def forge_int_msg (obj_id key : URID) (val : Int) (key2 : Option URID) (val2 : Int) :
    List Event :=
  [Event.write_from_ui
    { otype := obj_id
      props := (key, Atom.int val) ::
        (match key2 with
         | some k2 => [(k2, Atom.int val2)]
         | none => []) }]

/-- The metadata object forged by `maybe_send_metadata`. -/
def metadata_msg (id : Nat) (sample : Nat) (v : Nat → pan_t) : Msg where
  otype := URID.surr_MetaData
  props :=
    [ (URID.time_frame, Atom.int sample),
      (URID.surr_Channel, Atom.int id),
      (URID.surr_PosX, Atom.float (v 0)),
      (URID.surr_PosY, Atom.float (v 1)),
      (URID.surr_PosZ, Atom.float (v 2)),
      (URID.surr_Size, Atom.float (v 3)),
      (URID.surr_Snap, Atom.bool (v 4).gt_zero) ]

/-- Effect of `SurroundReturn::maybe_send_metadata (id, sample, v)`. -/
def SurroundReturn.maybe_send_metadata (self : SurroundReturn) (id : Nat) (sample : Nat)
    (v : Nat → pan_t) : SurroundReturn × List Event :=
  let changed := (List.range num_pan_parameters).any
    (fun i => (self._current_value id i).ne (v i))
  let self1 : SurroundReturn :=
    { self with
      _current_value := fun j i =>
        if j = id ∧ i < num_pan_parameters then v i else self._current_value j i }
  if !changed then (self1, [])
  else (self1, [Event.write_from_ui (metadata_msg id sample v)])

/-- The five controls of a Pan Parameter Set in the order X, Y, Z, Size, Snap. -/
def SurroundPannable.control (p : SurroundPannable) : Nat → AutomationControl
  | 0 => p.pan_pos_x
  | 1 => p.pan_pos_y
  | 2 => p.pan_pos_z
  | 3 => p.pan_size
  | _ => p.pan_snap

/-- The default Pan Parameter Set read by `process_channel` for an index out of range. -/
def SurroundPannable.default : SurroundPannable where
  pan_pos_x := ⟨0, fun _ => (0, false)⟩
  pan_pos_y := ⟨0, fun _ => (0, false)⟩
  pan_pos_z := ⟨0, fun _ => (0, false)⟩
  pan_size := ⟨0, fun _ => (0, false)⟩
  pan_snap := ⟨0, fun _ => (0, false)⟩
  binaural_render_mode := 0
  automation_state := AutoState.Off
  touching := false
  events := []

/-- The five current values of a Pan Parameter Set (lines 130 to 137). -/
def SurroundPannable.values (p : SurroundPannable) : Nat → pan_t :=
  fun i => (p.control i).get_value

/-- Effect of `SurroundReturn::evaluate (id, p, when, sample)`. -/
def SurroundReturn.evaluate (self : SurroundReturn) (id : Nat) (p : SurroundPannable)
    (when : Int) (sample : Nat) : SurroundReturn × List Event :=
  let ok : Nat → Bool := fun i => ((p.control i).rt_safe_eval when).2
  let v : Nat → pan_t := fun i => ((p.control i).rt_safe_eval when).1
  if ok 0 && ok 1 && ok 2 && ok 3 && ok 4 then
    let r := self.maybe_send_metadata id sample v
    (r.1, Event.evaluate id when sample :: r.2)
  else (self, [Event.evaluate id when sample])

/-- The test `automated` of `SurroundReturn::run` (line 122). -/
def SurroundPannable.automated (p : SurroundPannable) : Bool :=
  decide (p.automation_state = AutoState.Play) ||
    ((decide (p.automation_state = AutoState.Touch) ||
      decide (p.automation_state = AutoState.Latch)) && !p.touching)

/-- The breakpoint loop of `SurroundReturn::run` (lines 151 to 159), a `while (true)` in the
source.  `start` is the scan position; `fuel` bounds the number of iterations, and
`stop - start` iterations are always enough (`scan_events_fuel`). -/
def SurroundReturn.scan_events (id : Nat) (p : SurroundPannable) (start_sample : Int)
    (nframes : Nat) (stop : Int) :
    Nat → Int → SurroundReturn → SurroundReturn × List Event
  | 0, _, self => (self, [])
  | fuel + 1, start, self =>
    match p.find_next_event start stop with
    | none => (self, [])
    | some when =>
      let pos : Int := min (when - start_sample) ((nframes : Int) - 1)
      let r1 := self.evaluate id p when pos.toNat
      let r2 := SurroundReturn.scan_events id p start_sample nframes stop fuel when r1.1
      (r2.1, r1.2 ++ r2.2)

/-- Lines 129 to 163 of `SurroundReturn::run`: the pan metadata of one object. -/
def SurroundReturn.object_metadata (self : SurroundReturn) (id : Nat) (p : SurroundPannable)
    (start_sample end_sample : Int) (nframes : Nat) :
    SurroundReturn × List Event :=
  if !p.automated || decide (start_sample ≥ end_sample) then
    self.maybe_send_metadata id 0 p.values
  else if nframes < 2 then
    self.evaluate id p start_sample 0
  else
    let start : Int := start_sample
    let stop : Int := end_sample - 1
    let r1 := SurroundReturn.scan_events id p start_sample nframes stop
      (stop - start).toNat start self
    let r2 := r1.1.evaluate id p stop (nframes - 1)
    (r2.1, r1.2 ++ r2.2)

/-- Lines 165 to 172 of `SurroundReturn::run`: the render mode of one object. -/
def SurroundReturn.object_render_mode (self : SurroundReturn) (id : Nat)
    (p : SurroundPannable) : SurroundReturn × List Event :=
  let brm : Int := p.binaural_render_mode
  if brm ≠ self._current_render_mode id then
    ({ self with
       _current_render_mode := fun j => if j = id then brm else self._current_render_mode j },
     forge_int_msg URID.surr_Settings URID.surr_Channel id
       (some URID.surr_BinauralRenderMode) brm)
  else (self, [])

/-- Line 128 of `SurroundReturn::run`: slot `id` of the multiplex buffer reads the source
channel. -/
def SurroundReturn.read_channel (self : SurroundReturn) (id : Nat) (src_ab : AudioBuffer)
    (nframes : Nat) : SurroundReturn :=
  { self with
    _surround_bufs := fun j =>
      if j = id then (self._surround_bufs id).read_from src_ab nframes
      else self._surround_bufs j }

/-- Line 176 of `SurroundReturn::run`: the source channel is merged into slot `id` of the
multiplex buffer. -/
def SurroundReturn.merge_channel (self : SurroundReturn) (id : Nat) (src_ab : AudioBuffer)
    (nframes : Nat) : SurroundReturn :=
  { self with
    _surround_bufs := fun j =>
      if j = id then (self._surround_bufs id).merge_from src_ab nframes
      else self._surround_bufs j }

/-- The Pan Parameter Set `ss->pan_param (s, start, end)`, that is `_pannable[s]`.  An index
beyond the end of `_pannable` (undefined in the source) reads a default value. -/
def SurroundSend.pan_param (ss : SurroundSend) (s : Nat) : SurroundPannable :=
  ss._pannable.getD s SurroundPannable.default

/-- The audio buffer `ss->bufs ().get_audio (s)`.  An index beyond the end of `_mixbufs`
(undefined in the source) reads silence. -/
def SurroundSend.get_audio (ss : SurroundSend) (s : Nat) : AudioBuffer :=
  ss._mixbufs.getD s AudioBuffer.silent

/-- Body of the channel loop of `SurroundReturn::run` (lines 120 to 177) for channel `s` of
the send `ss` of the route at position `ri`, with object id `id`. -/
def SurroundReturn.process_channel (self : SurroundReturn) (ri : Nat) (ss : SurroundSend)
    (s id : Nat) (start_sample end_sample : Int) (nframes : Nat) :
    SurroundReturn × List Event :=
  let p : SurroundPannable := ss.pan_param s
  let src_ab : AudioBuffer := ss.get_audio s
  if id > 9 then
    let self1 := self.read_channel id src_ab nframes
    let r1 := self1.object_metadata id p start_sample end_sample nframes
    let r2 := r1.1.object_render_mode id p
    (r2.1, Event.assign ri s id :: Event.read_from id :: (r1.2 ++ r2.2))
  else
    (self.merge_channel id src_ab nframes, [Event.assign ri s id, Event.merge_from id])

/-- The channel loop of `SurroundReturn::run` (line 118):
`for (s = 0; s < n_audio && id < max_object_id; ++s, ++id)`.  The first argument is the
number of channels still to visit, `n_audio - s`.  Returns the state, the id counter and
the events. -/
def SurroundReturn.channel_loop (ri : Nat) (ss : SurroundSend)
    (start_sample end_sample : Int) (nframes : Nat) :
    Nat → Nat → Nat → SurroundReturn → SurroundReturn × Nat × List Event
  | 0, _, id, self => (self, id, [])
  | left + 1, s, id, self =>
    if id < max_object_id then
      let r1 := self.process_channel ri ss s id start_sample end_sample nframes
      let r2 := SurroundReturn.channel_loop ri ss start_sample end_sample nframes
        left (s + 1) (id + 1) r1.1
      (r2.1, r2.2.1, r1.2 ++ r2.2.2)
    else (self, id, [])

/-- The route loop of `SurroundReturn::run` (lines 107 to 184) over the ordered route list;
`ri` is the position of the head of the list. -/
def SurroundReturn.route_loop (start_sample end_sample : Int) (nframes : Nat) :
    RouteList → Nat → Nat → SurroundReturn → SurroundReturn × Nat × List Event
  | [], _, id, self => (self, id, [])
  | r :: rest, ri, id, self =>
    if !r.active then
      SurroundReturn.route_loop start_sample end_sample nframes rest (ri + 1) id self
    else
      match r.surround_send with
      | none => SurroundReturn.route_loop start_sample end_sample nframes rest (ri + 1) id self
      | some ss =>
        if !ss.active then
          SurroundReturn.route_loop start_sample end_sample nframes rest (ri + 1) id self
        else
          let r1 := SurroundReturn.channel_loop ri ss start_sample end_sample nframes
            ss._mixbufs.length 0 id self
          if r1.2.1 ≥ max_object_id then r1
          else
            let r2 := SurroundReturn.route_loop start_sample end_sample nframes
              rest (ri + 1) r1.2.1 r1.1
            (r2.1, r2.2.1, r1.2.2 ++ r2.2.2)

/-- Lines 94 to 100 of `SurroundReturn::run`: the flush flag is tested and cleared
(`compare_exchange_strong (1, 0)`), the renderer is flushed if it was set, and the multiplex
buffer is silenced. -/
def SurroundReturn.begin_cycle (self : SurroundReturn) (nframes : Nat) :
    SurroundReturn × List Event :=
  ({ self with
     _flush := if self._flush = 1 then 0 else self._flush
     _surround_bufs := fun j => (self._surround_bufs j).silence nframes },
   if self._flush = 1 then [Event.flush] else [])

/-- Lines 186 to 192 of `SurroundReturn::run`: the object count message; `id` is the id
counter after the route loop. -/
def SurroundReturn.report_count (self : SurroundReturn) (id : Nat) :
    SurroundReturn × List Event :=
  if self._current_n_objects ≠ id then
    ({ self with _current_n_objects := id },
     forge_int_msg URID.surr_Settings URID.surr_ChannelCount id none 0)
  else (self, [])

/-- Effect of `SurroundReturn::run` up to and including the call of the renderer (lines 90
to 194).  `active` is the result of `check_active ()`; `rl` is the route list after
`rl.sort (Stripable::Sorter (true))`.  The renderer and the copy of its output to `bufs`
(lines 196 to 199) are outside the model. -/
def SurroundReturn.run (self : SurroundReturn) (active : Bool) (rl : RouteList)
    (start_sample end_sample : Int) (nframes : Nat) :
    SurroundReturn × List Event :=
  if !active then (self, [])
  else
    let r0 := self.begin_cycle nframes
    let r1 := SurroundReturn.route_loop start_sample end_sample nframes rl 0 10 r0.1
    let r2 := r1.1.report_count r1.2.1
    (r2.1, r0.2 ++ r1.2.2 ++ r2.2 ++ [Event.connect_and_run])

/-- The part of `AudioEngine::instance ()` that the Send Stage asks for. -/
structure AudioEngine where
  running : Bool
  in_process_thread : Bool
  deriving DecidableEq, Repr

/-- The signals that the delay-line code of the Send Stage emits. -/
inductive Signal where
  | QueueUpdate
  | ChangedLatency
  deriving DecidableEq, Repr

/-- Modelled from the spec: a new Send Stage.  The constructor (surround_send.cc, lines 35 to
56) creates both delay lines; the member initialisers of surround_send.h are not part of the
sources at hand: both delay lines have length 0 and both requested delays are 0. -/
def SurroundSend.new : SurroundSend where
  active := false
  _pending_active := false
  _pannable := []
  _mixbufs := []
  _delay_in := 0
  _delay_out := 0
  _send_delay := { delay := 0 }
  _thru_delay := { delay := 0 }

/-- Effect of `SurroundSend::update_delaylines (rt_ok)`: the new state and the signals
emitted. -/
def SurroundSend.update_delaylines (self : SurroundSend) (engine : AudioEngine) (rt_ok : Bool) :
    SurroundSend × List Signal :=
  if !rt_ok && engine.running && engine.in_process_thread then
    if self._delay_out > self._delay_in then
      if self._send_delay.delay ≠ 0 ∨ self._thru_delay.delay ≠ self._delay_out - self._delay_in
      then (self, [Signal.QueueUpdate])
      else (self, [])
    else
      if self._thru_delay.delay ≠ 0 ∨ self._send_delay.delay ≠ self._delay_in - self._delay_out
      then (self, [Signal.QueueUpdate])
      else (self, [])
  else
    let r : SurroundSend × Bool :=
      if self._delay_out > self._delay_in then
        let t := self._thru_delay.set_delay (self._delay_out - self._delay_in)
        let d := self._send_delay.set_delay 0
        ({ self with _thru_delay := t.1, _send_delay := d.1 }, t.2)
      else
        let t := self._thru_delay.set_delay 0
        let d := self._send_delay.set_delay (self._delay_in - self._delay_out)
        ({ self with _thru_delay := t.1, _send_delay := d.1 }, t.2)
    if r.2 && !engine.in_process_thread then (r.1, [Signal.ChangedLatency])
    else (r.1, [])

/-- Effect of `SurroundSend::set_delay_in (delay)`. -/
def SurroundSend.set_delay_in (self : SurroundSend) (engine : AudioEngine)
    (delay : Int) : SurroundSend × List Signal :=
  if self._delay_in = delay then (self, [])
  else SurroundSend.update_delaylines { self with _delay_in := delay } engine false

/-- Effect of `SurroundSend::set_delay_out (delay, bus)`. -/
def SurroundSend.set_delay_out (self : SurroundSend) (engine : AudioEngine)
    (delay : Int) : SurroundSend × List Signal :=
  if self._delay_out = delay then (self, [])
  else SurroundSend.update_delaylines { self with _delay_out := delay } engine true

/-- Result of `SurroundSend::signal_latency ()`. -/
def SurroundSend.signal_latency (self : SurroundSend) : Int :=
  if !self._pending_active then 0
  else if self._delay_out > self._delay_in then self._delay_out - self._delay_in
  else 0

/-- A request to change one of the two delays of a Send Stage. -/
inductive DelayCall where
  | set_delay_in (delay : Int)
  | set_delay_out (delay : Int)
  deriving DecidableEq, Repr

/-- One delay request, made while the engine is in the given condition. -/
def SurroundSend.delay_call (self : SurroundSend) (engine : AudioEngine) :
    DelayCall → SurroundSend × List Signal
  | DelayCall.set_delay_in d => self.set_delay_in engine d
  | DelayCall.set_delay_out d => self.set_delay_out engine d

/-- A sequence of delay requests, each with the condition of the engine at the time. -/
def SurroundSend.delay_calls (self : SurroundSend) : List (AudioEngine × DelayCall) → SurroundSend
  | [] => self
  | (engine, c) :: rest => SurroundSend.delay_calls (self.delay_call engine c).1 rest

/-- Whether a delay request made in the given condition reaches the code that sets the two
delay lines: the requested value is new, and the request is `set_delay_out` (which passes
`rt_ok = true`) or is not made in the process thread of a running engine. -/
def SurroundSend.applies (self : SurroundSend) (engine : AudioEngine) : DelayCall → Bool
  | DelayCall.set_delay_in d =>
    decide (self._delay_in ≠ d) && !(engine.running && engine.in_process_thread)
  | DelayCall.set_delay_out d => decide (self._delay_out ≠ d)

/-- The two delay lines hold the split of the two requested delays: `send_delay` has length
`max (delay_in - delay_out) 0` and `thru_delay` has length `max (delay_out - delay_in) 0`. -/
def SurroundSend.settled (self : SurroundSend) : Prop :=
  self._send_delay.delay = max (self._delay_in - self._delay_out) 0 ∧
    self._thru_delay.delay = max (self._delay_out - self._delay_in) 0

instance (self : SurroundSend) : Decidable self.settled := by
  unfold SurroundSend.settled
  exact inferInstance

/-! ## Return Stage: vocabulary of the properties -/

/-- The send that the route loop visits for a route: the route is active, it has a surround
send and the send is active (lines 109 to 114). -/
def Route.active_send (r : Route) : Option SurroundSend :=
  if r.active then
    match r.surround_send with
    | some ss => if ss.active then some ss else none
    | none => none
  else none

/-- Number of channels that the active send of a route carries (0 when the route is
skipped). -/
def Route.send_channels (r : Route) : Nat :=
  match r.active_send with
  | some ss => ss._mixbufs.length
  | none => 0

/-- The channels of a route list in walk order, from route position `ri` on: position of the
route, its send, channel number. -/
def walk_order : Nat → RouteList → List (Nat × SurroundSend × Nat)
  | _, [] => []
  | ri, r :: rest =>
    (match r.active_send with
     | some ss => (List.range ss._mixbufs.length).map (fun s => (ri, ss, s))
     | none => []) ++ walk_order (ri + 1) rest

/-- Total number of channels carried by the active sends of a route list. -/
def total_channels (rl : RouteList) : Nat :=
  (rl.map Route.send_channels).sum

/-- The value of the `surr_Channel` property of a message, if it has one. -/
def Msg.channel (m : Msg) : Option Nat :=
  match m.props.lookup URID.surr_Channel with
  | some (Atom.int v) => some v.toNat
  | _ => none

/-- The slot of the object table that an event is about, if any. -/
def Event.slot : Event → Option Nat
  | Event.assign _ _ id => some id
  | Event.read_from id => some id
  | Event.merge_from id => some id
  | Event.evaluate id _ _ => some id
  | Event.write_from_ui m => m.channel
  | Event.flush => none
  | Event.connect_and_run => none

/-- The events of a cycle that are about slot `k`, in order. -/
def slot_events (k : Nat) (evs : List Event) : List Event :=
  evs.filter (fun e => decide (e.slot = some k))

/-- The channel assignments of a cycle, in order: route position, channel, object id. -/
def assigned (evs : List Event) : List (Nat × Nat × Nat) :=
  evs.filterMap (fun e =>
    match e with
    | Event.assign ri s id => some (ri, s, id)
    | _ => none)

/-- The calls of `evaluate` of a cycle for slot `k`, in order: time and sample offset. -/
def evaluations (k : Nat) (evs : List Event) : List (Int × Nat) :=
  evs.filterMap (fun e =>
    match e with
    | Event.evaluate id t sample => if id = k then some (t, sample) else none
    | _ => none)

/-- The metadata messages of a cycle for slot `k`, in order. -/
def metadata_msgs (k : Nat) (evs : List Event) : List Msg :=
  evs.filterMap (fun e =>
    match e with
    | Event.write_from_ui m =>
      if m.otype = URID.surr_MetaData ∧ m.channel = some k then some m else none
    | _ => none)

/-- The render-mode messages of a cycle for slot `k`, in order. -/
def render_mode_msgs (k : Nat) (evs : List Event) : List Msg :=
  evs.filterMap (fun e =>
    match e with
    | Event.write_from_ui m =>
      if m.otype = URID.surr_Settings ∧ m.channel = some k then some m else none
    | _ => none)

/-- Two stages hold the same data for slot `k`: cached pan values, cached render mode and
multiplex buffer. -/
def slot_eq (k : Nat) (a b : SurroundReturn) : Prop :=
  a._current_value k = b._current_value k ∧
    a._current_render_mode k = b._current_render_mode k ∧
    a._surround_bufs k = b._surround_bufs k


/-- An operation on the Return Stage that works on slot `id` only: its events are about
slot `id`, it leaves the data of every other slot, the stored object count and the flush
flag alone, and its events and its effect on slot `id` depend on the data of slot `id`
only. -/
def local_op (id : Nat) (f : SurroundReturn → SurroundReturn × List Event) : Prop :=
  (∀ (self : SurroundReturn) (e : Event), e ∈ (f self).2 → e.slot = some id) ∧
  (∀ (self : SurroundReturn) (k : Nat), k ≠ id → slot_eq k (f self).1 self) ∧
  (∀ self : SurroundReturn, (f self).1._current_n_objects = self._current_n_objects ∧
    (f self).1._flush = self._flush) ∧
  (∀ a b : SurroundReturn, slot_eq id a b →
    (f a).2 = (f b).2 ∧ slot_eq id (f a).1 (f b).1)

/-- The events produced for the pan metadata and the render mode of an object: calls of
`evaluate` and messages. -/
def Event.is_object_event : Event → Bool
  | Event.evaluate _ _ _ => true
  | Event.write_from_ui _ => true
  | _ => false

/-- The events produced for the pan metadata of an object: calls of `evaluate` and metadata
messages. -/
def Event.is_metadata_event : Event → Bool
  | Event.evaluate _ _ _ => true
  | Event.write_from_ui m => decide (m.otype = URID.surr_MetaData)
  | _ => false

/-- The render-mode message of `SurroundReturn::run` (line 170). -/
def render_mode_msg (id : Nat) (brm : Int) : Msg where
  otype := URID.surr_Settings
  props := [(URID.surr_Channel, Atom.int id), (URID.surr_BinauralRenderMode, Atom.int brm)]

/-- The object-count message of `SurroundReturn::run` (line 190). -/
def channel_count_msg (n : Nat) : Msg where
  otype := URID.surr_Settings
  props := [(URID.surr_ChannelCount, Atom.int n)]

/-- A pan parameter without automation data: its value is `v` and its automation list has no
definition at any time. -/
def AutomationControl.manual (v : pan_t) : AutomationControl where
  get_value := v
  rt_safe_eval := fun _ => (v, false)

/-- A pan parameter whose automation list evaluates to `v` at every time. -/
def AutomationControl.constant (v : pan_t) : AutomationControl where
  get_value := v
  rt_safe_eval := fun _ => (v, true)

/-- An unautomated Pan Parameter Set with pan values `x y z size snap` and render mode
`brm`. -/
def SurroundPannable.manual (x y z size snap : pan_t) (brm : Int) : SurroundPannable where
  pan_pos_x := AutomationControl.manual x
  pan_pos_y := AutomationControl.manual y
  pan_pos_z := AutomationControl.manual z
  pan_size := AutomationControl.manual size
  pan_snap := AutomationControl.manual snap
  binaural_render_mode := brm
  automation_state := AutoState.Off
  touching := false
  events := []

/-- A Pan Parameter Set in automation state `Play` whose five parameters evaluate to `v` at
every time and whose breakpoints are at the times `events`. -/
def SurroundPannable.playing (v : pan_t) (brm : Int) (events : List Int) : SurroundPannable where
  pan_pos_x := AutomationControl.constant v
  pan_pos_y := AutomationControl.constant v
  pan_pos_z := AutomationControl.constant v
  pan_size := AutomationControl.constant v
  pan_snap := AutomationControl.constant v
  binaural_render_mode := brm
  automation_state := AutoState.Play
  touching := false
  events := events

/-- An active send that has one channel, holding silence, for each of the given Pan Parameter
Sets. -/
def SurroundSend.with_pannables (ps : List SurroundPannable) : SurroundSend where
  active := true
  _pending_active := true
  _pannable := ps
  _mixbufs := ps.map (fun _ => AudioBuffer.silent)
  _delay_in := 0
  _delay_out := 0
  _send_delay := { delay := 0 }
  _thru_delay := { delay := 0 }

/-- An active route whose send is `SurroundSend.with_pannables ps`. -/
def Route.with_pannables (ps : List SurroundPannable) : Route where
  active := true
  surround_send := some (SurroundSend.with_pannables ps)

/-! ## Return Stage: configuration, object count and flush -/

/-- Modelled from the spec: `ChanCount` (ardour/chan_count.h is not part of the sources at
hand), the number of channels of each data type. -/
structure ChanCount where
  n_audio : Nat
  n_midi : Nat
  deriving DecidableEq, Repr

/-- Modelled from the spec: `ChanCount::n_total ()`, the "total input channel count". -/
def ChanCount.n_total (c : ChanCount) : Nat :=
  c.n_audio + c.n_midi

/-- The count `ChanCount (DataType::AUDIO, n)`. -/
def ChanCount.audio (n : Nat) : ChanCount where
  n_audio := n
  n_midi := 0

/-- Effect of `SurroundReturn::can_support_io_configuration (in, out)`: the result and the
value given to `out`. -/
def SurroundReturn.can_support_io_configuration (inp : ChanCount) : Bool × ChanCount :=
  (decide (inp.n_total = 0), ChanCount.audio 14)

/-- The object-count messages of a cycle, in order: the `surr_Settings` messages that are not
about one channel. -/
def object_count_msgs (evs : List Event) : List Msg :=
  evs.filterMap (fun e =>
    match e with
    | Event.write_from_ui m =>
      if m.otype = URID.surr_Settings ∧ m.channel = none then some m else none
    | _ => none)

/-! ## Send Stage: processing, configuration and persisted state -/

abbrev gain_t := ℚ

/-- Modelled from the spec: the gain coefficient `GAIN_COEFF_ZERO` ("exactly zero"); the
header that defines it is not part of the sources at hand. -/
def GAIN_COEFF_ZERO : gain_t := 0

/-- Modelled from the spec: the gain coefficient `GAIN_COEFF_UNITY` (unity gain); the header
that defines it is not part of the sources at hand. -/
def GAIN_COEFF_UNITY : gain_t := 1

/-- Modelled from the spec: `Amp::apply_simple_gain (bufs, nframes, target)` is not part of
the sources at hand.  A "flat scalar multiply" of the first `nframes` samples of every
buffer; with target 0 the result is silence. -/
def apply_simple_gain (bufs : List AudioBuffer) (nframes : Nat) (target : gain_t) :
    List AudioBuffer :=
  bufs.map (fun b k => if k < nframes then target * b k else b k)

/-- The value of a property of an XML node as the Send Stage reads it: an unsigned number,
or text that is no number. -/
inductive XMLProperty where
  | number (n : Nat)
  | text (s : String)
  deriving DecidableEq

/-- Modelled from the spec: `XMLNode` (pbd/xml++.h is not part of the sources at hand), a
"structured document": a name, properties and child nodes. -/
inductive XMLNode where
  | mk (name : String) (properties : List (String × XMLProperty)) (nodes : List XMLNode)

/-- The name of a node. -/
def XMLNode.name : XMLNode → String
  | XMLNode.mk n _ _ => n

/-- The properties of a node. -/
def XMLNode.properties : XMLNode → List (String × XMLProperty)
  | XMLNode.mk _ ps _ => ps

/-- All child nodes of a node, in order. -/
def XMLNode.nodes : XMLNode → List XMLNode
  | XMLNode.mk _ _ cs => cs

/-- Modelled from the spec: `XMLNode::child (name)`, the first child node with that name. -/
def XMLNode.child (node : XMLNode) (name : String) : Option XMLNode :=
  node.nodes.find? (fun c => decide (c.name = name))

/-- Modelled from the spec: `XMLNode::children (name)`, the child nodes with that name. -/
def XMLNode.children (node : XMLNode) (name : String) : List XMLNode :=
  node.nodes.filter (fun c => decide (c.name = name))

/-- Modelled from the spec: `XMLNode::get_property (key, value)` for a `uint32_t` value; it
fails when the property is missing or is no number. -/
def XMLNode.get_property (node : XMLNode) (key : String) : Option Nat :=
  match node.properties.lookup key with
  | some (XMLProperty.number n) => some n
  | _ => none

/-- Modelled from the spec: `XMLNode::set_property (key, value)`. -/
def XMLNode.set_property (node : XMLNode) (key : String) (value : XMLProperty) : XMLNode :=
  XMLNode.mk node.name
    ((key, value) :: node.properties.filter (fun p => !decide (p.1 = key))) node.nodes

/-- Modelled from the spec: `XMLNode::add_child_nocopy (child)`; the child becomes the last
child node. -/
def XMLNode.add_child_nocopy (node : XMLNode) (child : XMLNode) : XMLNode :=
  XMLNode.mk node.name node.properties (node.nodes ++ [child])

/-- The gain control of a Send Stage: its value. -/
structure GainControl where
  value : gain_t

/-- The Send Stage with the members that `run`, `configure_io`, `state` and `set_state` use
besides those of `SurroundSend`: the applied gain, the gain control, the configuration kept
by `Processor` and the recorded cycle window. -/
structure SendStage extends SurroundSend where
  _current_gain : gain_t
  _gain_control : GainControl
  _configured : Bool
  _configured_input : ChanCount
  _configured_output : ChanCount
  _cycle_start : Int
  _cycle_end : Int

/-- Operations of classes that are not part of the sources at hand, and the build option
`MIXBUS`, taken as parameters. -/
structure Collaborators where
  /-- Whether the build defines `MIXBUS`. -/
  MIXBUS : Bool
  /-- The string `PBD::Controllable::xml_node_name`. -/
  xml_node_name : String
  /-- The node returned by `Processor::state ()`. -/
  processor_state : XMLNode
  /-- Whether `Processor::set_state (node, version)` returns a nonzero value. -/
  processor_set_state_fails : XMLNode → Bool
  /-- The result of `Processor::configure_io (in, out)`. -/
  processor_configure : ChanCount → ChanCount → Bool
  /-- The result of `DelayLine::configure_io (in, out)`. -/
  delay_configure : DelayLine → ChanCount → ChanCount → Bool
  /-- Effect of `BufferSet::ensure_buffers (DataType::AUDIO, n, block_size)`. -/
  ensure_buffers : List AudioBuffer → Nat → List AudioBuffer
  /-- The Pan Parameter Set made by `new SurroundPannable (session, chn, ...)`. -/
  new_pannable : Nat → SurroundPannable
  /-- The node returned by `get_state ()` of the Pan Parameter Set of channel `chn`. -/
  pannable_get_state : Nat → SurroundPannable → XMLNode
  /-- Effect of `SurroundPannable::set_state (node, version)`. -/
  pannable_set_state : SurroundPannable → XMLNode → SurroundPannable
  /-- Effect of `automation_run (start, nframes)` on a Pan Parameter Set. -/
  pannable_automation_run : SurroundPannable → Int → Nat → SurroundPannable
  /-- The node returned by `_gain_control->get_state ()`. -/
  gain_get_state : GainControl → XMLNode
  /-- Effect of `_gain_control->set_state (node, version)`. -/
  gain_set_state : GainControl → XMLNode → GainControl
  /-- Effect of `automation_run (start, nframes)` of the stage itself (line 86 of `run`,
  inherited from `Automatable`) on the controls registered on the stage with `add_control`:
  the gain control (line 53) and the controls of every Pan Parameter Set (lines 224 to
  229). -/
  automation_run : GainControl → List SurroundPannable → Int → Nat →
    GainControl × List SurroundPannable
  /-- Effect of `Amp::apply_gain (bufs, rate, nframes, initial, target)`, the gain ramp: the
  buffers and the gain that the ramp returns. -/
  apply_gain : List AudioBuffer → Nat → gain_t → gain_t → List AudioBuffer × gain_t
  /-- Effect of the fader (lines 120 to 122 of `run`) on the buffers. -/
  amp_run : GainControl → List AudioBuffer → Int → Int → Nat → List AudioBuffer
  /-- Effect of `DelayLine::run` on the buffers. -/
  delay_run : DelayLine → List AudioBuffer → Nat → List AudioBuffer

/-- Modelled from the spec: a new Send Stage with gain control `g`.  The constructor sets
`_current_gain` to `GAIN_COEFF_ZERO`; the stage has no Pan Parameter Set and is not
configured. -/
def SendStage.new (g : GainControl) : SendStage where
  toSurroundSend := SurroundSend.new
  _current_gain := GAIN_COEFF_ZERO
  _gain_control := g
  _configured := false
  _configured_input := ChanCount.audio 0
  _configured_output := ChanCount.audio 0
  _cycle_start := 0
  _cycle_end := 0

/-- The cap that a `MIXBUS` build puts on the number of audio channels:
`std::min<uint32_t> (2, n)`. -/
def Collaborators.cap (c : Collaborators) (n : Nat) : Nat :=
  if c.MIXBUS then min 2 n else n

/-- Result of `SurroundSend::n_pannables ()`. -/
def SendStage.n_pannables (c : Collaborators) (self : SendStage) : Nat :=
  c.cap self._configured_input.n_audio

/-- Effect of `SurroundSend::add_pannable ()` on the array of Pan Parameter Sets. -/
def SendStage.add_pannable (c : Collaborators) (self : SendStage) : SendStage :=
  { self with _pannable := self._pannable ++ [c.new_pannable self._pannable.length] }

/-- The loop `while (_pannable.size () < n) { add_pannable (); }`; the first argument bounds
the number of iterations. -/
def SendStage.grow (c : Collaborators) : Nat → Nat → SendStage → SendStage
  | 0, _, self => self
  | fuel + 1, n, self =>
    if self._pannable.length < n then SendStage.grow c fuel n (self.add_pannable c) else self

/-- The signal that `configure_io` emits. -/
inductive ConfigureSignal where
  | NPannablesChanged
  deriving DecidableEq, Repr

/-- Effect of `SurroundSend::configure_io (in, out)`: the result, the new state and the
signals.  A failing `Processor::configure_io` leaves the stage as it is; a successful one
records the configuration. -/
def SendStage.configure_io (c : Collaborators) (self : SendStage) (inp out : ChanCount) :
    Bool × SendStage × List ConfigureSignal :=
  let n_audio := c.cap inp.n_audio
  let changed : Bool :=
    if self._configured then decide (n_audio ≠ self.n_pannables c) else false
  if !c.processor_configure inp out then (false, self, [])
  else
    let self1 : SendStage :=
      { self with _configured := true, _configured_input := inp, _configured_output := out }
    let self2 := SendStage.grow c (n_audio - self1._pannable.length) n_audio self1
    let ca := ChanCount.audio n_audio
    if !c.delay_configure self2._send_delay ca ca then (false, self2, [])
    else if !c.delay_configure self2._thru_delay inp out then (false, self2, [])
    else
      let self3 : SendStage :=
        { self2 with _mixbufs := c.ensure_buffers self2._mixbufs (self2.n_pannables c) }
      (true, self3, if changed then [ConfigureSignal.NPannablesChanged] else [])

/-- The loop over the `SurroundPannable` child nodes in `set_state` (lines 352 to 358).  A
child without a `channel` property is skipped; a `channel` beyond the end of `_pannable`
is an access out of range, which is undefined: the result is `none`. -/
def SendStage.restore_pannables (c : Collaborators) : List XMLNode → SendStage → Option SendStage
  | [], self => some self
  | node :: rest, self =>
    match node.get_property "channel" with
    | none => SendStage.restore_pannables c rest self
    | some chn =>
      match self._pannable[chn]? with
      | none => none
      | some p =>
        SendStage.restore_pannables c rest
          { self with _pannable := self._pannable.set chn (c.pannable_set_state p node) }

/-- Effect of `SurroundSend::set_state (node, version)`: the returned value and the new
state, or `none` when the execution is undefined (a missing gain node is dereferenced, or
`_pannable` is indexed out of range).  Of `Processor::set_state` the result is kept; the
body of `set_state` assigns neither `_configured_input` nor `_configured`. -/
def SendStage.set_state (c : Collaborators) (self : SendStage) (node : XMLNode) :
    Option (Int × SendStage) :=
  if c.processor_set_state_fails node then some (-1, self)
  else
    match node.child c.xml_node_name with
    | none => none
    | some gainnode =>
      let self1 : SendStage :=
        { self with _gain_control := c.gain_set_state self._gain_control gainnode }
      match node.get_property "n-pannables" with
      | none => some (-1, self1)
      | some npan =>
        let self2 := SendStage.grow c (npan - self1._pannable.length) npan self1
        match SendStage.restore_pannables c (node.children "SurroundPannable") self2 with
        | none => none
        | some self3 => some (0, self3)

/-- The node returned by `SurroundSend::state ()`.  `_pannable[chn]` is the Pan Parameter
Set made for channel `chn`; an index beyond the end of `_pannable` (undefined in the source)
reads a default value. -/
def SendStage.state (c : Collaborators) (self : SendStage) : XMLNode :=
  let node0 := c.processor_state
  let node1 := node0.set_property "type" (XMLProperty.text "sursend")
  let node2 := node1.set_property "n-pannables" (XMLProperty.number (self.n_pannables c))
  let node3 := node2.add_child_nocopy (c.gain_get_state self._gain_control)
  (List.range (self.n_pannables c)).foldl
    (fun node chn =>
      node.add_child_nocopy
        (c.pannable_get_state chn (self._pannable.getD chn SurroundPannable.default)))
    node3

/-- An operation that changes the array of Pan Parameter Sets of a Send Stage. -/
inductive SendOp where
  | configure_io (inp out : ChanCount)
  | set_state (node : XMLNode)
  | add_pannable

/-- One operation on a Send Stage; `none` when the execution is undefined. -/
def SendStage.apply_op (c : Collaborators) (self : SendStage) : SendOp → Option SendStage
  | SendOp.configure_io inp out => some (self.configure_io c inp out).2.1
  | SendOp.set_state node => (self.set_state c node).map (fun r => r.2)
  | SendOp.add_pannable => some (self.add_pannable c)

/-- A sequence of operations on a Send Stage. -/
def SendStage.apply_ops (c : Collaborators) (self : SendStage) : List SendOp → Option SendStage
  | [] => some self
  | op :: rest =>
    match self.apply_op c op with
    | none => none
    | some next => SendStage.apply_ops c next rest

/-- What a call of `SurroundSend::run` does besides copying buffers, in program order. -/
inductive SendEvent where
  /-- Call of `automation_run (start_sample, nframes)` at entry (line 86). -/
  | automation_run (start : Int) (nframes : Nat)
  /-- Call of `_mixbufs.silence (nframes, 0)` (line 89). -/
  | silence
  /-- Call of `Amp::apply_gain`, the ramp from `initial` to `target` (line 109). -/
  | apply_gain (initial target : gain_t)
  /-- Call of `Amp::apply_simple_gain` with `target` (lines 112 and 116). -/
  | apply_simple_gain (target : gain_t)
  /-- The fader: `_amp->run` with its gain automation (lines 120 to 122). -/
  | amp_run
  /-- Call of `_send_delay->run` (line 124). -/
  | send_delay_run
  /-- Call of `_pannable[chn]->automation_run` (line 127). -/
  | pannable_automation_run (chn : Nat)
  /-- Call of `_thru_delay->run` (line 133). -/
  | thru_delay_run
  deriving DecidableEq

/-- The loop of lines 97 to 102 of `SurroundSend::run`: the inputs are copied to the mix
buffers, pairwise, until either set ends. -/
def copy_inputs : List AudioBuffer → List AudioBuffer → Nat → List AudioBuffer
  | [], _, _ => []
  | o :: os, [], _ => o :: os
  | o :: os, i :: is, nframes => o.read_from i nframes :: copy_inputs os is nframes

/-- Lines 119 to 133 of `SurroundSend::run`: fader, send delay, automation of the Pan
Parameter Sets, cycle window and thru delay.  `evs` are the events so far.  Returns the
state, the pass-through buffers and the events. -/
def SendStage.process (c : Collaborators) (self : SendStage) (bufs : List AudioBuffer)
    (start_sample end_sample : Int) (nframes : Nat) (evs : List SendEvent) :
    SendStage × List AudioBuffer × List SendEvent :=
  let mix1 := c.amp_run self._gain_control self._mixbufs start_sample end_sample nframes
  let mix2 := c.delay_run self._send_delay mix1 nframes
  let n := self.n_pannables c
  let self1 : SendStage :=
    { self with
      _mixbufs := mix2
      _pannable :=
        (self._pannable.take n).map (fun p => c.pannable_automation_run p start_sample nframes)
          ++ self._pannable.drop n
      _cycle_start := start_sample
      _cycle_end := end_sample }
  (self1, c.delay_run self._thru_delay bufs nframes,
    evs ++ [SendEvent.amp_run, SendEvent.send_delay_run] ++
      (List.range n).map SendEvent.pannable_automation_run ++ [SendEvent.thru_delay_run])

/-- Effect of `SurroundSend::run (bufs, start_sample, end_sample, speed, nframes)`.
The call of `automation_run` at entry (line 86) acts on the gain control and on the Pan
Parameter Sets, whose controls are registered on the stage.  `active` is the result of
`check_active ()` (`Processor`, not part of the sources at hand), which confirms the pending
activation: the result is also stored as the activation of the stage.  `tgain` is the result
of `target_gain ()`.  Returns the state, the pass-through buffers `bufs` and the events. -/
def SendStage.run (c : Collaborators) (self : SendStage) (active : Bool) (tgain : gain_t)
    (bufs : List AudioBuffer) (start_sample end_sample : Int) (nframes : Nat) :
    SendStage × List AudioBuffer × List SendEvent :=
  let r0 := c.automation_run self._gain_control self._pannable start_sample nframes
  let self0 : SendStage :=
    { self with active := active, _gain_control := r0.1, _pannable := r0.2 }
  if !active then
    ({ self0 with _mixbufs := self0._mixbufs.map (fun b => b.silence nframes) }, bufs,
      [SendEvent.automation_run start_sample nframes, SendEvent.silence])
  else
    let self1 : SendStage :=
      { self0 with _mixbufs := copy_inputs self0._mixbufs bufs nframes }
    if tgain ≠ self1._current_gain then
      let r := c.apply_gain self1._mixbufs nframes self1._current_gain tgain
      SendStage.process c { self1 with _mixbufs := r.1, _current_gain := r.2 } bufs
        start_sample end_sample nframes
        [SendEvent.automation_run start_sample nframes,
          SendEvent.apply_gain self1._current_gain tgain]
    else if tgain = GAIN_COEFF_ZERO then
      ({ self1 with _mixbufs := apply_simple_gain self1._mixbufs nframes GAIN_COEFF_ZERO },
        bufs,
        [SendEvent.automation_run start_sample nframes,
          SendEvent.apply_simple_gain GAIN_COEFF_ZERO])
    else if tgain ≠ GAIN_COEFF_UNITY then
      SendStage.process c
        { self1 with _mixbufs := apply_simple_gain self1._mixbufs nframes tgain } bufs
        start_sample end_sample nframes
        [SendEvent.automation_run start_sample nframes, SendEvent.apply_simple_gain tgain]
    else
      SendStage.process c self1 bufs start_sample end_sample nframes
        [SendEvent.automation_run start_sample nframes]

/-- The events of lines 119 to 133 of `SurroundSend::run`: fader, send delay, automation of
the `n_pannables ()` Pan Parameter Sets, thru delay. -/
def SendStage.tail_events (c : Collaborators) (self : SendStage) : List SendEvent :=
  [SendEvent.amp_run, SendEvent.send_delay_run] ++
    (List.range (self.n_pannables c)).map SendEvent.pannable_automation_run ++
    [SendEvent.thru_delay_run]

/-- Sample collaborators: every configuration succeeds, a new Pan Parameter Set is the
default one, a Pan Parameter Set saves and restores its render mode, the gain control saves
and restores a whole-number value, automation leaves values as they are, the ramp reaches
its target, and fader and delay lines pass the audio through. -/
def Collaborators.plain (mixbus : Bool) : Collaborators where
  MIXBUS := mixbus
  xml_node_name := "Controllable"
  processor_state := XMLNode.mk "Processor" [] []
  processor_set_state_fails := fun _ => false
  processor_configure := fun _ _ => true
  delay_configure := fun _ _ _ => true
  ensure_buffers := fun bufs n => bufs ++ List.replicate (n - bufs.length) AudioBuffer.silent
  new_pannable := fun _ => SurroundPannable.default
  pannable_get_state := fun chn p =>
    XMLNode.mk "SurroundPannable"
      [("channel", XMLProperty.number chn),
       ("mode", XMLProperty.number p.binaural_render_mode.toNat)] []
  pannable_set_state := fun p node =>
    match node.get_property "mode" with
    | some m => { p with binaural_render_mode := m }
    | none => p
  pannable_automation_run := fun p _ _ => p
  gain_get_state := fun g =>
    XMLNode.mk "Controllable" [("value", XMLProperty.number g.value.num.toNat)] []
  gain_set_state := fun g node =>
    match node.get_property "value" with
    | some v => { value := v }
    | none => g
  automation_run := fun g ps _ _ => (g, ps)
  apply_gain := fun bufs _ _ target => (bufs, target)
  amp_run := fun _ bufs _ _ _ => bufs
  delay_run := fun _ bufs _ => bufs

/-- A sample Send Stage: a new stage with gain control value 1, configured for `n` audio
channels with the sample collaborators. -/
def SendStage.sample (mixbus : Bool) (n : Nat) : SendStage :=
  ((SendStage.new { value := 1 }).configure_io (Collaborators.plain mixbus)
    (ChanCount.audio n) (ChanCount.audio n)).2.1

/-- Modelled from the spec: `AutomationControl::automation_run (start, nframes)` is not part
of the sources at hand.  It "advances internal per-block automation" of a control "so that
later point queries inside the same cycle reflect this block's automation": when the
automation list has a value at `start`, that value becomes the current value. -/
def AutomationControl.automation_run (ctl : AutomationControl) (start : Int) :
    AutomationControl :=
  if (ctl.rt_safe_eval start).2 then { ctl with get_value := (ctl.rt_safe_eval start).1 }
  else ctl

/-- Modelled from the spec: the automation step of the five pan controls of a Pan Parameter
Set that plays automation; a Pan Parameter Set that does not play automation is left as it
is. -/
def SurroundPannable.automation_run (p : SurroundPannable) (start : Int) : SurroundPannable :=
  if p.automated then
    { p with
      pan_pos_x := p.pan_pos_x.automation_run start
      pan_pos_y := p.pan_pos_y.automation_run start
      pan_pos_z := p.pan_pos_z.automation_run start
      pan_size := p.pan_size.automation_run start
      pan_snap := p.pan_snap.automation_run start }
  else p

/-- Sample collaborators whose automation steps advance the pan controls: the call of
`automation_run` at entry of `run` advances every Pan Parameter Set of the stage, and so does
`automation_run` of a Pan Parameter Set; everything else is as in `Collaborators.plain`. -/
def Collaborators.advancing (mixbus : Bool) : Collaborators :=
  { Collaborators.plain mixbus with
    pannable_automation_run := fun p start _ => p.automation_run start
    automation_run := fun g ps start _ => (g, ps.map (fun p => p.automation_run start)) }

/-- A sample Send Stage with one channel whose Pan Parameter Set plays automation: the
current X position is 0 and its automation list holds 7 at every time. -/
def SendStage.playing_sample : SendStage :=
  { SendStage.sample false 1 with
    _pannable :=
      [{ SurroundPannable.playing 0 0 [] with
         pan_pos_x := { get_value := 0, rt_safe_eval := fun _ => (7, true) } }] }

/-! ## Return Stage: sample offsets -/

/-- The value of the `time_frame` property of a message, if it has one: the sample offset
that a metadata message carries (line 241). -/
def Msg.time_frame (m : Msg) : Option Int :=
  match m.props.lookup URID.time_frame with
  | some (Atom.int v) => some v
  | _ => none

/-- A state node that names a channel beyond its own `n-pannables`: it announces one Pan
Parameter Set, has a gain node, and its only `SurroundPannable` child is for channel 3. -/
def XMLNode.channel_beyond : XMLNode :=
  XMLNode.mk "Processor"
    [("type", XMLProperty.text "sursend"), ("n-pannables", XMLProperty.number 1)]
    [XMLNode.mk "Controllable" [("value", XMLProperty.number 1)] [],
     XMLNode.mk "SurroundPannable" [("channel", XMLProperty.number 3)] []]

/-! ## Send Stage: the delay split -/

theorem update_delaylines_applied (self : SurroundSend) (engine : AudioEngine) (rt_ok : Bool)
    (h : (!rt_ok && engine.running && engine.in_process_thread) = false) :
    (self.update_delaylines engine rt_ok).1._send_delay.delay
        = max (self._delay_in - self._delay_out) 0 ∧
    (self.update_delaylines engine rt_ok).1._thru_delay.delay
        = max (self._delay_out - self._delay_in) 0 ∧
    (self.update_delaylines engine rt_ok).1._delay_in = self._delay_in ∧
    (self.update_delaylines engine rt_ok).1._delay_out = self._delay_out ∧
    (self.update_delaylines engine rt_ok).1._pending_active = self._pending_active := by
  unfold SurroundSend.update_delaylines
  rw [h]
  simp only [Bool.false_eq_true, if_false]
  by_cases hlt : self._delay_out > self._delay_in
  · simp only [hlt, if_true, DelayLine.set_delay]
    have e1 : max (self._delay_in - self._delay_out) 0 = 0 := by omega
    have e2 : max (self._delay_out - self._delay_in) 0 = self._delay_out - self._delay_in := by
      omega
    rw [e1, e2]
    split_ifs <;> exact ⟨rfl, rfl, rfl, rfl, rfl⟩
  · simp only [hlt, if_false, DelayLine.set_delay]
    have e1 : max (self._delay_in - self._delay_out) 0 = self._delay_in - self._delay_out := by
      omega
    have e2 : max (self._delay_out - self._delay_in) 0 = 0 := by omega
    rw [e1, e2]
    split_ifs <;> exact ⟨rfl, rfl, rfl, rfl, rfl⟩

theorem update_delaylines_deferred (self : SurroundSend) (engine : AudioEngine) (rt_ok : Bool)
    (h : (!rt_ok && engine.running && engine.in_process_thread) = true) :
    (self.update_delaylines engine rt_ok).1 = self ∧
    ((self._send_delay.delay ≠ max (self._delay_in - self._delay_out) 0 ∨
        self._thru_delay.delay ≠ max (self._delay_out - self._delay_in) 0) →
      (self.update_delaylines engine rt_ok).2 = [Signal.QueueUpdate]) ∧
    ((self._send_delay.delay = max (self._delay_in - self._delay_out) 0 ∧
        self._thru_delay.delay = max (self._delay_out - self._delay_in) 0) →
      (self.update_delaylines engine rt_ok).2 = []) := by
  unfold SurroundSend.update_delaylines
  rw [h]
  simp only [if_true]
  by_cases hlt : self._delay_out > self._delay_in
  · simp only [hlt, if_true]
    have e1 : max (self._delay_in - self._delay_out) 0 = 0 := by omega
    have e2 : max (self._delay_out - self._delay_in) 0 = self._delay_out - self._delay_in := by
      omega
    rw [e1, e2]
    split_ifs with hc
    · exact ⟨rfl, fun _ => rfl, fun hh => absurd hc (by tauto)⟩
    · exact ⟨rfl, fun hh => absurd hh hc, fun _ => rfl⟩
  · simp only [hlt, if_false]
    have e1 : max (self._delay_in - self._delay_out) 0 = self._delay_in - self._delay_out := by
      omega
    have e2 : max (self._delay_out - self._delay_in) 0 = 0 := by omega
    rw [e1, e2]
    split_ifs with hc
    · exact ⟨rfl, fun _ => rfl, fun hh => absurd hc (by tauto)⟩
    · exact ⟨rfl, fun hh => absurd hh (by tauto), fun _ => rfl⟩

theorem update_delaylines_one_zero (self : SurroundSend) (engine : AudioEngine) (rt_ok : Bool)
    (h : self._send_delay.delay = 0 ∨ self._thru_delay.delay = 0) :
    (self.update_delaylines engine rt_ok).1._send_delay.delay = 0 ∨
      (self.update_delaylines engine rt_ok).1._thru_delay.delay = 0 := by
  cases hd : (!rt_ok && engine.running && engine.in_process_thread)
  · obtain ⟨h1, h2, -⟩ := update_delaylines_applied self engine rt_ok hd
    rw [h1, h2]
    omega
  · rw [(update_delaylines_deferred self engine rt_ok hd).1]
    exact h

theorem delay_call_one_zero (self : SurroundSend) (engine : AudioEngine) (c : DelayCall)
    (h : self._send_delay.delay = 0 ∨ self._thru_delay.delay = 0) :
    (self.delay_call engine c).1._send_delay.delay = 0 ∨
      (self.delay_call engine c).1._thru_delay.delay = 0 := by
  cases c with
  | set_delay_in d =>
    simp only [SurroundSend.delay_call, SurroundSend.set_delay_in]
    split_ifs
    · exact h
    · exact update_delaylines_one_zero _ engine false h
  | set_delay_out d =>
    simp only [SurroundSend.delay_call, SurroundSend.set_delay_out]
    split_ifs
    · exact h
    · exact update_delaylines_one_zero _ engine true h

theorem delay_calls_one_zero (calls : List (AudioEngine × DelayCall)) :
    ∀ self : SurroundSend, (self._send_delay.delay = 0 ∨ self._thru_delay.delay = 0) →
      ((self.delay_calls calls)._send_delay.delay = 0 ∨
        (self.delay_calls calls)._thru_delay.delay = 0) := by
  induction calls with
  | nil => intro self h; exact h
  | cons x rest ih =>
    intro self h
    obtain ⟨engine, c⟩ := x
    exact ih _ (delay_call_one_zero self engine c h)

theorem delay_calls_append (l1 l2 : List (AudioEngine × DelayCall)) :
    ∀ self : SurroundSend,
      self.delay_calls (l1 ++ l2) = (self.delay_calls l1).delay_calls l2 := by
  induction l1 with
  | nil => intro self; rfl
  | cons x rest ih =>
    intro self
    obtain ⟨engine, c⟩ := x
    exact ih _

theorem delay_call_applies (self : SurroundSend) (engine : AudioEngine) (c : DelayCall)
    (h : self.applies engine c = true) :
    (self.delay_call engine c).1._send_delay.delay - (self.delay_call engine c).1._thru_delay.delay
      = (self.delay_call engine c).1._delay_in - (self.delay_call engine c).1._delay_out := by
  cases c with
  | set_delay_in d =>
    simp only [SurroundSend.applies, Bool.and_eq_true, decide_eq_true_eq] at h
    simp only [SurroundSend.delay_call, SurroundSend.set_delay_in, if_neg h.1]
    have hd : (!false && engine.running && engine.in_process_thread) = false := by
      have := h.2
      revert this
      cases engine.running <;> cases engine.in_process_thread <;> simp
    obtain ⟨h1, h2, h3, h4, -⟩ := update_delaylines_applied
      { self with _delay_in := d } engine false hd
    rw [h1, h2, h3, h4]
    simp only
    omega
  | set_delay_out d =>
    simp only [SurroundSend.applies, decide_eq_true_eq] at h
    simp only [SurroundSend.delay_call, SurroundSend.set_delay_out, if_neg h]
    obtain ⟨h1, h2, h3, h4, -⟩ := update_delaylines_applied
      { self with _delay_out := d } engine true (by simp)
    rw [h1, h2, h3, h4]
    simp only
    omega

theorem set_delay_in_settled (self : SurroundSend) (engine : AudioEngine) (d : Int)
    (he : engine.in_process_thread = false) (hs : self.settled) :
    (self.set_delay_in engine d).1.settled ∧
      (self.set_delay_in engine d).1._delay_in = d ∧
      (self.set_delay_in engine d).1._delay_out = self._delay_out := by
  unfold SurroundSend.set_delay_in
  split_ifs with hd
  · exact ⟨hs, hd, rfl⟩
  · obtain ⟨h1, h2, h3, h4, -⟩ := update_delaylines_applied
      { self with _delay_in := d } engine false (by simp [he])
    exact ⟨⟨by rw [h1, h3, h4], by rw [h2, h3, h4]⟩, h3, h4⟩

theorem set_delay_out_settled (self : SurroundSend) (engine : AudioEngine) (d : Int)
    (hs : self.settled) :
    (self.set_delay_out engine d).1.settled ∧
      (self.set_delay_out engine d).1._delay_in = self._delay_in ∧
      (self.set_delay_out engine d).1._delay_out = d := by
  unfold SurroundSend.set_delay_out
  split_ifs with hd
  · exact ⟨hs, rfl, hd⟩
  · obtain ⟨h1, h2, h3, h4, -⟩ := update_delaylines_applied
      { self with _delay_out := d } engine true (by simp)
    exact ⟨⟨by rw [h1, h3, h4], by rw [h2, h3, h4]⟩, h3, h4⟩

/-- C7, counterexample: on a new Send Stage, `set_delay_in (5)` and `set_delay_out (5)`, both
made outside the process thread, leave both delay lines with length 0, so it is not the case
that exactly one of them is nonzero. -/
theorem delay_split_equal_delays_counterexample :
    ((SurroundSend.new.set_delay_in ⟨true, false⟩ 5).1.set_delay_out
        ⟨true, false⟩ 5).1._send_delay.delay = 0 ∧
    ((SurroundSend.new.set_delay_in ⟨true, false⟩ 5).1.set_delay_out
        ⟨true, false⟩ 5).1._thru_delay.delay = 0 ∧
    ((SurroundSend.new.set_delay_in ⟨true, false⟩ 5).1.set_delay_out
        ⟨true, false⟩ 5).1._delay_in = 5 ∧
    ((SurroundSend.new.set_delay_in ⟨true, false⟩ 5).1.set_delay_out
        ⟨true, false⟩ 5).1._delay_out = 5 := by
  decide

/-- C7, amended: on a Send Stage whose delay lines hold the split of its requested delays (a
new stage does), after `set_delay_in (delay_in)` made outside the process thread and
`set_delay_out (delay_out)` (made anywhere; outside the process thread in particular), at
most one of `send_delay` and `thru_delay` has nonzero length; when
`delay_in` and `delay_out` differ exactly one is nonzero and its length is
`|delay_in - delay_out|` (`send_delay` when `delay_in` is the larger, `thru_delay` when
`delay_out` is); when they are equal both lengths are 0. -/
theorem delay_split_postcondition (self : SurroundSend) (e1 e2 : AudioEngine)
    (delay_in delay_out : Int)
    (h1 : e1.in_process_thread = false) (hs : self.settled) :
    (((self.set_delay_in e1 delay_in).1.set_delay_out e2 delay_out).1._send_delay.delay = 0 ∨
      ((self.set_delay_in e1 delay_in).1.set_delay_out e2 delay_out).1._thru_delay.delay = 0) ∧
    (delay_out < delay_in →
      ((self.set_delay_in e1 delay_in).1.set_delay_out e2 delay_out).1._send_delay.delay
          = |delay_in - delay_out| ∧
      ((self.set_delay_in e1 delay_in).1.set_delay_out e2 delay_out).1._send_delay.delay ≠ 0 ∧
      ((self.set_delay_in e1 delay_in).1.set_delay_out e2 delay_out).1._thru_delay.delay = 0) ∧
    (delay_in < delay_out →
      ((self.set_delay_in e1 delay_in).1.set_delay_out e2 delay_out).1._thru_delay.delay
          = |delay_in - delay_out| ∧
      ((self.set_delay_in e1 delay_in).1.set_delay_out e2 delay_out).1._thru_delay.delay ≠ 0 ∧
      ((self.set_delay_in e1 delay_in).1.set_delay_out e2 delay_out).1._send_delay.delay = 0) ∧
    (delay_in = delay_out →
      ((self.set_delay_in e1 delay_in).1.set_delay_out e2 delay_out).1._send_delay.delay = 0 ∧
      ((self.set_delay_in e1 delay_in).1.set_delay_out e2 delay_out).1._thru_delay.delay = 0) := by
  obtain ⟨s1, i1, o1⟩ := set_delay_in_settled self e1 delay_in h1 hs
  obtain ⟨s2, i2, o2⟩ := set_delay_out_settled (self.set_delay_in e1 delay_in).1 e2 delay_out s1
  obtain ⟨hsend, hthru⟩ := s2
  rw [i2, o2, i1] at hsend hthru
  rw [hsend, hthru]
  refine ⟨by omega, ?_, ?_, ?_⟩
  · intro h
    rw [abs_of_pos (by omega)]
    omega
  · intro h
    rw [abs_of_neg (by omega)]
    omega
  · intro h
    omega

/-- C7, witness: the amended property on a new Send Stage with delays 7 and 3. -/
theorem delay_split_postcondition_witness :
    SurroundSend.new.settled ∧
    (((SurroundSend.new.set_delay_in ⟨true, false⟩ 7).1.set_delay_out
        ⟨true, false⟩ 3).1._send_delay.delay = 4 ∧
      ((SurroundSend.new.set_delay_in ⟨true, false⟩ 7).1.set_delay_out
        ⟨true, false⟩ 3).1._thru_delay.delay = 0) := by
  have h := delay_split_postcondition SurroundSend.new ⟨true, false⟩ ⟨true, false⟩ 7 3
    rfl (by decide)
  refine ⟨by decide, ?_, (h.2.1 (by decide)).2.2⟩
  rw [(h.2.1 (by decide)).1]
  decide

/-- C8: starting from a Send Stage whose two delay lines both have length 0, after every
sequence of `set_delay_in` / `set_delay_out` calls, each made in any condition of the engine
(running or not, inside or outside the process thread), at most one of `send_delay` and
`thru_delay` has nonzero length; and whenever the last call of the sequence reached the code
that sets the delay lines (it was not deferred and not a repeated value), the length of
`send_delay` minus the length of `thru_delay` equals `delay_in - delay_out`. -/
theorem delay_lines_invariant (self : SurroundSend) (calls : List (AudioEngine × DelayCall))
    (h0 : self._send_delay.delay = 0 ∧ self._thru_delay.delay = 0) :
    ((self.delay_calls calls)._send_delay.delay = 0 ∨
      (self.delay_calls calls)._thru_delay.delay = 0) ∧
    (∀ (init : List (AudioEngine × DelayCall)) (engine : AudioEngine) (c : DelayCall),
      calls = init ++ [(engine, c)] →
      (self.delay_calls init).applies engine c = true →
      (self.delay_calls calls)._send_delay.delay - (self.delay_calls calls)._thru_delay.delay
        = (self.delay_calls calls)._delay_in - (self.delay_calls calls)._delay_out) := by
  refine ⟨delay_calls_one_zero calls self (Or.inl h0.1), ?_⟩
  intro init engine c hc happ
  subst hc
  rw [delay_calls_append]
  exact delay_call_applies (self.delay_calls init) engine c happ

/-- C8, witness: a new Send Stage, a deferred `set_delay_in (9)` in the process thread
followed by `set_delay_out (4)`, which is applied. -/
theorem delay_lines_invariant_witness :
    (SurroundSend.new._send_delay.delay = 0 ∧ SurroundSend.new._thru_delay.delay = 0) ∧
    ((SurroundSend.new.delay_calls
        [(⟨true, true⟩, DelayCall.set_delay_in 9),
         (⟨true, true⟩, DelayCall.set_delay_out 4)])._send_delay.delay = 0 ∨
      (SurroundSend.new.delay_calls
        [(⟨true, true⟩, DelayCall.set_delay_in 9),
         (⟨true, true⟩, DelayCall.set_delay_out 4)])._thru_delay.delay = 0) ∧
    (SurroundSend.new.delay_calls
        [(⟨true, true⟩, DelayCall.set_delay_in 9),
         (⟨true, true⟩, DelayCall.set_delay_out 4)])._send_delay.delay -
      (SurroundSend.new.delay_calls
        [(⟨true, true⟩, DelayCall.set_delay_in 9),
         (⟨true, true⟩, DelayCall.set_delay_out 4)])._thru_delay.delay
      = (SurroundSend.new.delay_calls
        [(⟨true, true⟩, DelayCall.set_delay_in 9),
         (⟨true, true⟩, DelayCall.set_delay_out 4)])._delay_in -
      (SurroundSend.new.delay_calls
        [(⟨true, true⟩, DelayCall.set_delay_in 9),
         (⟨true, true⟩, DelayCall.set_delay_out 4)])._delay_out :=
  ⟨by decide,
   (delay_lines_invariant SurroundSend.new
      [(⟨true, true⟩, DelayCall.set_delay_in 9), (⟨true, true⟩, DelayCall.set_delay_out 4)]
      (by decide)).1,
   (delay_lines_invariant SurroundSend.new
      [(⟨true, true⟩, DelayCall.set_delay_in 9), (⟨true, true⟩, DelayCall.set_delay_out 4)]
      (by decide)).2 [(⟨true, true⟩, DelayCall.set_delay_in 9)] ⟨true, true⟩
      (DelayCall.set_delay_out 4) rfl (by decide)⟩

/-- C9, counterexample: a Send Stage whose activation is pending, after `set_delay_in (5)`
has been applied: `send_delay` has length 5 and `signal_latency ()` returns 0. -/
theorem signal_latency_send_delay_counterexample :
    (SurroundSend.set_delay_in ⟨true, true, [], [], 0, 0, ⟨0⟩, ⟨0⟩⟩
        ⟨true, false⟩ 5).1._pending_active = true ∧
    (SurroundSend.set_delay_in ⟨true, true, [], [], 0, 0, ⟨0⟩, ⟨0⟩⟩
        ⟨true, false⟩ 5).1._send_delay.delay = 5 ∧
    (SurroundSend.set_delay_in ⟨true, true, [], [], 0, 0, ⟨0⟩, ⟨0⟩⟩
        ⟨true, false⟩ 5).1.signal_latency = 0 := by
  decide

/-- C9, amended: `signal_latency ()` returns `max (delay_out - delay_in) 0` when the stage's
activation is pending (`_pending_active`) and 0 otherwise, for every pair
(`delay_in`, `delay_out`); this is the length that `update_delaylines` gives to `thru_delay`
(not `send_delay`) whenever it sets the delay lines. -/
theorem signal_latency_value (self : SurroundSend) :
    self.signal_latency
      = (if self._pending_active = true then max (self._delay_out - self._delay_in) 0 else 0) ∧
    (∀ (engine : AudioEngine) (rt_ok : Bool),
      (!rt_ok && engine.running && engine.in_process_thread) = false →
      (self.update_delaylines engine rt_ok).1.signal_latency
        = (if self._pending_active = true
            then (self.update_delaylines engine rt_ok).1._thru_delay.delay else 0)) := by
  have key : ∀ s : SurroundSend, s.signal_latency
      = (if s._pending_active = true then max (s._delay_out - s._delay_in) 0 else 0) := by
    intro s
    unfold SurroundSend.signal_latency
    cases s._pending_active
    · simp
    · simp only [Bool.not_true, Bool.false_eq_true, if_false, if_true]
      split_ifs <;> omega
  refine ⟨key self, ?_⟩
  intro engine rt_ok h
  obtain ⟨-, h2, h3, h4, h5⟩ := update_delaylines_applied self engine rt_ok h
  rw [key, h2, h3, h4, h5]

/-- C9, witness: a pending stage with `delay_in = 2`, `delay_out = 9`, delay lines set
outside the process thread: `signal_latency ()` is 7, the length of `thru_delay`. -/
theorem signal_latency_value_witness :
    (!true && true && false) = false ∧
    (SurroundSend.update_delaylines ⟨true, true, [], [], 2, 9, ⟨0⟩, ⟨0⟩⟩
        ⟨true, false⟩ true).1.signal_latency
      = (if (SurroundSend.mk true true [] [] 2 9 ⟨0⟩ ⟨0⟩)._pending_active = true
          then (SurroundSend.update_delaylines ⟨true, true, [], [], 2, 9, ⟨0⟩, ⟨0⟩⟩
            ⟨true, false⟩ true).1._thru_delay.delay else 0) ∧
    (SurroundSend.update_delaylines ⟨true, true, [], [], 2, 9, ⟨0⟩, ⟨0⟩⟩
        ⟨true, false⟩ true).1._thru_delay.delay = 7 :=
  ⟨rfl,
   (signal_latency_value ⟨true, true, [], [], 2, 9, ⟨0⟩, ⟨0⟩⟩).2 ⟨true, false⟩ true rfl,
   by decide⟩

/-- C10, counterexample: `set_delay_out (5)` on a new Send Stage, called inside the process
thread of a running engine.  The split differs from the current lengths (0 and 0), yet the
length of `thru_delay` changes from 0 to 5 and no `QueueUpdate` is raised. -/
theorem set_delay_out_not_deferred_counterexample :
    SurroundSend.new._thru_delay.delay = 0 ∧
    (SurroundSend.new.set_delay_out ⟨true, true⟩ 5).1._thru_delay.delay = 5 ∧
    (SurroundSend.new.set_delay_out ⟨true, true⟩ 5).2 = [] := by
  decide

/-- C10, amended: deferral applies to `set_delay_in` only.  For `set_delay_in` with a new
value, called inside the process thread of a running engine, neither delay line (nor anything
but `_delay_in`) is changed, and `QueueUpdate` is raised exactly when the resulting split
differs from the delay lines' current lengths; called outside the process thread, or with the
engine stopped, the new split is applied synchronously.  `set_delay_out` with a new value
applies the new split synchronously in every condition of the engine and never raises
`QueueUpdate`. -/
theorem deferred_application (self : SurroundSend) (engine : AudioEngine) (delay : Int) :
    (self._delay_in ≠ delay → engine.running = true → engine.in_process_thread = true →
      (self.set_delay_in engine delay).1._send_delay = self._send_delay ∧
      (self.set_delay_in engine delay).1._thru_delay = self._thru_delay ∧
      (self.set_delay_in engine delay).1._delay_in = delay ∧
      ((self._send_delay.delay ≠ max (delay - self._delay_out) 0 ∨
          self._thru_delay.delay ≠ max (self._delay_out - delay) 0) →
        (self.set_delay_in engine delay).2 = [Signal.QueueUpdate]) ∧
      ((self._send_delay.delay = max (delay - self._delay_out) 0 ∧
          self._thru_delay.delay = max (self._delay_out - delay) 0) →
        (self.set_delay_in engine delay).2 = [])) ∧
    (self._delay_in ≠ delay → (engine.running && engine.in_process_thread) = false →
      (self.set_delay_in engine delay).1._send_delay.delay = max (delay - self._delay_out) 0 ∧
      (self.set_delay_in engine delay).1._thru_delay.delay = max (self._delay_out - delay) 0 ∧
      Signal.QueueUpdate ∉ (self.set_delay_in engine delay).2) ∧
    (self._delay_out ≠ delay →
      (self.set_delay_out engine delay).1._send_delay.delay = max (self._delay_in - delay) 0 ∧
      (self.set_delay_out engine delay).1._thru_delay.delay = max (delay - self._delay_in) 0 ∧
      Signal.QueueUpdate ∉ (self.set_delay_out engine delay).2) := by
  have noq : ∀ (s : SurroundSend) (e : AudioEngine) (ok : Bool),
      (!ok && e.running && e.in_process_thread) = false →
      Signal.QueueUpdate ∉ (s.update_delaylines e ok).2 := by
    intro s e ok h
    unfold SurroundSend.update_delaylines
    rw [h]
    simp only [Bool.false_eq_true, if_false]
    split_ifs <;> simp
  refine ⟨?_, ?_, ?_⟩
  · intro hd hr hp
    simp only [SurroundSend.set_delay_in, if_neg hd]
    obtain ⟨h1, h2, h3⟩ := update_delaylines_deferred
      { self with _delay_in := delay } engine false (by simp [hr, hp])
    rw [h1]
    exact ⟨rfl, rfl, rfl, h2, h3⟩
  · intro hd he
    simp only [SurroundSend.set_delay_in, if_neg hd]
    have hc : (!false && engine.running && engine.in_process_thread) = false := by
      simpa using he
    obtain ⟨h1, h2, -⟩ := update_delaylines_applied
      { self with _delay_in := delay } engine false hc
    exact ⟨h1, h2, noq _ engine false hc⟩
  · intro hd
    simp only [SurroundSend.set_delay_out, if_neg hd]
    obtain ⟨h1, h2, -⟩ := update_delaylines_applied
      { self with _delay_out := delay } engine true (by simp)
    exact ⟨h1, h2, noq _ engine true (by simp)⟩

/-- C10, witness: on a new Send Stage inside the process thread of a running engine,
`set_delay_in (3)` leaves both delay lines alone and raises `QueueUpdate`. -/
theorem deferred_application_witness :
    SurroundSend.new._delay_in ≠ 3 ∧
    (SurroundSend.new.set_delay_in ⟨true, true⟩ 3).1._send_delay = SurroundSend.new._send_delay ∧
    (SurroundSend.new.set_delay_in ⟨true, true⟩ 3).1._thru_delay = SurroundSend.new._thru_delay ∧
    (SurroundSend.new.set_delay_in ⟨true, true⟩ 3).2 = [Signal.QueueUpdate] :=
  ⟨by decide,
   ((deferred_application SurroundSend.new ⟨true, true⟩ 3).1 (by decide) rfl rfl).1,
   ((deferred_application SurroundSend.new ⟨true, true⟩ 3).1 (by decide) rfl rfl).2.1,
   ((deferred_application SurroundSend.new ⟨true, true⟩ 3).1 (by decide) rfl rfl).2.2.2.1
     (by decide)⟩

/-! ## Return Stage: operations on one slot -/

theorem slot_eq_refl (k : Nat) (a : SurroundReturn) : slot_eq k a a :=
  ⟨rfl, rfl, rfl⟩

theorem slot_eq_symm {k : Nat} {a b : SurroundReturn} (h : slot_eq k a b) : slot_eq k b a :=
  ⟨h.1.symm, h.2.1.symm, h.2.2.symm⟩

theorem slot_eq_trans {k : Nat} {a b c : SurroundReturn} (h1 : slot_eq k a b)
    (h2 : slot_eq k b c) : slot_eq k a c :=
  ⟨h1.1.trans h2.1, h1.2.1.trans h2.2.1, h1.2.2.trans h2.2.2⟩

theorem metadata_msg_channel (id sample : Nat) (v : Nat → pan_t) :
    (metadata_msg id sample v).channel = some id := by
  rfl

theorem local_op_seq {id : Nat} {f g : SurroundReturn → SurroundReturn × List Event}
    (hf : local_op id f) (hg : local_op id g) :
    local_op id (fun self => ((g (f self).1).1, (f self).2 ++ (g (f self).1).2)) := by
  obtain ⟨f1, f2, f3, f4⟩ := hf
  obtain ⟨g1, g2, g3, g4⟩ := hg
  refine ⟨?_, ?_, ?_, ?_⟩
  · intro self e he
    rcases List.mem_append.1 he with h | h
    · exact f1 self e h
    · exact g1 _ e h
  · intro self k hk
    exact slot_eq_trans (g2 _ k hk) (f2 self k hk)
  · intro self
    exact ⟨(g3 _).1.trans (f3 self).1, (g3 _).2.trans (f3 self).2⟩
  · intro a b hab
    obtain ⟨e1, s1⟩ := f4 a b hab
    obtain ⟨e2, s2⟩ := g4 _ _ s1
    exact ⟨by simp only [e1, e2], s2⟩

theorem maybe_send_metadata_fst (self : SurroundReturn) (id sample : Nat) (v : Nat → pan_t) :
    (self.maybe_send_metadata id sample v).1 =
      { self with
        _current_value := fun j i =>
          if j = id ∧ i < num_pan_parameters then v i else self._current_value j i } := by
  unfold SurroundReturn.maybe_send_metadata
  dsimp only
  split_ifs <;> rfl

theorem maybe_send_metadata_snd (self : SurroundReturn) (id sample : Nat) (v : Nat → pan_t) :
    (self.maybe_send_metadata id sample v).2 =
      if ∃ i, i < num_pan_parameters ∧ (self._current_value id i).ne (v i) = true
      then [Event.write_from_ui (metadata_msg id sample v)] else [] := by
  unfold SurroundReturn.maybe_send_metadata
  by_cases h : ∃ i, i < num_pan_parameters ∧ (self._current_value id i).ne (v i) = true
  · have hc : (List.range num_pan_parameters).any
        (fun i => (self._current_value id i).ne (v i)) = true := by
      obtain ⟨i, hi, hne⟩ := h
      exact List.any_eq_true.2 ⟨i, List.mem_range.2 hi, hne⟩
    simp only [hc, if_pos h, Bool.not_true, Bool.false_eq_true, if_false]
  · have hc : (List.range num_pan_parameters).any
        (fun i => (self._current_value id i).ne (v i)) = false := by
      rw [Bool.eq_false_iff]
      intro hany
      obtain ⟨i, hi, hne⟩ := List.any_eq_true.1 hany
      exact h ⟨i, List.mem_range.1 hi, hne⟩
    simp only [hc, if_neg h, Bool.not_false, if_true]

theorem maybe_send_metadata_local (id sample : Nat) (v : Nat → pan_t) :
    local_op id (fun self => self.maybe_send_metadata id sample v) := by
  refine ⟨?_, ?_, ?_, ?_⟩
  · intro self e he
    simp only [maybe_send_metadata_snd] at he
    split_ifs at he
    · rw [List.mem_singleton.1 he]
      exact metadata_msg_channel id sample v
    · cases he
  · intro self k hk
    simp only [maybe_send_metadata_fst]
    refine ⟨?_, rfl, rfl⟩
    funext i
    simp [hk]
  · intro self
    rw [maybe_send_metadata_fst]
    exact ⟨rfl, rfl⟩
  · intro a b hab
    simp only [maybe_send_metadata_fst, maybe_send_metadata_snd]
    refine ⟨?_, ?_, hab.2.1, hab.2.2⟩
    · rw [hab.1]
    · funext i
      simp only [true_and]
      rw [hab.1]

theorem evaluate_local (id : Nat) (p : SurroundPannable) (when : Int) (sample : Nat) :
    local_op id (fun self => self.evaluate id p when sample) := by
  obtain ⟨m1, m2, m3, m4⟩ := maybe_send_metadata_local id sample
    (fun i => ((p.control i).rt_safe_eval when).1)
  unfold SurroundReturn.evaluate
  by_cases hok : (((p.control 0).rt_safe_eval when).2 && ((p.control 1).rt_safe_eval when).2 &&
      ((p.control 2).rt_safe_eval when).2 && ((p.control 3).rt_safe_eval when).2 &&
      ((p.control 4).rt_safe_eval when).2) = true
  · simp only [hok, if_true]
    refine ⟨?_, m2, m3, ?_⟩
    · intro self e he
      rcases List.mem_cons.1 he with h | h
      · rw [h]; rfl
      · exact m1 self e h
    · intro a b hab
      obtain ⟨e1, s1⟩ := m4 a b hab
      exact ⟨by simp only [e1], s1⟩
  · simp only [hok, if_false]
    refine ⟨?_, ?_, ?_, ?_⟩
    · intro self e he
      rw [List.mem_singleton.1 he]; rfl
    · intro self k _
      exact slot_eq_refl k self
    · intro self
      exact ⟨rfl, rfl⟩
    · intro a b hab
      exact ⟨rfl, hab⟩

theorem local_op_skip (id : Nat) : local_op id (fun self => (self, [])) :=
  ⟨fun _ _ he => (List.not_mem_nil _ he).elim, fun self k _ => slot_eq_refl k self,
    fun _ => ⟨rfl, rfl⟩, fun _ _ hab => ⟨rfl, hab⟩⟩

theorem scan_events_local (id : Nat) (p : SurroundPannable) (start_sample : Int)
    (nframes : Nat) (stop : Int) (fuel : Nat) :
    ∀ start : Int, local_op id
      (fun self => SurroundReturn.scan_events id p start_sample nframes stop fuel start self) := by
  induction fuel with
  | zero =>
    intro start
    exact local_op_skip id
  | succ fuel ih =>
    intro start
    cases hf : p.find_next_event start stop with
    | none =>
      have e : (fun self => SurroundReturn.scan_events id p start_sample nframes stop
          (fuel + 1) start self) = (fun self => (self, [])) := by
        funext self
        simp only [SurroundReturn.scan_events, hf]
      rw [e]
      exact local_op_skip id
    | some t =>
      have e : (fun self => SurroundReturn.scan_events id p start_sample nframes stop
          (fuel + 1) start self) =
          (fun self =>
            ((SurroundReturn.scan_events id p start_sample nframes stop fuel t
                (self.evaluate id p t
                  (min (t - start_sample) ((nframes : Int) - 1)).toNat).1).1,
              (self.evaluate id p t (min (t - start_sample) ((nframes : Int) - 1)).toNat).2 ++
                (SurroundReturn.scan_events id p start_sample nframes stop fuel t
                  (self.evaluate id p t
                    (min (t - start_sample) ((nframes : Int) - 1)).toNat).1).2)) := by
        funext self
        simp only [SurroundReturn.scan_events, hf]
      rw [e]
      exact local_op_seq (evaluate_local id p t _) (ih t)

theorem object_metadata_local (id : Nat) (p : SurroundPannable) (start_sample end_sample : Int)
    (nframes : Nat) :
    local_op id (fun self => self.object_metadata id p start_sample end_sample nframes) := by
  unfold SurroundReturn.object_metadata
  split_ifs
  · exact maybe_send_metadata_local id 0 p.values
  · exact evaluate_local id p start_sample 0
  · exact local_op_seq (scan_events_local id p start_sample nframes (end_sample - 1) _ _)
      (evaluate_local id p (end_sample - 1) (nframes - 1))

theorem object_render_mode_fst (self : SurroundReturn) (id : Nat) (p : SurroundPannable) :
    (self.object_render_mode id p).1 =
      { self with
        _current_render_mode := fun j =>
          if j = id then p.binaural_render_mode else self._current_render_mode j } := by
  unfold SurroundReturn.object_render_mode
  dsimp only
  split_ifs with h
  · rfl
  · have e : (fun j => if j = id then p.binaural_render_mode else self._current_render_mode j)
        = self._current_render_mode := by
      funext j
      split_ifs with hj
      · rw [hj]; exact not_not.1 h
      · rfl
    simp only [e]

theorem render_mode_msg_channel (id : Nat) (brm : Int) :
    ∀ e ∈ forge_int_msg URID.surr_Settings URID.surr_Channel id
      (some URID.surr_BinauralRenderMode) brm, e.slot = some id := by
  intro e he
  rw [List.mem_singleton.1 he]
  rfl

theorem object_render_mode_local (id : Nat) (p : SurroundPannable) :
    local_op id (fun self => self.object_render_mode id p) := by
  refine ⟨?_, ?_, ?_, ?_⟩
  · intro self e he
    unfold SurroundReturn.object_render_mode at he
    dsimp only at he
    split_ifs at he
    · exact render_mode_msg_channel id _ e he
    · cases he
  · intro self k hk
    simp only [object_render_mode_fst]
    refine ⟨rfl, ?_, rfl⟩
    simp [hk]
  · intro self
    rw [object_render_mode_fst]
    exact ⟨rfl, rfl⟩
  · intro a b hab
    refine ⟨?_, ?_⟩
    · unfold SurroundReturn.object_render_mode
      dsimp only
      rw [hab.2.1]
      split_ifs <;> rfl
    · simp only [object_render_mode_fst]
      refine ⟨hab.1, ?_, hab.2.2⟩
      simp

theorem read_from_local (ri s id : Nat) (src_ab : AudioBuffer) (nframes : Nat) :
    local_op id (fun self =>
      (self.read_channel id src_ab nframes, [Event.assign ri s id, Event.read_from id])) := by
  unfold SurroundReturn.read_channel
  refine ⟨?_, ?_, ?_, ?_⟩
  · intro self e he
    simp only [List.mem_cons, List.mem_singleton, List.not_mem_nil, or_false] at he
    rcases he with h | h <;> rw [h] <;> rfl
  · intro self k hk
    refine ⟨rfl, rfl, ?_⟩
    simp [hk]
  · intro self
    exact ⟨rfl, rfl⟩
  · intro a b hab
    refine ⟨rfl, hab.1, hab.2.1, ?_⟩
    simp only [if_true]
    rw [hab.2.2]

theorem merge_from_local (ri s id : Nat) (src_ab : AudioBuffer) (nframes : Nat) :
    local_op id (fun self =>
      (self.merge_channel id src_ab nframes, [Event.assign ri s id, Event.merge_from id])) := by
  unfold SurroundReturn.merge_channel
  refine ⟨?_, ?_, ?_, ?_⟩
  · intro self e he
    simp only [List.mem_cons, List.mem_singleton, List.not_mem_nil, or_false] at he
    rcases he with h | h <;> rw [h] <;> rfl
  · intro self k hk
    refine ⟨rfl, rfl, ?_⟩
    simp [hk]
  · intro self
    exact ⟨rfl, rfl⟩
  · intro a b hab
    refine ⟨rfl, hab.1, hab.2.1, ?_⟩
    simp only [if_true]
    rw [hab.2.2]

theorem process_channel_local (ri : Nat) (ss : SurroundSend) (s id : Nat)
    (start_sample end_sample : Int) (nframes : Nat) :
    local_op id
      (fun self => self.process_channel ri ss s id start_sample end_sample nframes) := by
  unfold SurroundReturn.process_channel
  dsimp only
  split_ifs
  · exact local_op_seq (read_from_local ri s id _ nframes)
      (local_op_seq (object_metadata_local id _ start_sample end_sample nframes)
        (object_render_mode_local id _))
  · exact merge_from_local ri s id _ nframes

/-! ## Return Stage: kinds of events -/

theorem maybe_send_metadata_metadata_events (self : SurroundReturn) (id sample : Nat)
    (v : Nat → pan_t) :
    ∀ e ∈ (self.maybe_send_metadata id sample v).2, e.is_metadata_event = true := by
  intro e he
  rw [maybe_send_metadata_snd] at he
  split_ifs at he
  · rw [List.mem_singleton.1 he]; rfl
  · cases he

theorem evaluate_metadata_events (self : SurroundReturn) (id : Nat) (p : SurroundPannable)
    (when : Int) (sample : Nat) :
    ∀ e ∈ (self.evaluate id p when sample).2, e.is_metadata_event = true := by
  intro e he
  unfold SurroundReturn.evaluate at he
  dsimp only at he
  split_ifs at he
  · rcases List.mem_cons.1 he with h | h
    · rw [h]; rfl
    · exact maybe_send_metadata_metadata_events _ _ _ _ e h
  · rw [List.mem_singleton.1 he]; rfl

theorem scan_events_metadata_events (id : Nat) (p : SurroundPannable) (start_sample : Int)
    (nframes : Nat) (stop : Int) (fuel : Nat) :
    ∀ (start : Int) (self : SurroundReturn),
      ∀ e ∈ (SurroundReturn.scan_events id p start_sample nframes stop fuel start self).2,
        e.is_metadata_event = true := by
  induction fuel with
  | zero =>
    intro start self e he
    cases he
  | succ fuel ih =>
    intro start self e he
    unfold SurroundReturn.scan_events at he
    cases hf : p.find_next_event start stop with
    | none =>
      rw [hf] at he
      cases he
    | some t =>
      rw [hf] at he
      dsimp only at he
      rcases List.mem_append.1 he with h | h
      · exact evaluate_metadata_events _ _ _ _ _ e h
      · exact ih _ _ e h

theorem object_metadata_metadata_events (self : SurroundReturn) (id : Nat)
    (p : SurroundPannable) (start_sample end_sample : Int) (nframes : Nat) :
    ∀ e ∈ (self.object_metadata id p start_sample end_sample nframes).2,
      e.is_metadata_event = true := by
  intro e he
  unfold SurroundReturn.object_metadata at he
  split_ifs at he
  · exact maybe_send_metadata_metadata_events _ _ _ _ e he
  · exact evaluate_metadata_events _ _ _ _ _ e he
  · dsimp only at he
    rcases List.mem_append.1 he with h | h
    · exact scan_events_metadata_events _ _ _ _ _ _ _ _ e h
    · exact evaluate_metadata_events _ _ _ _ _ e h

theorem metadata_event_object_event (e : Event) (h : e.is_metadata_event = true) :
    e.is_object_event = true := by
  cases e <;> simp_all [Event.is_metadata_event, Event.is_object_event]

theorem object_render_mode_object_events (self : SurroundReturn) (id : Nat)
    (p : SurroundPannable) :
    ∀ e ∈ (self.object_render_mode id p).2, e.is_object_event = true := by
  intro e he
  unfold SurroundReturn.object_render_mode at he
  dsimp only at he
  split_ifs at he
  · rw [List.mem_singleton.1 he]; rfl
  · cases he

theorem assigned_append (l1 l2 : List Event) :
    assigned (l1 ++ l2) = assigned l1 ++ assigned l2 := by
  unfold assigned
  exact List.filterMap_append _ _ _

theorem assigned_object_events (l : List Event)
    (h : ∀ e ∈ l, e.is_object_event = true) : assigned l = [] := by
  induction l with
  | nil => rfl
  | cons e rest ih =>
    have hr := ih (fun x hx => h x (List.mem_cons_of_mem _ hx))
    have he := h e (List.mem_cons_self _ _)
    unfold assigned at hr ⊢
    cases e <;> simp_all [Event.is_object_event]

/-- The events of the body of the channel loop: the assignment, the audio operation, and for
an object its metadata and render-mode events. -/
theorem process_channel_events (self : SurroundReturn) (ri : Nat) (ss : SurroundSend)
    (s id : Nat) (start_sample end_sample : Int) (nframes : Nat) :
    ∃ rest : List Event,
      (self.process_channel ri ss s id start_sample end_sample nframes).2
        = Event.assign ri s id ::
          (if id > 9 then Event.read_from id else Event.merge_from id) :: rest ∧
      (∀ e ∈ rest, e.is_object_event = true) ∧
      (id > 9 → rest =
        ((self.read_channel id (ss.get_audio s) nframes).object_metadata id (ss.pan_param s)
            start_sample end_sample nframes).2 ++
          (((self.read_channel id (ss.get_audio s) nframes).object_metadata id (ss.pan_param s)
            start_sample end_sample nframes).1.object_render_mode id (ss.pan_param s)).2) := by
  unfold SurroundReturn.process_channel
  dsimp only
  split_ifs with h
  · refine ⟨_, rfl, ?_, fun _ => rfl⟩
    intro e he
    rcases List.mem_append.1 he with h1 | h1
    · exact metadata_event_object_event e (object_metadata_metadata_events _ _ _ _ _ _ e h1)
    · exact object_render_mode_object_events _ _ _ e h1
  · exact ⟨[], rfl, fun e he => (List.not_mem_nil _ he).elim, fun h9 => absurd h9 h⟩

theorem process_channel_assigned (self : SurroundReturn) (ri : Nat) (ss : SurroundSend)
    (s id : Nat) (start_sample end_sample : Int) (nframes : Nat) :
    assigned (self.process_channel ri ss s id start_sample end_sample nframes).2
      = [(ri, s, id)] := by
  obtain ⟨rest, h1, h2, -⟩ :=
    process_channel_events self ri ss s id start_sample end_sample nframes
  rw [h1]
  have hr := assigned_object_events rest h2
  unfold assigned at hr ⊢
  split_ifs <;> simp [hr]

/-! ## Return Stage: the channel loop -/

theorem slot_events_append (k : Nat) (l1 l2 : List Event) :
    slot_events k (l1 ++ l2) = slot_events k l1 ++ slot_events k l2 := by
  unfold slot_events
  exact List.filter_append _ _

theorem slot_events_all (k : Nat) (l : List Event) (h : ∀ e ∈ l, e.slot = some k) :
    slot_events k l = l := by
  unfold slot_events
  exact List.filter_eq_self.2 (fun e he => decide_eq_true (h e he))

theorem slot_events_none (k : Nat) (l : List Event) (h : ∀ e ∈ l, e.slot ≠ some k) :
    slot_events k l = [] := by
  unfold slot_events
  exact List.filter_eq_nil_iff.2 (fun e he => by simpa using h e he)

theorem channel_loop_full (ri : Nat) (ss : SurroundSend) (start_sample end_sample : Int)
    (nframes left s id : Nat) (self : SurroundReturn) (h : max_object_id ≤ id) :
    SurroundReturn.channel_loop ri ss start_sample end_sample nframes left s id self
      = (self, id, []) := by
  cases left with
  | zero => rfl
  | succ left =>
    unfold SurroundReturn.channel_loop
    rw [if_neg (by omega)]

theorem channel_loop_step (ri : Nat) (ss : SurroundSend) (start_sample end_sample : Int)
    (nframes left s id : Nat) (self : SurroundReturn) (h : id < max_object_id) :
    SurroundReturn.channel_loop ri ss start_sample end_sample nframes (left + 1) s id self
      = ((SurroundReturn.channel_loop ri ss start_sample end_sample nframes left (s + 1) (id + 1)
            (self.process_channel ri ss s id start_sample end_sample nframes).1).1,
         (SurroundReturn.channel_loop ri ss start_sample end_sample nframes left (s + 1) (id + 1)
            (self.process_channel ri ss s id start_sample end_sample nframes).1).2.1,
         (self.process_channel ri ss s id start_sample end_sample nframes).2 ++
         (SurroundReturn.channel_loop ri ss start_sample end_sample nframes left (s + 1) (id + 1)
            (self.process_channel ri ss s id start_sample end_sample nframes).1).2.2) := by
  conv_lhs => unfold SurroundReturn.channel_loop
  rw [if_pos h]

/-- The id counter after the channel loop. -/
theorem channel_loop_counter (ri : Nat) (ss : SurroundSend) (start_sample end_sample : Int)
    (nframes left : Nat) :
    ∀ (s id : Nat) (self : SurroundReturn),
      (SurroundReturn.channel_loop ri ss start_sample end_sample nframes left s id self).2.1
        = max id (min (id + left) max_object_id) := by
  induction left with
  | zero =>
    intro s id self
    simp [SurroundReturn.channel_loop]
  | succ left ih =>
    intro s id self
    by_cases h : id < max_object_id
    · rw [channel_loop_step _ _ _ _ _ _ _ _ _ h]
      simp only [ih]
      omega
    · rw [channel_loop_full _ _ _ _ _ _ _ _ _ (by omega)]
      simp only
      omega

/-- Every event of the channel loop is about a slot from the counter at entry up to the
counter at exit; the data of all other slots, the stored count and the flush flag are
untouched. -/
theorem channel_loop_range (ri : Nat) (ss : SurroundSend) (start_sample end_sample : Int)
    (nframes left : Nat) :
    ∀ (s id : Nat) (self : SurroundReturn),
      (∀ e ∈ (SurroundReturn.channel_loop ri ss start_sample end_sample nframes
          left s id self).2.2,
        ∃ k, e.slot = some k ∧ id ≤ k ∧ k < max id (min (id + left) max_object_id)) ∧
      (∀ k, (k < id ∨ max id (min (id + left) max_object_id) ≤ k) →
        slot_eq k (SurroundReturn.channel_loop ri ss start_sample end_sample nframes
          left s id self).1 self) ∧
      (SurroundReturn.channel_loop ri ss start_sample end_sample nframes
          left s id self).1._current_n_objects = self._current_n_objects ∧
      (SurroundReturn.channel_loop ri ss start_sample end_sample nframes
          left s id self).1._flush = self._flush := by
  induction left with
  | zero =>
    intro s id self
    exact ⟨fun e he => (List.not_mem_nil _ he).elim, fun k _ => slot_eq_refl k self, rfl, rfl⟩
  | succ left ih =>
    intro s id self
    by_cases h : id < max_object_id
    · rw [channel_loop_step _ _ _ _ _ _ _ _ _ h]
      obtain ⟨p1, p2, p3, -⟩ :=
        process_channel_local ri ss s id start_sample end_sample nframes
      obtain ⟨i1, i2, i3, i4⟩ := ih (s + 1) (id + 1)
        (self.process_channel ri ss s id start_sample end_sample nframes).1
      have hm : max_object_id = 128 := rfl
      refine ⟨?_, ?_, ?_, ?_⟩
      · intro e he
        rcases List.mem_append.1 he with h1 | h1
        · exact ⟨id, p1 self e h1, le_refl _, by omega⟩
        · obtain ⟨k, hk, hk1, hk2⟩ := i1 e h1
          exact ⟨k, hk, by omega, by omega⟩
      · intro k hk
        exact slot_eq_trans (i2 k (by omega)) (p2 self k (by omega))
      · exact i3.trans (p3 self).1
      · exact i4.trans (p3 self).2
    · rw [channel_loop_full _ _ _ _ _ _ _ _ _ (by omega)]
      exact ⟨fun e he => (List.not_mem_nil _ he).elim, fun k _ => slot_eq_refl k self,
        rfl, rfl⟩

/-- The channel loop assigns consecutive ids to consecutive channels, up to id 127. -/
theorem channel_loop_assigned (ri : Nat) (ss : SurroundSend) (start_sample end_sample : Int)
    (nframes left : Nat) :
    ∀ (s id : Nat) (self : SurroundReturn),
      assigned (SurroundReturn.channel_loop ri ss start_sample end_sample nframes
          left s id self).2.2
        = List.zipWith (fun c k => (ri, c, k)) (List.range' s left)
            (List.range' id (max_object_id - id)) := by
  induction left with
  | zero =>
    intro s id self
    rfl
  | succ left ih =>
    intro s id self
    by_cases h : id < max_object_id
    · rw [channel_loop_step _ _ _ _ _ _ _ _ _ h]
      have e : max_object_id - id = (max_object_id - (id + 1)) + 1 := by omega
      rw [e, List.range'_succ, List.range'_succ, List.zipWith_cons_cons]
      simp only [assigned_append, process_channel_assigned, ih]
      rfl
    · rw [channel_loop_full _ _ _ _ _ _ _ _ _ (by omega)]
      have e : max_object_id - id = 0 := by omega
      rw [e]
      simp [assigned]

/-- The events of the channel loop about one of its slots are the events of the loop body
for the channel that got the slot, and the data of the slot is what the body leaves. -/
theorem channel_loop_slot (ri : Nat) (ss : SurroundSend) (start_sample end_sample : Int)
    (nframes left : Nat) :
    ∀ (s id : Nat) (self : SurroundReturn) (m : Nat), m < left → id + m < max_object_id →
      slot_events (id + m) (SurroundReturn.channel_loop ri ss start_sample end_sample nframes
          left s id self).2.2
        = (self.process_channel ri ss (s + m) (id + m) start_sample end_sample nframes).2 ∧
      slot_eq (id + m) (SurroundReturn.channel_loop ri ss start_sample end_sample nframes
          left s id self).1
        (self.process_channel ri ss (s + m) (id + m) start_sample end_sample nframes).1 := by
  induction left with
  | zero =>
    intro s id self m hm
    omega
  | succ left ih =>
    intro s id self m hm hlt
    have h : id < max_object_id := by omega
    rw [channel_loop_step _ _ _ _ _ _ _ _ _ h]
    obtain ⟨p1, p2, -, p4⟩ := process_channel_local ri ss s id start_sample end_sample nframes
    obtain ⟨r1, r2, -, -⟩ := channel_loop_range ri ss start_sample end_sample nframes left
      (s + 1) (id + 1) (self.process_channel ri ss s id start_sample end_sample nframes).1
    cases m with
    | zero =>
      simp only [Nat.add_zero, slot_events_append]
      rw [slot_events_all _ _ (p1 self), slot_events_none, List.append_nil]
      · exact ⟨rfl, r2 id (Or.inl (Nat.lt_succ_self id))⟩
      · intro e he hs
        obtain ⟨k, hk, hk1, -⟩ := r1 e he
        rw [hk] at hs
        injection hs with hs
        omega
    | succ m =>
      obtain ⟨q1, q2, -, q4⟩ := process_channel_local ri ss (s + (m + 1)) (id + (m + 1))
        start_sample end_sample nframes
      have hne : id + (m + 1) ≠ id := by omega
      have hframe := p2 self (id + (m + 1)) hne
      obtain ⟨c1, c2⟩ := q4 _ _ hframe
      obtain ⟨i1, i2⟩ := ih (s + 1) (id + 1)
        (self.process_channel ri ss s id start_sample end_sample nframes).1 m
        (by omega) (by omega)
      have ea : id + 1 + m = id + (m + 1) := by omega
      have eb : s + 1 + m = s + (m + 1) := by omega
      rw [ea, eb] at i1 i2
      simp only [slot_events_append]
      rw [slot_events_none, List.nil_append]
      · exact ⟨i1.trans c1, slot_eq_trans i2 c2⟩
      · intro e he hs
        rw [p1 self e he] at hs
        injection hs with hs
        omega

/-! ## Return Stage: the route loop -/

theorem route_loop_skip (start_sample end_sample : Int) (nframes : Nat) (r : Route)
    (rest : RouteList) (ri id : Nat) (self : SurroundReturn) (h : r.active_send = none) :
    SurroundReturn.route_loop start_sample end_sample nframes (r :: rest) ri id self
      = SurroundReturn.route_loop start_sample end_sample nframes rest (ri + 1) id self := by
  conv_lhs => unfold SurroundReturn.route_loop
  unfold Route.active_send at h
  cases ha : r.active with
  | false => simp
  | true =>
    rw [ha] at h
    cases hs : r.surround_send with
    | none => simp
    | some ss =>
      rw [hs] at h
      cases hsa : ss.active with
      | false => simp [hsa]
      | true => simp [hsa] at h

theorem route_loop_visit (start_sample end_sample : Int) (nframes : Nat) (r : Route)
    (rest : RouteList) (ri id : Nat) (self : SurroundReturn) (ss : SurroundSend)
    (h : r.active_send = some ss) :
    SurroundReturn.route_loop start_sample end_sample nframes (r :: rest) ri id self
      = if (SurroundReturn.channel_loop ri ss start_sample end_sample nframes
            ss._mixbufs.length 0 id self).2.1 ≥ max_object_id
        then SurroundReturn.channel_loop ri ss start_sample end_sample nframes
            ss._mixbufs.length 0 id self
        else
          ((SurroundReturn.route_loop start_sample end_sample nframes rest (ri + 1)
              (SurroundReturn.channel_loop ri ss start_sample end_sample nframes
                ss._mixbufs.length 0 id self).2.1
              (SurroundReturn.channel_loop ri ss start_sample end_sample nframes
                ss._mixbufs.length 0 id self).1).1,
           (SurroundReturn.route_loop start_sample end_sample nframes rest (ri + 1)
              (SurroundReturn.channel_loop ri ss start_sample end_sample nframes
                ss._mixbufs.length 0 id self).2.1
              (SurroundReturn.channel_loop ri ss start_sample end_sample nframes
                ss._mixbufs.length 0 id self).1).2.1,
           (SurroundReturn.channel_loop ri ss start_sample end_sample nframes
                ss._mixbufs.length 0 id self).2.2 ++
           (SurroundReturn.route_loop start_sample end_sample nframes rest (ri + 1)
              (SurroundReturn.channel_loop ri ss start_sample end_sample nframes
                ss._mixbufs.length 0 id self).2.1
              (SurroundReturn.channel_loop ri ss start_sample end_sample nframes
                ss._mixbufs.length 0 id self).1).2.2) := by
  conv_lhs => unfold SurroundReturn.route_loop
  unfold Route.active_send at h
  cases ha : r.active with
  | false => simp [ha] at h
  | true =>
    rw [ha] at h
    cases hs : r.surround_send with
    | none => simp [hs] at h
    | some ss1 =>
      rw [hs] at h
      cases hsa : ss1.active with
      | false => simp [hsa] at h
      | true =>
        simp only [hsa, if_true] at h
        injection h with h
        subst h
        simp [hsa]

theorem total_channels_cons (r : Route) (rest : RouteList) :
    total_channels (r :: rest) = r.send_channels + total_channels rest := by
  simp [total_channels]

/-- The id counter after the route loop. -/
theorem route_loop_counter (start_sample end_sample : Int) (nframes : Nat) (rl : RouteList) :
    ∀ (ri id : Nat) (self : SurroundReturn),
      (SurroundReturn.route_loop start_sample end_sample nframes rl ri id self).2.1
        = max id (min (id + total_channels rl) max_object_id) := by
  induction rl with
  | nil =>
    intro ri id self
    simp [SurroundReturn.route_loop, total_channels]
  | cons r rest ih =>
    intro ri id self
    rw [total_channels_cons]
    cases h : r.active_send with
    | none =>
      rw [route_loop_skip _ _ _ _ _ _ _ _ h, ih]
      simp [Route.send_channels, h]
    | some ss =>
      rw [route_loop_visit _ _ _ _ _ _ _ _ ss h]
      have hc : r.send_channels = ss._mixbufs.length := by simp [Route.send_channels, h]
      rw [hc]
      split_ifs with hb
      · rw [channel_loop_counter] at hb ⊢
        omega
      · simp only [ih]
        rw [channel_loop_counter] at hb ⊢
        omega

/-- Every event of the route loop is about a slot from the counter at entry up to the
counter at exit; the data of all other slots, the stored count and the flush flag are
untouched. -/
theorem route_loop_range (start_sample end_sample : Int) (nframes : Nat) (rl : RouteList) :
    ∀ (ri id : Nat) (self : SurroundReturn),
      (∀ e ∈ (SurroundReturn.route_loop start_sample end_sample nframes rl ri id self).2.2,
        ∃ k, e.slot = some k ∧ id ≤ k ∧
          k < max id (min (id + total_channels rl) max_object_id)) ∧
      (∀ k, (k < id ∨ max id (min (id + total_channels rl) max_object_id) ≤ k) →
        slot_eq k (SurroundReturn.route_loop start_sample end_sample nframes rl ri id self).1
          self) ∧
      (SurroundReturn.route_loop start_sample end_sample nframes rl ri id
          self).1._current_n_objects = self._current_n_objects ∧
      (SurroundReturn.route_loop start_sample end_sample nframes rl ri id self).1._flush
        = self._flush := by
  induction rl with
  | nil =>
    intro ri id self
    exact ⟨fun e he => (List.not_mem_nil _ he).elim, fun k _ => slot_eq_refl k self, rfl, rfl⟩
  | cons r rest ih =>
    intro ri id self
    rw [total_channels_cons]
    cases h : r.active_send with
    | none =>
      rw [route_loop_skip _ _ _ _ _ _ _ _ h]
      have hc : r.send_channels = 0 := by simp [Route.send_channels, h]
      rw [hc, Nat.zero_add]
      exact ih (ri + 1) id self
    | some ss =>
      rw [route_loop_visit _ _ _ _ _ _ _ _ ss h]
      have hc : r.send_channels = ss._mixbufs.length := by simp [Route.send_channels, h]
      rw [hc]
      obtain ⟨c1, c2, c3, c4⟩ := channel_loop_range ri ss start_sample end_sample nframes
        ss._mixbufs.length 0 id self
      have hm : max_object_id = 128 := rfl
      have hcnt := channel_loop_counter ri ss start_sample end_sample nframes
        ss._mixbufs.length 0 id self
      split_ifs with hb
      · refine ⟨?_, ?_, c3, c4⟩
        · intro e he
          obtain ⟨k, hk, hk1, hk2⟩ := c1 e he
          exact ⟨k, hk, hk1, by omega⟩
        · intro k hk
          exact c2 k (by omega)
      · obtain ⟨i1, i2, i3, i4⟩ := ih (ri + 1)
          (SurroundReturn.channel_loop ri ss start_sample end_sample nframes
            ss._mixbufs.length 0 id self).2.1
          (SurroundReturn.channel_loop ri ss start_sample end_sample nframes
            ss._mixbufs.length 0 id self).1
        refine ⟨?_, ?_, i3.trans c3, i4.trans c4⟩
        · intro e he
          rcases List.mem_append.1 he with h1 | h1
          · obtain ⟨k, hk, hk1, hk2⟩ := c1 e h1
            exact ⟨k, hk, hk1, by omega⟩
          · obtain ⟨k, hk, hk1, hk2⟩ := i1 e h1
            exact ⟨k, hk, by omega, by omega⟩
        · intro k hk
          exact slot_eq_trans (i2 k (by omega)) (c2 k (by omega))

theorem zipWith_append_left_short {α β γ : Type} (f : α → β → γ) :
    ∀ (l1 l2 : List α) (r : List β), r.length ≤ l1.length →
      List.zipWith f (l1 ++ l2) r = List.zipWith f l1 r := by
  intro l1
  induction l1 with
  | nil =>
    intro l2 r hr
    have : r = [] := List.length_eq_zero.1 (Nat.le_zero.1 hr)
    subst this
    simp
  | cons a l1 ih =>
    intro l2 r hr
    cases r with
    | nil => simp
    | cons b r =>
      simp only [List.cons_append, List.zipWith_cons_cons]
      rw [ih l2 r (by simpa using hr)]

theorem walk_order_skip (ri : Nat) (r : Route) (rest : RouteList) (h : r.active_send = none) :
    walk_order ri (r :: rest) = walk_order (ri + 1) rest := by
  simp [walk_order, h]

theorem walk_order_visit (ri : Nat) (r : Route) (rest : RouteList) (ss : SurroundSend)
    (h : r.active_send = some ss) :
    walk_order ri (r :: rest)
      = (List.range ss._mixbufs.length).map (fun s => (ri, ss, s)) ++
          walk_order (ri + 1) rest := by
  simp [walk_order, h]

theorem walk_order_length (rl : RouteList) :
    ∀ ri : Nat, (walk_order ri rl).length = total_channels rl := by
  induction rl with
  | nil => intro ri; rfl
  | cons r rest ih =>
    intro ri
    rw [total_channels_cons]
    cases h : r.active_send with
    | none =>
      rw [walk_order_skip _ _ _ h, ih]
      simp [Route.send_channels, h]
    | some ss =>
      rw [walk_order_visit _ _ _ ss h]
      simp [Route.send_channels, h, ih]

/-- The route loop assigns consecutive ids, from the counter at entry up to 127, to the
channels in walk order. -/
theorem route_loop_assigned (start_sample end_sample : Int) (nframes : Nat) (rl : RouteList) :
    ∀ (ri id : Nat) (self : SurroundReturn),
      assigned (SurroundReturn.route_loop start_sample end_sample nframes rl ri id self).2.2
        = List.zipWith (fun c k => (c.1, c.2.2, k)) (walk_order ri rl)
            (List.range' id (max_object_id - id)) := by
  induction rl with
  | nil =>
    intro ri id self
    rfl
  | cons r rest ih =>
    intro ri id self
    cases h : r.active_send with
    | none =>
      rw [route_loop_skip _ _ _ _ _ _ _ _ h, walk_order_skip _ _ _ h]
      exact ih (ri + 1) id self
    | some ss =>
      rw [route_loop_visit _ _ _ _ _ _ _ _ ss h, walk_order_visit _ _ _ ss h]
      have hcnt := channel_loop_counter ri ss start_sample end_sample nframes
        ss._mixbufs.length 0 id self
      have hca := channel_loop_assigned ri ss start_sample end_sample nframes
        ss._mixbufs.length 0 id self
      have hm : max_object_id = 128 := rfl
      split_ifs with hb
      · rw [hca, zipWith_append_left_short, List.zipWith_map_left, List.range_eq_range']
        simp only [List.length_map, List.length_range, List.length_range']
        omega
      · have hlt : id + ss._mixbufs.length < max_object_id := by omega
        have e : max_object_id - id
            = (max_object_id - (id + ss._mixbufs.length)) + ss._mixbufs.length := by omega
        have hsplit : List.range' id (max_object_id - id)
            = List.range' id ss._mixbufs.length ++
              List.range' (id + ss._mixbufs.length)
                (max_object_id - (id + ss._mixbufs.length)) := by
          rw [e, ← List.range'_append_1]
        have hid : (SurroundReturn.channel_loop ri ss start_sample end_sample nframes
            ss._mixbufs.length 0 id self).2.1 = id + ss._mixbufs.length := by omega
        simp only [assigned_append]
        rw [ih, hca, hid, hsplit,
          List.zipWith_append _ _ _ _ _ (by simp), List.zipWith_map_left,
          List.range_eq_range']
        congr 1
        have h2 : List.range' 0 ss._mixbufs.length = List.range' 0 ss._mixbufs.length ++ [] := by
          simp
        conv_lhs => rw [h2]
        rw [List.zipWith_append _ _ _ _ _ (by simp)]
        simp

/-- The events of the route loop about the slot given to a channel are the events of the
loop body for that channel, and the data of the slot is what the body leaves. -/
theorem route_loop_slot (start_sample end_sample : Int) (nframes : Nat) (rl : RouteList) :
    ∀ (ri id : Nat) (self : SurroundReturn) (n i s : Nat) (ss : SurroundSend),
      (walk_order ri rl)[n]? = some (i, ss, s) → id + n < max_object_id →
      slot_events (id + n)
          (SurroundReturn.route_loop start_sample end_sample nframes rl ri id self).2.2
        = (self.process_channel i ss s (id + n) start_sample end_sample nframes).2 ∧
      slot_eq (id + n)
        (SurroundReturn.route_loop start_sample end_sample nframes rl ri id self).1
        (self.process_channel i ss s (id + n) start_sample end_sample nframes).1 := by
  induction rl with
  | nil =>
    intro ri id self n i s ss hw
    simp [walk_order] at hw
  | cons r rest ih =>
    intro ri id self n i s ss hw hlt
    cases h : r.active_send with
    | none =>
      rw [route_loop_skip _ _ _ _ _ _ _ _ h]
      rw [walk_order_skip _ _ _ h] at hw
      exact ih (ri + 1) id self n i s ss hw hlt
    | some ss1 =>
      rw [route_loop_visit _ _ _ _ _ _ _ _ ss1 h]
      rw [walk_order_visit _ _ _ ss1 h] at hw
      have hcnt := channel_loop_counter ri ss1 start_sample end_sample nframes
        ss1._mixbufs.length 0 id self
      obtain ⟨c1, c2, -, -⟩ := channel_loop_range ri ss1 start_sample end_sample nframes
        ss1._mixbufs.length 0 id self
      have hm : max_object_id = 128 := rfl
      by_cases hn : n < ss1._mixbufs.length
      · rw [List.getElem?_append_left (by simpa using hn)] at hw
        simp only [List.getElem?_map, List.getElem?_range hn, Option.map_some',
          Option.some.injEq, Prod.mk.injEq] at hw
        obtain ⟨hi, hss, hs⟩ := hw
        subst hi hss hs
        obtain ⟨d1, d2⟩ := channel_loop_slot ri ss1 start_sample end_sample nframes
          ss1._mixbufs.length 0 id self n hn hlt
        rw [Nat.zero_add] at d1 d2
        split_ifs with hb
        · exact ⟨d1, d2⟩
        · obtain ⟨i1, i2, -, -⟩ := route_loop_range start_sample end_sample nframes rest
            (ri + 1)
            (SurroundReturn.channel_loop ri ss1 start_sample end_sample nframes
              ss1._mixbufs.length 0 id self).2.1
            (SurroundReturn.channel_loop ri ss1 start_sample end_sample nframes
              ss1._mixbufs.length 0 id self).1
          simp only [slot_events_append]
          rw [d1, slot_events_none, List.append_nil]
          · exact ⟨rfl, slot_eq_trans (i2 (id + n) (Or.inl (by omega))) d2⟩
          · intro e he hs
            obtain ⟨k, hk, hk1, -⟩ := i1 e he
            rw [hk] at hs
            injection hs with hs
            omega
      · rw [List.getElem?_append_right (by simpa using hn)] at hw
        simp only [List.length_map, List.length_range] at hw
        have hid : (SurroundReturn.channel_loop ri ss1 start_sample end_sample nframes
            ss1._mixbufs.length 0 id self).2.1 = id + ss1._mixbufs.length := by omega
        rw [if_neg (by omega)]
        obtain ⟨i1, i2⟩ := ih (ri + 1)
          (SurroundReturn.channel_loop ri ss1 start_sample end_sample nframes
            ss1._mixbufs.length 0 id self).2.1
          (SurroundReturn.channel_loop ri ss1 start_sample end_sample nframes
            ss1._mixbufs.length 0 id self).1 (n - ss1._mixbufs.length) i s ss hw (by omega)
        have ea : (SurroundReturn.channel_loop ri ss1 start_sample end_sample nframes
            ss1._mixbufs.length 0 id self).2.1 + (n - ss1._mixbufs.length) = id + n := by
          omega
        rw [ea] at i1 i2
        obtain ⟨-, -, -, q4⟩ := process_channel_local i ss s (id + n)
          start_sample end_sample nframes
        obtain ⟨e1, e2⟩ := q4 _ _ (c2 (id + n) (Or.inr (by omega)))
        simp only [slot_events_append]
        rw [slot_events_none, List.nil_append]
        · exact ⟨i1.trans e1, slot_eq_trans i2 e2⟩
        · intro e he hs
          obtain ⟨k, hk, -, hk2⟩ := c1 e he
          rw [hk] at hs
          injection hs with hs
          omega

/-! ## Return Stage: positions in walk order -/

/-- Position `n` of the walk order holds channel `s` of the route at position `i` exactly
when that route is visited, has more than `s` channels, and `n` is the number of channels of
the earlier routes plus `s`. -/
theorem walk_order_index (rl : RouteList) :
    ∀ (ri n i s : Nat) (ss : SurroundSend),
      (walk_order ri rl)[n]? = some (i, ss, s) ↔
        ∃ r, ri ≤ i ∧ rl[i - ri]? = some r ∧ r.active_send = some ss ∧
          s < ss._mixbufs.length ∧ n = total_channels (rl.take (i - ri)) + s := by
  induction rl with
  | nil =>
    intro ri n i s ss
    simp [walk_order]
  | cons r rest ih =>
    intro ri n i s ss
    have key : ∀ m : Nat, (walk_order (ri + 1) rest)[m]? = some (i, ss, s) ↔
        ∃ r', ri < i ∧ (r :: rest)[i - ri]? = some r' ∧ r'.active_send = some ss ∧
          s < ss._mixbufs.length ∧
          m + r.send_channels = total_channels ((r :: rest).take (i - ri)) + s := by
      intro m
      rw [ih (ri + 1) m i s ss]
      constructor
      · rintro ⟨r', h1, h2, h3, h4, h5⟩
        have e : i - ri = (i - (ri + 1)) + 1 := by omega
        refine ⟨r', by omega, ?_, h3, h4, ?_⟩
        · rw [e, List.getElem?_cons_succ]; exact h2
        · rw [e, List.take_succ_cons, total_channels_cons, h5]; omega
      · rintro ⟨r', h1, h2, h3, h4, h5⟩
        have e : i - ri = (i - (ri + 1)) + 1 := by omega
        rw [e, List.getElem?_cons_succ] at h2
        rw [e, List.take_succ_cons, total_channels_cons] at h5
        exact ⟨r', by omega, h2, h3, h4, by omega⟩
    cases h : r.active_send with
    | none =>
      have hc : r.send_channels = 0 := by simp [Route.send_channels, h]
      rw [walk_order_skip _ _ _ h, key n, hc]
      constructor
      · rintro ⟨r', h1, h2, h3, h4, h5⟩
        exact ⟨r', by omega, h2, h3, h4, by omega⟩
      · rintro ⟨r', h1, h2, h3, h4, h5⟩
        by_cases hi : ri < i
        · exact ⟨r', hi, h2, h3, h4, by omega⟩
        · have e : i - ri = 0 := by omega
          rw [e] at h2
          simp only [List.getElem?_cons_zero, Option.some.injEq] at h2
          rw [← h2, h] at h3
          cases h3
    | some ss1 =>
      have hc : r.send_channels = ss1._mixbufs.length := by simp [Route.send_channels, h]
      rw [walk_order_visit _ _ _ ss1 h]
      by_cases hn : n < ss1._mixbufs.length
      · rw [List.getElem?_append_left (by simpa using hn)]
        simp only [List.getElem?_map, List.getElem?_range hn, Option.map_some',
          Option.some.injEq, Prod.mk.injEq]
        constructor
        · rintro ⟨h1, h2, h3⟩
          subst h1 h2 h3
          refine ⟨r, le_refl _, ?_, h, hn, ?_⟩
          · simp
          · simp [total_channels]
        · rintro ⟨r', h1, h2, h3, h4, h5⟩
          by_cases hi : ri < i
          · have e : i - ri = (i - (ri + 1)) + 1 := by omega
            rw [e, List.take_succ_cons, total_channels_cons, hc] at h5
            omega
          · have e : i - ri = 0 := by omega
            rw [e] at h2 h5
            simp only [List.getElem?_cons_zero, Option.some.injEq] at h2
            rw [← h2, h] at h3
            injection h3 with h3
            simp only [List.take_zero, total_channels, List.map_nil, List.sum_nil,
              Nat.zero_add] at h5
            exact ⟨by omega, h3, h5⟩
      · rw [List.getElem?_append_right (by simpa using hn)]
        simp only [List.length_map, List.length_range]
        rw [key (n - ss1._mixbufs.length), hc]
        constructor
        · rintro ⟨r', h1, h2, h3, h4, h5⟩
          exact ⟨r', by omega, h2, h3, h4, by omega⟩
        · rintro ⟨r', h1, h2, h3, h4, h5⟩
          by_cases hi : ri < i
          · exact ⟨r', hi, h2, h3, h4, by omega⟩
          · have e : i - ri = 0 := by omega
            rw [e] at h2 h5
            simp only [List.getElem?_cons_zero, Option.some.injEq] at h2
            rw [← h2, h] at h3
            injection h3 with h3
            simp only [List.take_zero, total_channels, List.map_nil, List.sum_nil,
              Nat.zero_add] at h5
            rw [← h3] at h4
            omega

theorem mem_assigned (evs : List Event) (i s id : Nat) :
    (i, s, id) ∈ assigned evs ↔ Event.assign i s id ∈ evs := by
  unfold assigned
  rw [List.mem_filterMap]
  constructor
  · rintro ⟨e, he, h⟩
    cases e <;> simp at h
    obtain ⟨h1, h2, h3⟩ := h
    subst h1 h2 h3
    exact he
  · intro h
    exact ⟨_, h, rfl⟩

theorem mem_zipWith_range {α β : Type} (f : α → Nat → β) (l : List α) (a len : Nat) (b : β) :
    b ∈ List.zipWith f l (List.range' a len) ↔
      ∃ n c, n < len ∧ l[n]? = some c ∧ b = f c (a + n) := by
  rw [List.mem_iff_getElem?]
  constructor
  · rintro ⟨n, hn⟩
    rw [List.getElem?_zipWith] at hn
    cases hl : l[n]? with
    | none => rw [hl] at hn; simp at hn
    | some c =>
      rw [hl] at hn
      cases hr : (List.range' a len)[n]? with
      | none => rw [hr] at hn; simp at hn
      | some k =>
        rw [hr] at hn
        simp only [Option.some.injEq] at hn
        have hlen : n < len := by
          have := (List.getElem?_eq_some_iff.1 hr).1
          simpa using this
        have hk : k = a + n := by
          have := (List.getElem?_eq_some_iff.1 hr).2
          simp [List.getElem_range'] at this
          omega
        exact ⟨n, c, hlen, hl, by rw [← hn, hk]⟩
  · rintro ⟨n, c, hn, hl, hb⟩
    refine ⟨n, ?_⟩
    rw [List.getElem?_zipWith, hl, List.getElem?_range' _ _ hn]
    simp [hb]

/-! ## Return Stage: one cycle -/

theorem run_active (self : SurroundReturn) (rl : RouteList) (start_sample end_sample : Int)
    (nframes : Nat) :
    self.run true rl start_sample end_sample nframes
      = (((SurroundReturn.route_loop start_sample end_sample nframes rl 0 10
            (self.begin_cycle nframes).1).1.report_count
            (SurroundReturn.route_loop start_sample end_sample nframes rl 0 10
              (self.begin_cycle nframes).1).2.1).1,
         (self.begin_cycle nframes).2 ++
          (SurroundReturn.route_loop start_sample end_sample nframes rl 0 10
            (self.begin_cycle nframes).1).2.2 ++
          ((SurroundReturn.route_loop start_sample end_sample nframes rl 0 10
            (self.begin_cycle nframes).1).1.report_count
            (SurroundReturn.route_loop start_sample end_sample nframes rl 0 10
              (self.begin_cycle nframes).1).2.1).2 ++ [Event.connect_and_run]) := by
  rfl

theorem run_inactive (self : SurroundReturn) (rl : RouteList) (start_sample end_sample : Int)
    (nframes : Nat) :
    self.run false rl start_sample end_sample nframes = (self, []) := by
  rfl

theorem begin_cycle_slot_none (self : SurroundReturn) (nframes : Nat) :
    ∀ e ∈ (self.begin_cycle nframes).2, e.slot = none := by
  intro e he
  unfold SurroundReturn.begin_cycle at he
  dsimp only at he
  split_ifs at he
  · rw [List.mem_singleton.1 he]; rfl
  · cases he

theorem report_count_slot_none (self : SurroundReturn) (id : Nat) :
    ∀ e ∈ (self.report_count id).2, e.slot = none := by
  intro e he
  unfold SurroundReturn.report_count at he
  split_ifs at he
  · rw [List.mem_singleton.1 he]; rfl
  · cases he

theorem report_count_slot_eq (self : SurroundReturn) (id k : Nat) :
    slot_eq k (self.report_count id).1 self := by
  unfold SurroundReturn.report_count
  split_ifs
  · exact ⟨rfl, rfl, rfl⟩
  · exact slot_eq_refl k self

theorem report_count_stored (self : SurroundReturn) (id : Nat) :
    (self.report_count id).1._current_n_objects = id := by
  unfold SurroundReturn.report_count
  split_ifs with h
  · rfl
  · exact not_not.1 h

theorem assigned_slot_none (l : List Event) (h : ∀ e ∈ l, e.slot = none) : assigned l = [] := by
  induction l with
  | nil => rfl
  | cons e rest ih =>
    have hr := ih (fun x hx => h x (List.mem_cons_of_mem _ hx))
    have he := h e (List.mem_cons_self _ _)
    unfold assigned at hr ⊢
    cases e <;> simp_all [Event.slot]

/-- The assignments of a cycle: the channels in walk order receive the ids 10, 11, ... up to
127. -/
theorem run_assigned (self : SurroundReturn) (rl : RouteList) (start_sample end_sample : Int)
    (nframes : Nat) :
    assigned (self.run true rl start_sample end_sample nframes).2
      = List.zipWith (fun c k => (c.1, c.2.2, k)) (walk_order 0 rl) (List.range' 10 118) := by
  rw [run_active]
  simp only [assigned_append]
  rw [assigned_slot_none _ (begin_cycle_slot_none self nframes),
    assigned_slot_none _ (report_count_slot_none _ _), route_loop_assigned]
  simp [assigned, max_object_id]

/-- Every event of a cycle that is about a slot is about one of the slots
`10 .. min (10 + N, 128) - 1`, where `N` is the number of channels of the active sends. -/
theorem run_slot_range (self : SurroundReturn) (active : Bool) (rl : RouteList)
    (start_sample end_sample : Int) (nframes : Nat) :
    ∀ e ∈ (self.run active rl start_sample end_sample nframes).2, ∀ k, e.slot = some k →
      10 ≤ k ∧ k < min (10 + total_channels rl) 128 := by
  intro e he k hk
  cases active with
  | false =>
    rw [run_inactive] at he
    cases he
  | true =>
    rw [run_active] at he
    simp only [List.mem_append, List.mem_singleton] at he
    rcases he with ((h | h) | h) | h
    · rw [begin_cycle_slot_none self nframes e h] at hk
      cases hk
    · obtain ⟨k', hk', h1, h2⟩ := (route_loop_range start_sample end_sample nframes rl 0 10
        (self.begin_cycle nframes).1).1 e h
      rw [hk'] at hk
      injection hk with hk
      have hm : max_object_id = 128 := rfl
      omega
    · rw [report_count_slot_none _ _ e h] at hk
      cases hk
    · rw [h] at hk
      cases hk

theorem mem_slot_events (k : Nat) (l : List Event) (e : Event) :
    e ∈ slot_events k l ↔ e ∈ l ∧ e.slot = some k := by
  unfold slot_events
  simp [List.mem_filter]

/-- The events of a cycle about the slot of the channel at position `n` of the walk order
are the events of the loop body for that channel, run on the stage as `begin_cycle` leaves
it; the data of the slot after the cycle is what the body leaves. -/
theorem run_slot (self : SurroundReturn) (rl : RouteList) (start_sample end_sample : Int)
    (nframes n i s : Nat) (ss : SurroundSend)
    (hw : (walk_order 0 rl)[n]? = some (i, ss, s)) (hlt : 10 + n < max_object_id) :
    slot_events (10 + n) (self.run true rl start_sample end_sample nframes).2
      = ((self.begin_cycle nframes).1.process_channel i ss s (10 + n)
          start_sample end_sample nframes).2 ∧
    slot_eq (10 + n) (self.run true rl start_sample end_sample nframes).1
      ((self.begin_cycle nframes).1.process_channel i ss s (10 + n)
          start_sample end_sample nframes).1 := by
  obtain ⟨h1, h2⟩ := route_loop_slot start_sample end_sample nframes rl 0 10
    (self.begin_cycle nframes).1 n i s ss hw hlt
  have e0 : slot_events (10 + n) (self.begin_cycle nframes).2 = [] :=
    slot_events_none _ _ (fun e he => by rw [begin_cycle_slot_none self nframes e he]; simp)
  have e2 : slot_events (10 + n)
      ((SurroundReturn.route_loop start_sample end_sample nframes rl 0 10
          (self.begin_cycle nframes).1).1.report_count
        (SurroundReturn.route_loop start_sample end_sample nframes rl 0 10
          (self.begin_cycle nframes).1).2.1).2 = [] :=
    slot_events_none _ _ (fun e he => by rw [report_count_slot_none _ _ e he]; simp)
  have e3 : slot_events (10 + n) [Event.connect_and_run] = [] := by
    simp [slot_events, Event.slot]
  rw [run_active]
  simp only [slot_events_append]
  rw [e0, e2, e3, h1]
  refine ⟨by simp, ?_⟩
  exact slot_eq_trans (report_count_slot_eq _ _ _) h2

/-! ## Return Stage: object ids -/

theorem assign_mem_run (self : SurroundReturn) (rl : RouteList) (start_sample end_sample : Int)
    (nframes i s id : Nat) :
    Event.assign i s id ∈ (self.run true rl start_sample end_sample nframes).2 ↔
      ∃ n ss, n < 118 ∧ (walk_order 0 rl)[n]? = some (i, ss, s) ∧ id = 10 + n := by
  rw [← mem_assigned, run_assigned, mem_zipWith_range]
  constructor
  · rintro ⟨n, c, hn, hc, he⟩
    obtain ⟨ci, css, cs⟩ := c
    simp only [Prod.mk.injEq] at he
    obtain ⟨h1, h2, h3⟩ := he
    subst h1 h2 h3
    exact ⟨n, css, hn, hc, rfl⟩
  · rintro ⟨n, ss, hn, hc, he⟩
    exact ⟨n, (i, ss, s), hn, hc, by rw [he]⟩

/-- C1: in a cycle of the Return Stage over the ordered route list `rl`, channel `s` of the
route at position `i` is assigned object id `id` if and only if that route is active with an
active surround send of more than `s` channels, `id` is 10 plus the channel counts of the
earlier such routes plus `s`, and `id` is below 128.  The condition mentions neither the
stage (its caches) nor the cycle window, so any two cycles over the same ordered route list,
from any two states of the stage, make the same assignments. -/
theorem id_assignment_deterministic (self : SurroundReturn) (rl : RouteList)
    (start_sample end_sample : Int) (nframes : Nat) :
    (∀ i s id : Nat,
      Event.assign i s id ∈ (self.run true rl start_sample end_sample nframes).2 ↔
        ∃ r, rl[i]? = some r ∧ s < r.send_channels ∧
          id = 10 + total_channels (rl.take i) + s ∧ id < 128) ∧
    (∀ (other : SurroundReturn) (start2 end2 : Int) (nframes2 : Nat),
      assigned (other.run true rl start2 end2 nframes2).2
        = assigned (self.run true rl start_sample end_sample nframes).2) := by
  refine ⟨?_, ?_⟩
  · intro i s id
    rw [assign_mem_run]
    constructor
    · rintro ⟨n, ss, hn, hw, hid⟩
      obtain ⟨r, -, h2, h3, h4, h5⟩ := (walk_order_index rl 0 n i s ss).1 hw
      rw [Nat.sub_zero] at h2 h5
      refine ⟨r, h2, ?_, by omega, by omega⟩
      simp [Route.send_channels, h3, h4]
    · rintro ⟨r, h1, h2, h3, h4⟩
      cases hs : r.active_send with
      | none => simp [Route.send_channels, hs] at h2
      | some ss =>
        simp only [Route.send_channels, hs] at h2
        refine ⟨total_channels (rl.take i) + s, ss, by omega, ?_, by omega⟩
        exact (walk_order_index rl 0 _ i s ss).2 ⟨r, Nat.zero_le _, h1, hs, h2, rfl⟩
  · intro other start2 end2 nframes2
    rw [run_assigned, run_assigned]

/-- C2: for every ordered route list whose active sends carry `N = total_channels rl`
channels, a cycle assigns the ids 10, 11, ... to exactly the first `min (N, 118)` channels in
walk order; every event about a slot (audio copy, evaluation, metadata or render-mode
message) is about one of these ids, and no channel at walk position 118 or later is entered;
the id counter, stored in `_current_n_objects`, ends at `min (10 + N, 128)`.  The cycle is a
total function: it always completes and has no error result. -/
theorem capacity_truncation (self : SurroundReturn) (rl : RouteList)
    (start_sample end_sample : Int) (nframes : Nat) :
    assigned (self.run true rl start_sample end_sample nframes).2
      = List.zipWith (fun c k => (c.1, c.2.2, k)) (walk_order 0 rl) (List.range' 10 118) ∧
    (assigned (self.run true rl start_sample end_sample nframes).2).length
      = min (total_channels rl) 118 ∧
    (∀ e ∈ (self.run true rl start_sample end_sample nframes).2, ∀ k, e.slot = some k →
      10 ≤ k ∧ k < 10 + min (total_channels rl) 118) ∧
    (∀ (m i s : Nat) (ss : SurroundSend), 118 ≤ m → (walk_order 0 rl)[m]? = some (i, ss, s) →
      ∀ k, Event.assign i s k ∉ (self.run true rl start_sample end_sample nframes).2) ∧
    (self.run true rl start_sample end_sample nframes).1._current_n_objects
      = min (10 + total_channels rl) 128 := by
  refine ⟨run_assigned _ _ _ _ _, ?_, ?_, ?_, ?_⟩
  · rw [run_assigned, List.length_zipWith, walk_order_length, List.length_range']
  · intro e he k hk
    have := run_slot_range self true rl start_sample end_sample nframes e he k hk
    omega
  · intro m i s ss hm hw k hmem
    obtain ⟨n, ss2, hn, hw2, -⟩ := (assign_mem_run _ _ _ _ _ _ _ _).1 hmem
    obtain ⟨r, -, h2, h3, h4, h5⟩ := (walk_order_index rl 0 m i s ss).1 hw
    obtain ⟨r2, -, g2, g3, g4, g5⟩ := (walk_order_index rl 0 n i s ss2).1 hw2
    omega
  · rw [run_active, report_count_stored, route_loop_counter]
    have hm : max_object_id = 128 := rfl
    omega

/-- C3: every event of a cycle that is about a slot of the object table (channel assignment,
audio copy, evaluation, metadata or render-mode message) is about a slot `id` with
`10 <= id <= 127`, for every route list and every channel count; and the bed-mix operation
(`merge_from`) is never performed. -/
theorem object_ids_in_range (self : SurroundReturn) (active : Bool) (rl : RouteList)
    (start_sample end_sample : Int) (nframes : Nat) :
    ∀ e ∈ (self.run active rl start_sample end_sample nframes).2,
      (∀ k, e.slot = some k → 10 ≤ k ∧ k ≤ 127) ∧ (∀ k, e ≠ Event.merge_from k) := by
  intro e he
  refine ⟨?_, ?_⟩
  · intro k hk
    have := run_slot_range self active rl start_sample end_sample nframes e he k hk
    omega
  · intro k hek
    subst hek
    have hr := run_slot_range self active rl start_sample end_sample nframes _ he k rfl
    cases active with
    | false =>
      rw [run_inactive] at he
      cases he
    | true =>
      have hlen : k - 10 < (walk_order 0 rl).length := by
        rw [walk_order_length]; omega
      have hw : (walk_order 0 rl)[k - 10]? = some ((walk_order 0 rl)[k - 10]) :=
        List.getElem?_eq_getElem hlen
      have hk10 : 10 + (k - 10) = k := by omega
      obtain ⟨h1, -⟩ := run_slot self rl start_sample end_sample nframes (k - 10)
        ((walk_order 0 rl)[k - 10]).1 ((walk_order 0 rl)[k - 10]).2.2
        ((walk_order 0 rl)[k - 10]).2.1 hw (by rw [hk10]; exact (by omega : k < 128))
      rw [hk10] at h1
      have hmem : Event.merge_from k ∈ slot_events k
          (self.run true rl start_sample end_sample nframes).2 :=
        (mem_slot_events _ _ _).2 ⟨he, rfl⟩
      rw [h1] at hmem
      obtain ⟨rest, g1, g2, -⟩ := process_channel_events (self.begin_cycle nframes).1
        ((walk_order 0 rl)[k - 10]).1 ((walk_order 0 rl)[k - 10]).2.1
        ((walk_order 0 rl)[k - 10]).2.2 k start_sample end_sample nframes
      rw [g1, if_pos (by omega : k > 9)] at hmem
      simp only [List.mem_cons] at hmem
      rcases hmem with h | h | h
      · cases h
      · cases h
      · have := g2 _ h
        simp [Event.is_object_event] at this

/-! ## Return Stage: metadata and render-mode messages of one object -/

theorem process_channel_object (self : SurroundReturn) (ri : Nat) (ss : SurroundSend)
    (s id : Nat) (start_sample end_sample : Int) (nframes : Nat) (h : id > 9) :
    self.process_channel ri ss s id start_sample end_sample nframes
      = ((((self.read_channel id (ss.get_audio s) nframes).object_metadata id (ss.pan_param s)
            start_sample end_sample nframes).1.object_render_mode id (ss.pan_param s)).1,
         Event.assign ri s id :: Event.read_from id ::
          (((self.read_channel id (ss.get_audio s) nframes).object_metadata id (ss.pan_param s)
            start_sample end_sample nframes).2 ++
           (((self.read_channel id (ss.get_audio s) nframes).object_metadata id (ss.pan_param s)
            start_sample end_sample nframes).1.object_render_mode id (ss.pan_param s)).2)) := by
  unfold SurroundReturn.process_channel
  simp only [h, if_true]

theorem metadata_msgs_append (k : Nat) (l1 l2 : List Event) :
    metadata_msgs k (l1 ++ l2) = metadata_msgs k l1 ++ metadata_msgs k l2 := by
  unfold metadata_msgs
  exact List.filterMap_append _ _ _

theorem render_mode_msgs_append (k : Nat) (l1 l2 : List Event) :
    render_mode_msgs k (l1 ++ l2) = render_mode_msgs k l1 ++ render_mode_msgs k l2 := by
  unfold render_mode_msgs
  exact List.filterMap_append _ _ _

theorem evaluations_append (k : Nat) (l1 l2 : List Event) :
    evaluations k (l1 ++ l2) = evaluations k l1 ++ evaluations k l2 := by
  unfold evaluations
  exact List.filterMap_append _ _ _

theorem metadata_msgs_slot_events (k : Nat) (l : List Event) :
    metadata_msgs k (slot_events k l) = metadata_msgs k l := by
  induction l with
  | nil => rfl
  | cons e rest ih =>
    unfold metadata_msgs slot_events at ih ⊢
    by_cases hs : e.slot = some k
    · rw [List.filter_cons_of_pos (by simpa using hs), List.filterMap_cons, List.filterMap_cons,
        ih]
    · rw [List.filter_cons_of_neg (by simpa using hs), List.filterMap_cons, ih]
      cases e <;> simp_all [Event.slot]

theorem render_mode_msgs_slot_events (k : Nat) (l : List Event) :
    render_mode_msgs k (slot_events k l) = render_mode_msgs k l := by
  induction l with
  | nil => rfl
  | cons e rest ih =>
    unfold render_mode_msgs slot_events at ih ⊢
    by_cases hs : e.slot = some k
    · rw [List.filter_cons_of_pos (by simpa using hs), List.filterMap_cons, List.filterMap_cons,
        ih]
    · rw [List.filter_cons_of_neg (by simpa using hs), List.filterMap_cons, ih]
      cases e <;> simp_all [Event.slot]

theorem evaluations_slot_events (k : Nat) (l : List Event) :
    evaluations k (slot_events k l) = evaluations k l := by
  induction l with
  | nil => rfl
  | cons e rest ih =>
    unfold evaluations slot_events at ih ⊢
    by_cases hs : e.slot = some k
    · rw [List.filter_cons_of_pos (by simpa using hs), List.filterMap_cons, List.filterMap_cons,
        ih]
    · rw [List.filter_cons_of_neg (by simpa using hs), List.filterMap_cons, ih]
      cases e <;> simp_all [Event.slot]

theorem metadata_msgs_maybe_send_metadata (self : SurroundReturn) (id sample : Nat)
    (v : Nat → pan_t) :
    metadata_msgs id (self.maybe_send_metadata id sample v).2 =
      if ∃ i, i < num_pan_parameters ∧ (self._current_value id i).ne (v i) = true
      then [metadata_msg id sample v] else [] := by
  rw [maybe_send_metadata_snd]
  have h1 : (metadata_msg id sample v).otype = URID.surr_MetaData := rfl
  split_ifs
  · simp [metadata_msgs, metadata_msg_channel, h1]
  · rfl

theorem object_render_mode_snd (self : SurroundReturn) (id : Nat) (p : SurroundPannable) :
    (self.object_render_mode id p).2 =
      if p.binaural_render_mode ≠ self._current_render_mode id
      then [Event.write_from_ui (render_mode_msg id p.binaural_render_mode)] else [] := by
  unfold SurroundReturn.object_render_mode
  dsimp only
  split_ifs <;> rfl

theorem metadata_msgs_object_render_mode (self : SurroundReturn) (k id : Nat)
    (p : SurroundPannable) :
    metadata_msgs k (self.object_render_mode id p).2 = [] := by
  rw [object_render_mode_snd]
  split_ifs
  · simp [metadata_msgs, render_mode_msg]
  · rfl

theorem render_mode_msgs_metadata_events (k : Nat) (l : List Event)
    (h : ∀ e ∈ l, e.is_metadata_event = true) : render_mode_msgs k l = [] := by
  induction l with
  | nil => rfl
  | cons e rest ih =>
    have hr := ih (fun x hx => h x (List.mem_cons_of_mem _ hx))
    have he := h e (List.mem_cons_self _ _)
    unfold render_mode_msgs at hr ⊢
    cases e <;> simp_all [Event.is_metadata_event]

theorem object_metadata_manual (self : SurroundReturn) (id : Nat) (p : SurroundPannable)
    (start_sample end_sample : Int) (nframes : Nat)
    (h : p.automated = false ∨ start_sample ≥ end_sample) :
    self.object_metadata id p start_sample end_sample nframes
      = self.maybe_send_metadata id 0 p.values := by
  unfold SurroundReturn.object_metadata
  rw [if_pos]
  rcases h with h | h
  · simp [h]
  · simp [h]

/-- The metadata messages of the loop body for an object that is not automated in this
block: one message when a current value differs from the cache, none otherwise; afterwards
the cache holds the current values. -/
theorem process_channel_manual (self : SurroundReturn) (ri : Nat) (ss : SurroundSend)
    (s id : Nat) (start_sample end_sample : Int) (nframes : Nat) (h : id > 9)
    (hm : (ss.pan_param s).automated = false ∨ start_sample ≥ end_sample) :
    metadata_msgs id (self.process_channel ri ss s id start_sample end_sample nframes).2
      = (if ∃ i, i < num_pan_parameters ∧
            (self._current_value id i).ne ((ss.pan_param s).values i) = true
          then [metadata_msg id 0 (ss.pan_param s).values] else []) ∧
    (∀ i, i < num_pan_parameters →
      (self.process_channel ri ss s id start_sample end_sample nframes).1._current_value id i
        = (ss.pan_param s).values i) := by
  rw [process_channel_object _ _ _ _ _ _ _ _ h, object_metadata_manual _ _ _ _ _ _ hm]
  refine ⟨?_, ?_⟩
  · have e : ∀ (a b : Event) (l : List Event), a :: b :: l = [a, b] ++ l := fun _ _ _ => rfl
    rw [e, metadata_msgs_append, metadata_msgs_append, metadata_msgs_object_render_mode,
      metadata_msgs_maybe_send_metadata]
    simp [metadata_msgs, SurroundReturn.read_channel]
  · intro i hi
    rw [object_render_mode_fst, maybe_send_metadata_fst]
    simp [hi]

theorem evaluate_keeps (self : SurroundReturn) (id : Nat) (p : SurroundPannable)
    (when : Int) (sample : Nat) :
    (self.evaluate id p when sample).1._current_render_mode = self._current_render_mode ∧
      (self.evaluate id p when sample).1._surround_bufs = self._surround_bufs := by
  unfold SurroundReturn.evaluate
  dsimp only
  split_ifs
  · rw [maybe_send_metadata_fst]
    exact ⟨rfl, rfl⟩
  · exact ⟨rfl, rfl⟩

theorem scan_events_keeps (id : Nat) (p : SurroundPannable) (start_sample : Int)
    (nframes : Nat) (stop : Int) (fuel : Nat) :
    ∀ (start : Int) (self : SurroundReturn),
      (SurroundReturn.scan_events id p start_sample nframes stop fuel start
          self).1._current_render_mode = self._current_render_mode ∧
      (SurroundReturn.scan_events id p start_sample nframes stop fuel start
          self).1._surround_bufs = self._surround_bufs := by
  induction fuel with
  | zero =>
    intro start self
    exact ⟨rfl, rfl⟩
  | succ fuel ih =>
    intro start self
    unfold SurroundReturn.scan_events
    cases hf : p.find_next_event start stop with
    | none => exact ⟨rfl, rfl⟩
    | some t =>
      dsimp only
      obtain ⟨h1, h2⟩ := ih t (self.evaluate id p t
        (min (t - start_sample) ((nframes : Int) - 1)).toNat).1
      obtain ⟨g1, g2⟩ := evaluate_keeps self id p t
        (min (t - start_sample) ((nframes : Int) - 1)).toNat
      exact ⟨h1.trans g1, h2.trans g2⟩

/-- The pan metadata of an object changes nothing but the cached pan values. -/
theorem object_metadata_keeps (self : SurroundReturn) (id : Nat) (p : SurroundPannable)
    (start_sample end_sample : Int) (nframes : Nat) :
    (self.object_metadata id p start_sample end_sample nframes).1._current_render_mode
      = self._current_render_mode ∧
    (self.object_metadata id p start_sample end_sample nframes).1._surround_bufs
      = self._surround_bufs := by
  unfold SurroundReturn.object_metadata
  split_ifs
  · rw [maybe_send_metadata_fst]
    exact ⟨rfl, rfl⟩
  · exact evaluate_keeps _ _ _ _ _
  · dsimp only
    obtain ⟨h1, h2⟩ := evaluate_keeps
      (SurroundReturn.scan_events id p start_sample nframes (end_sample - 1)
        ((end_sample - 1) - start_sample).toNat start_sample self).1 id p (end_sample - 1)
      (nframes - 1)
    obtain ⟨g1, g2⟩ := scan_events_keeps id p start_sample nframes (end_sample - 1)
      ((end_sample - 1) - start_sample).toNat start_sample self
    exact ⟨h1.trans g1, h2.trans g2⟩

/-- The render-mode messages of the loop body for an object: one message when the selector
differs from the cache, none otherwise; afterwards the cache holds the selector. -/
theorem process_channel_render_mode (self : SurroundReturn) (ri : Nat) (ss : SurroundSend)
    (s id : Nat) (start_sample end_sample : Int) (nframes : Nat) (h : id > 9) :
    render_mode_msgs id (self.process_channel ri ss s id start_sample end_sample nframes).2
      = (if (ss.pan_param s).binaural_render_mode ≠ self._current_render_mode id
          then [render_mode_msg id (ss.pan_param s).binaural_render_mode] else []) ∧
    (self.process_channel ri ss s id start_sample end_sample nframes).1._current_render_mode id
      = (ss.pan_param s).binaural_render_mode := by
  rw [process_channel_object _ _ _ _ _ _ _ _ h]
  have hk := (object_metadata_keeps (self.read_channel id (ss.get_audio s) nframes) id
    (ss.pan_param s) start_sample end_sample nframes).1
  have hrc : (self.read_channel id (ss.get_audio s) nframes)._current_render_mode
      = self._current_render_mode := rfl
  refine ⟨?_, ?_⟩
  · have e : ∀ (a b : Event) (l : List Event), a :: b :: l = [a, b] ++ l := fun _ _ _ => rfl
    have hc : (render_mode_msg id (ss.pan_param s).binaural_render_mode).channel = some id :=
      rfl
    have ho : (render_mode_msg id (ss.pan_param s).binaural_render_mode).otype
        = URID.surr_Settings := rfl
    rw [e, render_mode_msgs_append, render_mode_msgs_append,
      render_mode_msgs_metadata_events _ _ (object_metadata_metadata_events _ _ _ _ _ _),
      object_render_mode_snd, hk, hrc]
    split_ifs <;> simp [render_mode_msgs, hc, ho]
  · rw [object_render_mode_fst]
    simp

/-! ## Return Stage: change detection -/

theorem run_metadata_manual (self : SurroundReturn) (rl : RouteList)
    (start_sample end_sample : Int) (nframes n i s : Nat) (ss : SurroundSend)
    (hw : (walk_order 0 rl)[n]? = some (i, ss, s)) (hlt : 10 + n < 128)
    (hm : (ss.pan_param s).automated = false ∨ start_sample ≥ end_sample) :
    metadata_msgs (10 + n) (self.run true rl start_sample end_sample nframes).2
      = (if ∃ j, j < num_pan_parameters ∧
            (self._current_value (10 + n) j).ne ((ss.pan_param s).values j) = true
          then [metadata_msg (10 + n) 0 (ss.pan_param s).values] else []) ∧
    (∀ j, j < num_pan_parameters →
      (self.run true rl start_sample end_sample nframes).1._current_value (10 + n) j
        = (ss.pan_param s).values j) := by
  obtain ⟨h1, h2⟩ := run_slot self rl start_sample end_sample nframes n i s ss hw hlt
  obtain ⟨g1, g2⟩ := process_channel_manual (self.begin_cycle nframes).1 i ss s (10 + n)
    start_sample end_sample nframes (by omega) hm
  refine ⟨?_, ?_⟩
  · rw [← metadata_msgs_slot_events, h1, g1]
    rfl
  · intro j hj
    rw [h2.1]
    exact g2 j hj

/-- A float differs from itself under `!=` exactly when it is NaN. -/
theorem pan_ne_self (a : pan_t) : a.ne a = true ↔ a = pan_t.nan := by
  cases a <;> simp [pan_t.ne]

/-- A float differs from a number under `!=` exactly when it is not that number. -/
theorem pan_ne_val (q : ℚ) (b : pan_t) : (pan_t.val q).ne b = true ↔ b ≠ pan_t.val q := by
  cases b with
  | val y =>
    simp only [pan_t.ne, decide_eq_true_eq, ne_eq, pan_t.val.injEq]
    exact ⟨fun h e => h e.symm, fun h e => h e.symm⟩
  | nan => simp [pan_t.ne]

/-- C4, counterexample: a new Return Stage and one route with one unautomated channel whose
pan values are NaN, 0, 0, 0, 0, submitted in two consecutive cycles.  The values differ from
the cached -1111, and the first cycle forges the metadata message for slot 10; the second
cycle forges it again, since NaN differs from the cached NaN under `!=`. -/
theorem change_dedup_nan_counterexample :
    (SurroundReturn.new._current_value 10 0).ne
        ((SurroundPannable.manual pan_t.nan 0 0 0 0 0).values 0) = true ∧
    metadata_msgs 10
        (SurroundReturn.new.run true
          [Route.with_pannables [SurroundPannable.manual pan_t.nan 0 0 0 0 0]] 0 64 64).2
      = [metadata_msg 10 0 (SurroundPannable.manual pan_t.nan 0 0 0 0 0).values] ∧
    metadata_msgs 10
        ((SurroundReturn.new.run true
          [Route.with_pannables [SurroundPannable.manual pan_t.nan 0 0 0 0 0]] 0 64 64).1.run
          true [Route.with_pannables [SurroundPannable.manual pan_t.nan 0 0 0 0 0]]
          64 128 64).2
      = [metadata_msg 10 0 (SurroundPannable.manual pan_t.nan 0 0 0 0 0).values] := by
  decide

/-- C4, amended: change detection over two consecutive cycles.  Let the channel at position
`n` of the walk order (slot `10 + n`) be an unautomated object in both cycles, with the same
five pan values in both, at least one of which differs (`!=`, exact, no epsilon) from the
slot's cached value before the first cycle.  Then the first cycle forges exactly one metadata
message for the slot (with sample offset 0 and these five values).  The second cycle forges
none when none of the five values is NaN, whatever their magnitude; when one of them is NaN
the second cycle forges the message again. -/
theorem change_dedup (self : SurroundReturn) (rl1 rl2 : RouteList)
    (start1 end1 start2 end2 : Int) (nframes1 nframes2 n i1 s1 i2 s2 : Nat)
    (ss1 ss2 : SurroundSend) (hlt : 10 + n < 128)
    (hw1 : (walk_order 0 rl1)[n]? = some (i1, ss1, s1))
    (hw2 : (walk_order 0 rl2)[n]? = some (i2, ss2, s2))
    (hm1 : (ss1.pan_param s1).automated = false)
    (hm2 : (ss2.pan_param s2).automated = false)
    (hsame : ∀ j, j < num_pan_parameters →
      (ss2.pan_param s2).values j = (ss1.pan_param s1).values j)
    (hdiff : ∃ j, j < num_pan_parameters ∧
      (self._current_value (10 + n) j).ne ((ss1.pan_param s1).values j) = true) :
    metadata_msgs (10 + n) (self.run true rl1 start1 end1 nframes1).2
      = [metadata_msg (10 + n) 0 (ss1.pan_param s1).values] ∧
    ((∀ j, j < num_pan_parameters → (ss1.pan_param s1).values j ≠ pan_t.nan) →
      metadata_msgs (10 + n)
        ((self.run true rl1 start1 end1 nframes1).1.run true rl2 start2 end2 nframes2).2
        = []) ∧
    ((∃ j, j < num_pan_parameters ∧ (ss1.pan_param s1).values j = pan_t.nan) →
      metadata_msgs (10 + n)
        ((self.run true rl1 start1 end1 nframes1).1.run true rl2 start2 end2 nframes2).2
        = [metadata_msg (10 + n) 0 (ss2.pan_param s2).values]) := by
  obtain ⟨a1, a2⟩ := run_metadata_manual self rl1 start1 end1 nframes1 n i1 s1 ss1 hw1 hlt
    (Or.inl hm1)
  obtain ⟨b1, -⟩ := run_metadata_manual (self.run true rl1 start1 end1 nframes1).1 rl2
    start2 end2 nframes2 n i2 s2 ss2 hw2 hlt (Or.inl hm2)
  refine ⟨?_, fun hnan => ?_, fun hnan => ?_⟩
  · rw [a1, if_pos hdiff]
  · rw [b1, if_neg]
    rintro ⟨j, hj, hne⟩
    rw [a2 j hj, hsame j hj] at hne
    exact hnan j hj ((pan_ne_self _).1 hne)
  · rw [b1, if_pos]
    obtain ⟨j, hj, hn⟩ := hnan
    refine ⟨j, hj, ?_⟩
    rw [a2 j hj, hsame j hj]
    exact (pan_ne_self _).2 hn

/-- C4, witness: a new Return Stage and one route with one unautomated channel whose pan
values are 1/2, 0, 0, 1, 0: the first cycle forges the metadata message for slot 10, the
second cycle forges none. -/
theorem change_dedup_witness :
    metadata_msgs (10 + 0)
        (SurroundReturn.new.run true
          [Route.with_pannables [SurroundPannable.manual (pan_t.val (1 / 2)) 0 0 1 0 1]]
          0 64 64).2
      = [metadata_msg (10 + 0) 0
          ((SurroundSend.with_pannables
            [SurroundPannable.manual (pan_t.val (1 / 2)) 0 0 1 0 1]).pan_param 0).values] ∧
    metadata_msgs (10 + 0)
        ((SurroundReturn.new.run true
          [Route.with_pannables [SurroundPannable.manual (pan_t.val (1 / 2)) 0 0 1 0 1]]
          0 64 64).1.run true
          [Route.with_pannables [SurroundPannable.manual (pan_t.val (1 / 2)) 0 0 1 0 1]]
          64 128 64).2
      = [] :=
  ⟨(change_dedup SurroundReturn.new
      [Route.with_pannables [SurroundPannable.manual (pan_t.val (1 / 2)) 0 0 1 0 1]]
      [Route.with_pannables [SurroundPannable.manual (pan_t.val (1 / 2)) 0 0 1 0 1]]
      0 64 64 128 64 64 0 0 0 0 0
      (SurroundSend.with_pannables [SurroundPannable.manual (pan_t.val (1 / 2)) 0 0 1 0 1])
      (SurroundSend.with_pannables [SurroundPannable.manual (pan_t.val (1 / 2)) 0 0 1 0 1])
      (by decide) rfl rfl rfl rfl (fun _ _ => rfl) ⟨1, by decide, by decide⟩).1,
   (change_dedup SurroundReturn.new
      [Route.with_pannables [SurroundPannable.manual (pan_t.val (1 / 2)) 0 0 1 0 1]]
      [Route.with_pannables [SurroundPannable.manual (pan_t.val (1 / 2)) 0 0 1 0 1]]
      0 64 64 128 64 64 0 0 0 0 0
      (SurroundSend.with_pannables [SurroundPannable.manual (pan_t.val (1 / 2)) 0 0 1 0 1])
      (SurroundSend.with_pannables [SurroundPannable.manual (pan_t.val (1 / 2)) 0 0 1 0 1])
      (by decide) rfl rfl rfl rfl (fun _ _ => rfl) ⟨1, by decide, by decide⟩).2.1
      (by
        intro j hj
        have h5 : num_pan_parameters = 5 := rfl
        rw [h5] at hj
        interval_cases j <;> decide)⟩

theorem run_render_mode (self : SurroundReturn) (rl : RouteList)
    (start_sample end_sample : Int) (nframes n i s : Nat) (ss : SurroundSend)
    (hw : (walk_order 0 rl)[n]? = some (i, ss, s)) (hlt : 10 + n < 128) :
    render_mode_msgs (10 + n) (self.run true rl start_sample end_sample nframes).2
      = (if (ss.pan_param s).binaural_render_mode ≠ self._current_render_mode (10 + n)
          then [render_mode_msg (10 + n) (ss.pan_param s).binaural_render_mode] else []) ∧
    (self.run true rl start_sample end_sample nframes).1._current_render_mode (10 + n)
      = (ss.pan_param s).binaural_render_mode := by
  obtain ⟨h1, h2⟩ := run_slot self rl start_sample end_sample nframes n i s ss hw hlt
  obtain ⟨g1, g2⟩ := process_channel_render_mode (self.begin_cycle nframes).1 i ss s (10 + n)
    start_sample end_sample nframes (by omega)
  refine ⟨?_, ?_⟩
  · rw [← render_mode_msgs_slot_events, h1, g1]
    rfl
  · rw [h2.2.1]
    exact g2

/-- C5, counterexample: the first cycle of a new Return Stage over one route with one
unautomated channel whose five pan values are all -1111 and whose render mode is -1.  The
cycle forges the object-count message only: no metadata message and no render-mode
message. -/
theorem first_cycle_sentinel_counterexample :
    (SurroundReturn.new.run true
        [Route.with_pannables
          [SurroundPannable.manual (pan_t.val (-1111)) (pan_t.val (-1111)) (pan_t.val (-1111))
            (pan_t.val (-1111)) (pan_t.val (-1111)) (-1)]] 0 64 64).2
      = [Event.assign 0 0 10, Event.read_from 10,
          Event.write_from_ui (channel_count_msg 11), Event.connect_and_run] := by
  decide

/-- C5, amended: on a freshly constructed Return Stage the caches hold -1111 for every pan
value and -1 for every render mode.  The first submission of five pan values for a slot
forges a metadata message if at least one of the five values differs from -1111 (and none
if all five equal -1111); the first render-mode comparison for a slot forges a render-mode
message if the render mode differs from -1 (and none if it equals -1).  In the first cycle,
an unautomated channel at position `n` of the walk order (slot `10 + n`) with such values
and render mode gets exactly one metadata message and one render-mode message. -/
theorem first_cycle_emits (id sample : Nat) (v : Nat → pan_t) (p : SurroundPannable) :
    ((∃ j, j < num_pan_parameters ∧ v j ≠ pan_t.val (-1111)) →
      (SurroundReturn.new.maybe_send_metadata id sample v).2
        = [Event.write_from_ui (metadata_msg id sample v)]) ∧
    ((∀ j, j < num_pan_parameters → v j = pan_t.val (-1111)) →
      (SurroundReturn.new.maybe_send_metadata id sample v).2 = []) ∧
    (p.binaural_render_mode ≠ -1 →
      (SurroundReturn.new.object_render_mode id p).2
        = [Event.write_from_ui (render_mode_msg id p.binaural_render_mode)]) ∧
    (p.binaural_render_mode = -1 → (SurroundReturn.new.object_render_mode id p).2 = []) ∧
    (∀ (rl : RouteList) (start_sample end_sample : Int) (nframes n i s : Nat)
      (ss : SurroundSend),
      (walk_order 0 rl)[n]? = some (i, ss, s) → 10 + n < 128 →
      (ss.pan_param s).automated = false →
      (∃ j, j < num_pan_parameters ∧ (ss.pan_param s).values j ≠ pan_t.val (-1111)) →
      (ss.pan_param s).binaural_render_mode ≠ -1 →
      metadata_msgs (10 + n) (SurroundReturn.new.run true rl start_sample end_sample nframes).2
        = [metadata_msg (10 + n) 0 (ss.pan_param s).values] ∧
      render_mode_msgs (10 + n)
          (SurroundReturn.new.run true rl start_sample end_sample nframes).2
        = [render_mode_msg (10 + n) (ss.pan_param s).binaural_render_mode]) := by
  refine ⟨?_, ?_, ?_, ?_, ?_⟩
  · intro h
    rw [maybe_send_metadata_snd, if_pos]
    obtain ⟨j, hj, hne⟩ := h
    exact ⟨j, hj, (pan_ne_val _ _).2 hne⟩
  · intro h
    rw [maybe_send_metadata_snd, if_neg]
    rintro ⟨j, hj, hne⟩
    exact (pan_ne_val _ _).1 hne (h j hj)
  · intro h
    rw [object_render_mode_snd]
    exact if_pos h
  · intro h
    rw [object_render_mode_snd]
    exact if_neg (not_not.2 h)
  · intro rl start_sample end_sample nframes n i s ss hw hlt hm hv hb
    obtain ⟨a1, -⟩ := run_metadata_manual SurroundReturn.new rl start_sample end_sample
      nframes n i s ss hw hlt (Or.inl hm)
    obtain ⟨b1, -⟩ := run_render_mode SurroundReturn.new rl start_sample end_sample
      nframes n i s ss hw hlt
    refine ⟨?_, ?_⟩
    · rw [a1, if_pos]
      obtain ⟨j, hj, hne⟩ := hv
      exact ⟨j, hj, (pan_ne_val _ _).2 hne⟩
    · rw [b1]
      exact if_pos hb

/-- C5, witness: on a new Return Stage, pan values 0, 0, 0, 0, 0 submitted for slot 10 forge
the metadata message, and render mode 2 forges the render-mode message. -/
theorem first_cycle_emits_witness :
    (SurroundReturn.new.maybe_send_metadata 10 0 (fun _ => 0)).2
      = [Event.write_from_ui (metadata_msg 10 0 (fun _ => 0))] ∧
    (SurroundReturn.new.object_render_mode 10 (SurroundPannable.manual 0 0 0 0 0 2)).2
      = [Event.write_from_ui
          (render_mode_msg 10 (SurroundPannable.manual 0 0 0 0 0 2).binaural_render_mode)] :=
  ⟨(first_cycle_emits 10 0 (fun _ => 0) (SurroundPannable.manual 0 0 0 0 0 2)).1
      ⟨0, by decide, by decide⟩,
   (first_cycle_emits 10 0 (fun _ => 0) (SurroundPannable.manual 0 0 0 0 0 2)).2.2.1
      (by decide)⟩

/-! ## Return Stage: sample-accurate evaluation -/

theorem earliest_eq_none (l : List Int) : earliest l = none ↔ l = [] := by
  cases l with
  | nil => simp [earliest]
  | cons t ts =>
    simp only [earliest]
    cases earliest ts <;> simp

theorem earliest_mem_le (l : List Int) :
    ∀ m, earliest l = some m → m ∈ l ∧ ∀ t ∈ l, m ≤ t := by
  induction l with
  | nil =>
    intro m h
    simp [earliest] at h
  | cons t ts ih =>
    intro m h
    simp only [earliest] at h
    cases he : earliest ts with
    | none =>
      rw [he] at h
      simp only [Option.some.injEq] at h
      have hts : ts = [] := (earliest_eq_none ts).1 he
      subst hts
      subst h
      simp
    | some m' =>
      rw [he] at h
      simp only [Option.some.injEq] at h
      obtain ⟨h1, h2⟩ := ih m' he
      by_cases hlt : t < m'
      · rw [if_pos hlt] at h
        subst h
        refine ⟨List.mem_cons_self _ _, ?_⟩
        intro u hu
        rcases List.mem_cons.1 hu with hu | hu
        · omega
        · have := h2 u hu
          omega
      · rw [if_neg hlt] at h
        subst h
        refine ⟨List.mem_cons_of_mem _ h1, ?_⟩
        intro u hu
        rcases List.mem_cons.1 hu with hu | hu
        · omega
        · exact h2 u hu

theorem earliest_eq_some (l : List Int) (m : Int) (hm : m ∈ l) (hle : ∀ t ∈ l, m ≤ t) :
    earliest l = some m := by
  cases he : earliest l with
  | none =>
    rw [(earliest_eq_none l).1 he] at hm
    cases hm
  | some m' =>
    obtain ⟨h1, h2⟩ := earliest_mem_le l m' he
    have a := hle m' h1
    have b := h2 m hm
    have : m' = m := by omega
    rw [this]

theorem find_next_event_some (p : SurroundPannable) (start stop t : Int) (hm : t ∈ p.events)
    (h1 : start < t) (h2 : t < stop)
    (hle : ∀ u ∈ p.events, start < u → u < stop → t ≤ u) :
    p.find_next_event start stop = some t := by
  unfold SurroundPannable.find_next_event
  apply earliest_eq_some
  · simp [List.mem_filter, hm, h1, h2]
  · intro u hu
    simp only [List.mem_filter, Bool.and_eq_true, decide_eq_true_eq] at hu
    exact hle u hu.1 hu.2.1 hu.2.2

theorem find_next_event_none (p : SurroundPannable) (start stop : Int)
    (h : ∀ u ∈ p.events, start < u → ¬ u < stop) :
    p.find_next_event start stop = none := by
  unfold SurroundPannable.find_next_event
  rw [earliest_eq_none, List.filter_eq_nil_iff]
  intro u hu
  simp only [Bool.and_eq_true, decide_eq_true_eq, not_and]
  exact h u hu

/-- What `find_next_event` returns is a breakpoint strictly between `start` and `stop`. -/
theorem find_next_event_range (p : SurroundPannable) (start stop t : Int)
    (h : p.find_next_event start stop = some t) : t ∈ p.events ∧ start < t ∧ t < stop := by
  unfold SurroundPannable.find_next_event at h
  have := (earliest_mem_le _ t h).1
  simpa [List.mem_filter] using this

theorem evaluations_evaluate (self : SurroundReturn) (id : Nat) (p : SurroundPannable)
    (when : Int) (sample : Nat) :
    evaluations id (self.evaluate id p when sample).2 = [(when, sample)] := by
  unfold SurroundReturn.evaluate
  dsimp only
  split_ifs
  · rw [maybe_send_metadata_snd]
    split_ifs <;> simp [evaluations]
  · simp [evaluations]

theorem evaluations_object_render_mode (self : SurroundReturn) (k id : Nat)
    (p : SurroundPannable) :
    evaluations k (self.object_render_mode id p).2 = [] := by
  rw [object_render_mode_snd]
  split_ifs <;> simp [evaluations]

/-- The evaluations of an automated object with exactly two breakpoints `t1 < t2` strictly
between `start_sample` and `end_sample - 1`. -/
theorem object_metadata_two_breakpoints (self : SurroundReturn) (id : Nat)
    (p : SurroundPannable) (start_sample end_sample : Int) (nframes : Nat) (t1 t2 : Int)
    (ha : p.automated = true) (hn : 2 ≤ nframes) (h12 : t1 < t2)
    (hbp : ∀ t, (t ∈ p.events ∧ start_sample < t ∧ t < end_sample - 1) ↔ (t = t1 ∨ t = t2)) :
    evaluations id (self.object_metadata id p start_sample end_sample nframes).2
      = [(t1, (min (t1 - start_sample) ((nframes : Int) - 1)).toNat),
         (t2, (min (t2 - start_sample) ((nframes : Int) - 1)).toNat),
         (end_sample - 1, nframes - 1)] := by
  obtain ⟨m1, a1, b1⟩ := (hbp t1).2 (Or.inl rfl)
  obtain ⟨m2, a2, b2⟩ := (hbp t2).2 (Or.inr rfl)
  have f1 : p.find_next_event start_sample (end_sample - 1) = some t1 := by
    apply find_next_event_some p _ _ _ m1 a1 b1
    intro u hu hu1 hu2
    rcases (hbp u).1 ⟨hu, hu1, hu2⟩ with h | h <;> omega
  have f2 : p.find_next_event t1 (end_sample - 1) = some t2 := by
    apply find_next_event_some p _ _ _ m2 h12 b2
    intro u hu hu1 hu2
    rcases (hbp u).1 ⟨hu, by omega, hu2⟩ with h | h <;> omega
  have f3 : p.find_next_event t2 (end_sample - 1) = none := by
    apply find_next_event_none
    intro u hu hu1 hu2
    rcases (hbp u).1 ⟨hu, by omega, hu2⟩ with h | h <;> omega
  obtain ⟨f, hf⟩ : ∃ f, (end_sample - 1 - start_sample).toNat = f + 3 :=
    ⟨(end_sample - 1 - start_sample).toNat - 3, by omega⟩
  unfold SurroundReturn.object_metadata
  rw [if_neg (by simp [ha]; omega), if_neg (by omega)]
  simp only [hf, SurroundReturn.scan_events, f1, f2, f3, evaluations_append,
    evaluations_evaluate, List.append_nil]
  simp [evaluations]

/-- The evaluations of a cycle for the slot of the channel at position `n` of the walk order
are those of the pan metadata of that channel. -/
theorem run_evaluations (self : SurroundReturn) (rl : RouteList)
    (start_sample end_sample : Int) (nframes n i s : Nat) (ss : SurroundSend)
    (hw : (walk_order 0 rl)[n]? = some (i, ss, s)) (hlt : 10 + n < 128) :
    evaluations (10 + n) (self.run true rl start_sample end_sample nframes).2
      = evaluations (10 + n)
          ((((self.begin_cycle nframes).1.read_channel (10 + n) (ss.get_audio s)
            nframes).object_metadata (10 + n) (ss.pan_param s)
            start_sample end_sample nframes).2) := by
  obtain ⟨h1, -⟩ := run_slot self rl start_sample end_sample nframes n i s ss hw hlt
  rw [← evaluations_slot_events, h1, process_channel_object _ _ _ _ _ _ _ _ (by omega)]
  have e : ∀ (a b : Event) (l : List Event), a :: b :: l = [a, b] ++ l := fun _ _ _ => rfl
  simp only
  rw [e, evaluations_append, evaluations_append, evaluations_object_render_mode]
  simp [evaluations]

/-- C6, counterexample: a cycle `[100, 104)` of 4 frames and an automated object whose
automation has exactly two breakpoints inside the cycle, at 100 and at 101.  `evaluate` is
invoked twice, not three times: at the breakpoint 101 (offset 1) and at the end of the block
(offset 3); the breakpoint at the cycle start is not visited. -/
theorem evaluation_count_counterexample :
    evaluations 10
        (SurroundReturn.new.run true
          [Route.with_pannables [SurroundPannable.playing 0 0 [100, 101]]] 100 104 4).2
      = [(101, 1), (103, 3)] := by
  decide

/-- C6, amended: for every cycle `[start_sample, end_sample)` with
`nframes = end_sample - start_sample >= 2` and every automated object (the channel at
position `n` of the walk order, slot `10 + n`) whose automation has exactly two breakpoints
`t1 < t2` strictly between `start_sample` and `end_sample - 1`, the cycle invokes `evaluate`
exactly 3 times for that object: at `t1` with offset `t1 - start_sample`, at `t2` with offset
`t2 - start_sample`, and at `end_sample - 1` with offset `nframes - 1`. -/
theorem evaluation_count (self : SurroundReturn) (rl : RouteList)
    (start_sample end_sample : Int) (nframes n i s : Nat) (ss : SurroundSend) (t1 t2 : Int)
    (hw : (walk_order 0 rl)[n]? = some (i, ss, s)) (hlt : 10 + n < 128)
    (ha : (ss.pan_param s).automated = true)
    (hlen : (nframes : Int) = end_sample - start_sample) (hn : 2 ≤ nframes) (h12 : t1 < t2)
    (hbp : ∀ t, (t ∈ (ss.pan_param s).events ∧ start_sample < t ∧ t < end_sample - 1) ↔
      (t = t1 ∨ t = t2)) :
    evaluations (10 + n) (self.run true rl start_sample end_sample nframes).2
      = [(t1, (t1 - start_sample).toNat), (t2, (t2 - start_sample).toNat),
         (end_sample - 1, nframes - 1)] := by
  rw [run_evaluations self rl start_sample end_sample nframes n i s ss hw hlt,
    object_metadata_two_breakpoints _ _ _ _ _ _ t1 t2 ha hn h12 hbp]
  obtain ⟨-, a1, b1⟩ := (hbp t1).2 (Or.inl rfl)
  obtain ⟨-, a2, b2⟩ := (hbp t2).2 (Or.inr rfl)
  have e1 : min (t1 - start_sample) ((nframes : Int) - 1) = t1 - start_sample := by omega
  have e2 : min (t2 - start_sample) ((nframes : Int) - 1) = t2 - start_sample := by omega
  rw [e1, e2]

/-- C6, witness: a cycle `[100, 108)` of 8 frames and an automated object with breakpoints at
100, 102, 105 and 107, of which 102 and 105 lie strictly between 100 and 107: `evaluate` is
invoked at 102 (offset 2), at 105 (offset 5) and at 107 (offset 7). -/
theorem evaluation_count_witness :
    evaluations (10 + 0)
        (SurroundReturn.new.run true
          [Route.with_pannables [SurroundPannable.playing 0 0 [100, 102, 105, 107]]]
          100 108 8).2
      = [(102, (102 - 100 : Int).toNat), (105, (105 - 100 : Int).toNat), (108 - 1, 8 - 1)] :=
  evaluation_count SurroundReturn.new
    [Route.with_pannables [SurroundPannable.playing 0 0 [100, 102, 105, 107]]]
    100 108 8 0 0 0
    (SurroundSend.with_pannables [SurroundPannable.playing 0 0 [100, 102, 105, 107]])
    102 105 rfl (by decide) rfl (by decide) (by decide) (by decide)
    (by
      intro t
      simp only [SurroundSend.pan_param, SurroundSend.with_pannables, SurroundPannable.playing,
        List.getD_cons_zero, List.mem_cons, List.mem_singleton, List.not_mem_nil, or_false]
      omega)

/-! ## Return Stage: concrete cycles -/

/-- C1, witness: two routes with one channel each; channel 0 of the second route (position 1)
is assigned id 11 = 10 + 1 + 0. -/
theorem id_assignment_deterministic_witness :
    Event.assign 1 0 11 ∈
      (SurroundReturn.new.run true
        [Route.with_pannables [SurroundPannable.manual 0 0 0 0 0 0],
         Route.with_pannables [SurroundPannable.manual 1 0 0 0 0 0]] 0 64 64).2 :=
  ((id_assignment_deterministic SurroundReturn.new
    [Route.with_pannables [SurroundPannable.manual 0 0 0 0 0 0],
     Route.with_pannables [SurroundPannable.manual 1 0 0 0 0 0]] 0 64 64).1 1 0 11).2
    ⟨Route.with_pannables [SurroundPannable.manual 1 0 0 0 0 0], rfl, by decide, by decide,
      by decide⟩

/-- C2, witness: 65 routes with two channels each carry 130 channels; the cycle assigns 118
ids and the id counter ends at 128. -/
theorem capacity_truncation_witness :
    (assigned (SurroundReturn.new.run true
        (List.replicate 65 (Route.with_pannables
          [SurroundPannable.manual 0 0 0 0 0 0, SurroundPannable.manual 0 0 0 0 0 0]))
        0 64 64).2).length = 118 ∧
    (SurroundReturn.new.run true
        (List.replicate 65 (Route.with_pannables
          [SurroundPannable.manual 0 0 0 0 0 0, SurroundPannable.manual 0 0 0 0 0 0]))
        0 64 64).1._current_n_objects = 128 :=
  ⟨(capacity_truncation SurroundReturn.new
      (List.replicate 65 (Route.with_pannables
        [SurroundPannable.manual 0 0 0 0 0 0, SurroundPannable.manual 0 0 0 0 0 0]))
      0 64 64).2.1.trans (by decide),
   (capacity_truncation SurroundReturn.new
      (List.replicate 65 (Route.with_pannables
        [SurroundPannable.manual 0 0 0 0 0 0, SurroundPannable.manual 0 0 0 0 0 0]))
      0 64 64).2.2.2.2.trans (by decide)⟩

/-- C3, witness: in a cycle over one route with two channels the audio copy into slot 11 is
an event of the cycle, and 11 lies between 10 and 127. -/
theorem object_ids_in_range_witness :
    Event.read_from 11 ∈
      (SurroundReturn.new.run true
        [Route.with_pannables
          [SurroundPannable.manual 0 0 0 0 0 0, SurroundPannable.manual 0 0 0 0 0 0]]
        0 64 64).2 ∧
    (10 ≤ 11 ∧ 11 ≤ 127) :=
  ⟨by decide,
   (object_ids_in_range SurroundReturn.new true
      [Route.with_pannables
        [SurroundPannable.manual 0 0 0 0 0 0, SurroundPannable.manual 0 0 0 0 0 0]]
      0 64 64 (Event.read_from 11) (by decide)).1 11 rfl⟩

/-! ## Return Stage: the breakpoint loop ends by itself -/

/-- The breakpoint loop never stops for lack of fuel: with any two amounts of fuel of at
least `stop - start` it gives the same result, since every breakpoint found lies strictly
between the scan position and `stop`. -/
theorem scan_events_fuel (id : Nat) (p : SurroundPannable) (start_sample : Int)
    (nframes : Nat) (stop : Int) (fuel1 : Nat) :
    ∀ (fuel2 : Nat) (start : Int) (self : SurroundReturn),
      (stop - start).toNat ≤ fuel1 → (stop - start).toNat ≤ fuel2 →
      SurroundReturn.scan_events id p start_sample nframes stop fuel1 start self
        = SurroundReturn.scan_events id p start_sample nframes stop fuel2 start self := by
  induction fuel1 with
  | zero =>
    intro fuel2 start self h1 h2
    have hnone : p.find_next_event start stop = none := by
      cases hf : p.find_next_event start stop with
      | none => rfl
      | some t =>
        have := find_next_event_range p start stop t hf
        omega
    cases fuel2 with
    | zero => rfl
    | succ fuel2 => simp only [SurroundReturn.scan_events, hnone]
  | succ fuel1 ih =>
    intro fuel2 start self h1 h2
    cases hf : p.find_next_event start stop with
    | none =>
      cases fuel2 with
      | zero => simp only [SurroundReturn.scan_events, hf]
      | succ fuel2 => simp only [SurroundReturn.scan_events, hf]
    | some t =>
      have hr := find_next_event_range p start stop t hf
      cases fuel2 with
      | zero => omega
      | succ fuel2 =>
        simp only [SurroundReturn.scan_events, hf]
        rw [ih fuel2 t _ (by omega) (by omega)]

/-! ## Send Stage: the latency notification -/

theorem update_delaylines_changed_latency (self : SurroundSend) (engine : AudioEngine)
    (rt_ok : Bool) :
    Signal.ChangedLatency ∈ (self.update_delaylines engine rt_ok).2 ↔
      ((self.update_delaylines engine rt_ok).1._thru_delay.delay ≠ self._thru_delay.delay ∧
        engine.in_process_thread = false) := by
  unfold SurroundSend.update_delaylines
  cases hd : (!rt_ok && engine.running && engine.in_process_thread)
  · simp only [Bool.false_eq_true, if_false]
    by_cases hlt : self._delay_out > self._delay_in
    · simp only [hlt, if_true, DelayLine.set_delay]
      cases hp : engine.in_process_thread <;>
        by_cases hc : self._delay_out - self._delay_in = self._thru_delay.delay <;>
        simp [hc]
    · simp only [hlt, if_false, DelayLine.set_delay]
      cases hp : engine.in_process_thread <;>
        by_cases hc : (0 : Int) = self._thru_delay.delay <;>
        simp [hc]
  · simp only [if_true]
    split_ifs <;> simp

/-- C11, counterexample: `set_delay_in (5)` on a new Send Stage, outside the process thread.
The length of `send_delay` changes from 0 to 5, and no `ChangedLatency` is emitted. -/
theorem changed_latency_send_delay_counterexample :
    SurroundSend.new._send_delay.delay = 0 ∧
    (SurroundSend.new.set_delay_in ⟨true, false⟩ 5).1._send_delay.delay = 5 ∧
    (SurroundSend.new.set_delay_in ⟨true, false⟩ 5).2 = [] := by
  decide

/-- C11, amended: a `set_delay_in` / `set_delay_out` call emits `ChangedLatency` exactly when
it changes the length of `thru_delay` and is made outside the process thread.  So a call
that leaves both delay-line lengths unchanged (a deferred request, or a repeated value) emits
no `ChangedLatency`, and neither does a call that changes the length of `send_delay` only, or
one made inside the process thread. -/
theorem changed_latency_notification (self : SurroundSend) (engine : AudioEngine)
    (c : DelayCall) :
    (Signal.ChangedLatency ∈ (self.delay_call engine c).2 ↔
      ((self.delay_call engine c).1._thru_delay.delay ≠ self._thru_delay.delay ∧
        engine.in_process_thread = false)) ∧
    (((self.delay_call engine c).1._thru_delay.delay = self._thru_delay.delay ∧
        (self.delay_call engine c).1._send_delay.delay = self._send_delay.delay) →
      Signal.ChangedLatency ∉ (self.delay_call engine c).2) := by
  have key : Signal.ChangedLatency ∈ (self.delay_call engine c).2 ↔
      ((self.delay_call engine c).1._thru_delay.delay ≠ self._thru_delay.delay ∧
        engine.in_process_thread = false) := by
    cases c with
    | set_delay_in d =>
      simp only [SurroundSend.delay_call, SurroundSend.set_delay_in]
      split_ifs
      · simp
      · exact update_delaylines_changed_latency { self with _delay_in := d } engine false
    | set_delay_out d =>
      simp only [SurroundSend.delay_call, SurroundSend.set_delay_out]
      split_ifs
      · simp
      · exact update_delaylines_changed_latency { self with _delay_out := d } engine true
  refine ⟨key, ?_⟩
  intro h hmem
  exact (key.1 hmem).1 h.1

/-- C11, witness: on a new Send Stage outside the process thread, `set_delay_out (4)` changes
the length of `thru_delay` and emits `ChangedLatency`. -/
theorem changed_latency_notification_witness :
    (SurroundSend.new.delay_call ⟨true, false⟩ (DelayCall.set_delay_out 4)).1._thru_delay.delay
      ≠ SurroundSend.new._thru_delay.delay ∧
    Signal.ChangedLatency ∈
      (SurroundSend.new.delay_call ⟨true, false⟩ (DelayCall.set_delay_out 4)).2 :=
  ⟨by decide,
   (changed_latency_notification SurroundSend.new ⟨true, false⟩
      (DelayCall.set_delay_out 4)).1.2 ⟨by decide, rfl⟩⟩

/-! ## Return Stage: evaluation failure -/

/-- C14: in `evaluate (id, p, when, sample)`, if any of the five parameter evaluations reports
`ok = false`, the stage is unchanged (in particular the slot's cached values) and nothing is
forged: the only event is the record of the call itself.  If all five report `ok`, the stage
is left as by `maybe_send_metadata (id, sample, v)` on the five evaluated values `v`, and
the events are the record of the call followed by those of `maybe_send_metadata`. -/
theorem evaluate_failure_skips (self : SurroundReturn) (id : Nat) (p : SurroundPannable)
    (when : Int) (sample : Nat) :
    ((∃ i, i < num_pan_parameters ∧ ((p.control i).rt_safe_eval when).2 = false) →
      (self.evaluate id p when sample).1 = self ∧
      (self.evaluate id p when sample).2 = [Event.evaluate id when sample]) ∧
    ((∀ i, i < num_pan_parameters → ((p.control i).rt_safe_eval when).2 = true) →
      (self.evaluate id p when sample).1
        = (self.maybe_send_metadata id sample
            (fun i => ((p.control i).rt_safe_eval when).1)).1 ∧
      (self.evaluate id p when sample).2
        = Event.evaluate id when sample ::
          (self.maybe_send_metadata id sample
            (fun i => ((p.control i).rt_safe_eval when).1)).2) := by
  refine ⟨?_, ?_⟩
  · rintro ⟨i, hi, hf⟩
    have hcond : (((p.control 0).rt_safe_eval when).2 && ((p.control 1).rt_safe_eval when).2 &&
        ((p.control 2).rt_safe_eval when).2 && ((p.control 3).rt_safe_eval when).2 &&
        ((p.control 4).rt_safe_eval when).2) = false := by
      have h5 : num_pan_parameters = 5 := rfl
      have : i = 0 ∨ i = 1 ∨ i = 2 ∨ i = 3 ∨ i = 4 := by omega
      rcases this with h | h | h | h | h <;> subst h <;> simp [hf]
    unfold SurroundReturn.evaluate
    simp only [hcond, Bool.false_eq_true, if_false, and_self]
  · intro h
    have h0 := h 0 (by decide)
    have h1 := h 1 (by decide)
    have h2 := h 2 (by decide)
    have h3 := h 3 (by decide)
    have h4 := h 4 (by decide)
    unfold SurroundReturn.evaluate
    simp only [h0, h1, h2, h3, h4, Bool.and_self, if_true, and_self]

/-- C14, witness: a Pan Parameter Set whose automation lists have no definition (every
evaluation reports `ok = false`): `evaluate` leaves a new stage unchanged. -/
theorem evaluate_failure_skips_witness :
    (∃ i, i < num_pan_parameters ∧
      (((SurroundPannable.manual 1 1 1 1 1 0).control i).rt_safe_eval 7).2 = false) ∧
    (SurroundReturn.new.evaluate 10 (SurroundPannable.manual 1 1 1 1 1 0) 7 3).2
      = [Event.evaluate 10 7 3] :=
  ⟨⟨0, by decide, rfl⟩,
   ((evaluate_failure_skips SurroundReturn.new 10 (SurroundPannable.manual 1 1 1 1 1 0) 7 3).1
      ⟨0, by decide, rfl⟩).2⟩

/-! ## Return Stage: input and output configuration -/

/-- C15: `can_support_io_configuration` accepts a request if and only if its total input
channel count is 0; a request with a nonzero count of any data type is rejected; and in
every case the output count is set to exactly 14 audio channels (and no other). -/
theorem io_configuration (inp : ChanCount) :
    ((SurroundReturn.can_support_io_configuration inp).1 = true ↔ inp.n_total = 0) ∧
    ((inp.n_audio ≠ 0 ∨ inp.n_midi ≠ 0) →
      (SurroundReturn.can_support_io_configuration inp).1 = false) ∧
    (SurroundReturn.can_support_io_configuration inp).2 = ChanCount.audio 14 ∧
    (SurroundReturn.can_support_io_configuration inp).2.n_audio = 14 ∧
    (SurroundReturn.can_support_io_configuration inp).2.n_total = 14 := by
  refine ⟨?_, ?_, rfl, rfl, rfl⟩
  · simp [SurroundReturn.can_support_io_configuration]
  · intro h
    simp only [SurroundReturn.can_support_io_configuration, ChanCount.n_total,
      decide_eq_false_iff_not]
    omega

/-- C15, witness: a request with one MIDI input and no audio input is rejected. -/
theorem io_configuration_witness :
    (SurroundReturn.can_support_io_configuration ⟨0, 1⟩).1 = false :=
  (io_configuration ⟨0, 1⟩).2.1 (Or.inr (by decide))

/-! ## Return Stage: the object count message -/

theorem object_count_msgs_append (l1 l2 : List Event) :
    object_count_msgs (l1 ++ l2) = object_count_msgs l1 ++ object_count_msgs l2 := by
  unfold object_count_msgs
  exact List.filterMap_append _ _ _

theorem object_count_msgs_slot (l : List Event) (h : ∀ e ∈ l, ∃ k, e.slot = some k) :
    object_count_msgs l = [] := by
  induction l with
  | nil => rfl
  | cons e rest ih =>
    have hr := ih (fun x hx => h x (List.mem_cons_of_mem _ hx))
    obtain ⟨k, hk⟩ := h e (List.mem_cons_self _ _)
    unfold object_count_msgs at hr ⊢
    cases e <;> simp_all [Event.slot]

theorem object_count_msgs_begin_cycle (self : SurroundReturn) (nframes : Nat) :
    object_count_msgs (self.begin_cycle nframes).2 = [] := by
  unfold SurroundReturn.begin_cycle
  dsimp only
  split_ifs <;> rfl

theorem object_count_msgs_report_count (self : SurroundReturn) (id : Nat) :
    object_count_msgs (self.report_count id).2 =
      if self._current_n_objects ≠ id then [channel_count_msg id] else [] := by
  unfold SurroundReturn.report_count
  split_ifs
  · rfl
  · rfl

theorem begin_cycle_stored (self : SurroundReturn) (nframes : Nat) :
    (self.begin_cycle nframes).1._current_n_objects = self._current_n_objects ∧
      (self.begin_cycle nframes).1._current_value = self._current_value ∧
      (self.begin_cycle nframes).1._current_render_mode = self._current_render_mode :=
  ⟨rfl, rfl, rfl⟩

/-- The object-count message of a cycle, in terms of the id counter after the route loop. -/
theorem run_object_count (self : SurroundReturn) (rl : RouteList)
    (start_sample end_sample : Int) (nframes : Nat) :
    object_count_msgs (self.run true rl start_sample end_sample nframes).2
      = (if self._current_n_objects ≠ min (10 + total_channels rl) 128
          then [channel_count_msg (min (10 + total_channels rl) 128)] else []) ∧
    (self.run true rl start_sample end_sample nframes).1._current_n_objects
      = min (10 + total_channels rl) 128 := by
  have hcnt := route_loop_counter start_sample end_sample nframes rl 0 10
    (self.begin_cycle nframes).1
  have hid : (SurroundReturn.route_loop start_sample end_sample nframes rl 0 10
      (self.begin_cycle nframes).1).2.1 = min (10 + total_channels rl) 128 := by
    have hm : max_object_id = 128 := rfl
    omega
  obtain ⟨r1, -, r3, -⟩ := route_loop_range start_sample end_sample nframes rl 0 10
    (self.begin_cycle nframes).1
  rw [run_active]
  refine ⟨?_, ?_⟩
  · simp only [object_count_msgs_append]
    rw [object_count_msgs_begin_cycle,
      object_count_msgs_slot _ (fun e he => by
        obtain ⟨k, hk, -⟩ := r1 e he
        exact ⟨k, hk⟩),
      object_count_msgs_report_count, r3, hid, (begin_cycle_stored self nframes).1]
    simp [object_count_msgs]
  · rw [report_count_stored, hid]

set_option maxRecDepth 100000 in
/-- C16, counterexample: the first cycle of a new Return Stage (stored count 128) over 59
routes of two channels each.  118 ids are assigned, which differs from the stored count, and
yet no object-count message is forged; and in the first cycle over a single channel the
message carries 11, not the number of ids assigned (1). -/
theorem object_count_counterexample :
    SurroundReturn.new._current_n_objects = 128 ∧
    (assigned (SurroundReturn.new.run true
        (List.replicate 59 (Route.with_pannables
          [SurroundPannable.manual 0 0 0 0 0 0, SurroundPannable.manual 0 0 0 0 0 0]))
        0 64 64).2).length = 118 ∧
    object_count_msgs (SurroundReturn.new.run true
        (List.replicate 59 (Route.with_pannables
          [SurroundPannable.manual 0 0 0 0 0 0, SurroundPannable.manual 0 0 0 0 0 0]))
        0 64 64).2 = [] ∧
    (assigned (SurroundReturn.new.run true
        [Route.with_pannables [SurroundPannable.manual 0 0 0 0 0 0]] 0 64 64).2).length = 1 ∧
    object_count_msgs (SurroundReturn.new.run true
        [Route.with_pannables [SurroundPannable.manual 0 0 0 0 0 0]] 0 64 64).2
      = [channel_count_msg 11] :=
  ⟨by decide, by decide, by decide, by decide, by decide⟩

/-- C16, amended: the count that the Return Stage stores and reports is the id counter after
the walk, that is 10 plus the number of ids assigned this cycle (the constructor's initial
value is 128).  At the end of every active cycle exactly one object-count message is forged
if this counter differs from the stored count, and none otherwise; the message carries the
counter, and the stored count is the counter afterwards. -/
theorem object_count_message (self : SurroundReturn) (rl : RouteList)
    (start_sample end_sample : Int) (nframes : Nat) :
    object_count_msgs (self.run true rl start_sample end_sample nframes).2
      = (if self._current_n_objects
            ≠ 10 + (assigned (self.run true rl start_sample end_sample nframes).2).length
          then [channel_count_msg
            (10 + (assigned (self.run true rl start_sample end_sample nframes).2).length)]
          else []) ∧
    (self.run true rl start_sample end_sample nframes).1._current_n_objects
      = 10 + (assigned (self.run true rl start_sample end_sample nframes).2).length := by
  have hlen : (assigned (self.run true rl start_sample end_sample nframes).2).length
      = min (total_channels rl) 118 := by
    rw [run_assigned, List.length_zipWith, walk_order_length, List.length_range']
  have e : 10 + min (total_channels rl) 118 = min (10 + total_channels rl) 128 := by omega
  rw [hlen, e]
  exact run_object_count self rl start_sample end_sample nframes

/-! ## Return Stage: the render-mode message -/

/-- C17: for every channel that a cycle visits (position `n` of the walk order, object id
`10 + n` below 128), the cycle forges exactly one render-mode message for that id, carrying
the id and the object's render-mode selector, if the selector differs from
`_current_render_mode[id]`, and none otherwise; afterwards the cache holds the selector.
Nothing is assumed about the automation state of the object, its pan values or the results
of its evaluations. -/
theorem render_mode_message (self : SurroundReturn) (rl : RouteList)
    (start_sample end_sample : Int) (nframes n i s : Nat) (ss : SurroundSend)
    (hw : (walk_order 0 rl)[n]? = some (i, ss, s)) (hlt : 10 + n < 128) :
    render_mode_msgs (10 + n) (self.run true rl start_sample end_sample nframes).2
      = (if (ss.pan_param s).binaural_render_mode ≠ self._current_render_mode (10 + n)
          then [{ otype := URID.surr_Settings,
                  props := [(URID.surr_Channel, Atom.int ((10 + n : Nat) : Int)),
                    (URID.surr_BinauralRenderMode,
                      Atom.int (ss.pan_param s).binaural_render_mode)] }]
          else []) ∧
    (self.run true rl start_sample end_sample nframes).1._current_render_mode (10 + n)
      = (ss.pan_param s).binaural_render_mode :=
  run_render_mode self rl start_sample end_sample nframes n i s ss hw hlt

/-- C17, witness: an automated object whose evaluations all fail, with render mode 2, in the
first cycle of a new stage: the render-mode message for slot 10 is forged. -/
theorem render_mode_message_witness :
    render_mode_msgs (10 + 0)
        (SurroundReturn.new.run true
          [Route.with_pannables
            [{ SurroundPannable.manual 0 0 0 0 0 2 with automation_state := AutoState.Play }]]
          0 64 64).2
      = [render_mode_msg 10 2] :=
  (render_mode_message SurroundReturn.new
    [Route.with_pannables
      [{ SurroundPannable.manual 0 0 0 0 0 2 with automation_state := AutoState.Play }]]
    0 64 64 0 0 0
    (SurroundSend.with_pannables
      [{ SurroundPannable.manual 0 0 0 0 0 2 with automation_state := AutoState.Play }])
    rfl (by decide)).1

/-! ## Return Stage: flush -/

theorem flush_iterate (self : SurroundReturn) (n : Nat) (hn : 1 ≤ n) :
    (SurroundReturn.flush^[n] self)._flush = 1 := by
  obtain ⟨m, rfl⟩ : ∃ m, n = m + 1 := ⟨n - 1, by omega⟩
  rw [Function.iterate_succ_apply']
  rfl

/-- The events of a cycle: the flush of the renderer when the flag was set, then the events
of the walk and of the object count, none of which is a flush or a call of the renderer,
then the call of the renderer.  The flag is cleared when it was set. -/
theorem run_flush (self : SurroundReturn) (rl : RouteList) (start_sample end_sample : Int)
    (nframes : Nat) :
    (∃ mid : List Event,
      (self.run true rl start_sample end_sample nframes).2
        = (if self._flush = 1 then [Event.flush] else []) ++ (mid ++ [Event.connect_and_run]) ∧
      Event.flush ∉ mid ∧ Event.connect_and_run ∉ mid) ∧
    (self.run true rl start_sample end_sample nframes).1._flush
      = (if self._flush = 1 then 0 else self._flush) := by
  obtain ⟨r1, -, -, r4⟩ := route_loop_range start_sample end_sample nframes rl 0 10
    (self.begin_cycle nframes).1
  have hnone : ∀ e ∈ (SurroundReturn.route_loop start_sample end_sample nframes rl 0 10
      (self.begin_cycle nframes).1).2.2 ++
      ((SurroundReturn.route_loop start_sample end_sample nframes rl 0 10
        (self.begin_cycle nframes).1).1.report_count
        (SurroundReturn.route_loop start_sample end_sample nframes rl 0 10
          (self.begin_cycle nframes).1).2.1).2,
      e ≠ Event.flush ∧ e ≠ Event.connect_and_run := by
    intro e he
    rcases List.mem_append.1 he with h | h
    · obtain ⟨k, hk, -⟩ := r1 e h
      constructor <;> intro hh <;> rw [hh] at hk <;> cases hk
    · unfold SurroundReturn.report_count at h
      split_ifs at h
      · rw [List.mem_singleton.1 h]
        constructor <;> intro hh <;> cases hh
      · cases h
  refine ⟨⟨_, ?_, fun h => (hnone _ h).1 rfl, fun h => (hnone _ h).2 rfl⟩, ?_⟩
  · rw [run_active]
    simp only [List.append_assoc]
    rfl
  · rw [run_active]
    have h2 : ∀ (s : SurroundReturn) (id : Nat), (s.report_count id).1._flush = s._flush := by
      intro s id
      unfold SurroundReturn.report_count
      split_ifs <;> rfl
    rw [h2, r4]
    rfl

/-- C18: after any number `n >= 1` of `flush ()` calls, the next cycle of an active Return
Stage flushes the renderer exactly once, as the first event of the cycle and so before the
renderer is invoked (the last event), and clears the flag; a following cycle with no
`flush ()` call in between does not flush the renderer. -/
theorem flush_consumed_once (self : SurroundReturn) (n : Nat) (hn : 1 ≤ n)
    (rl1 rl2 : RouteList) (start1 end1 start2 end2 : Int) (nframes1 nframes2 : Nat) :
    (∃ mid : List Event,
      ((SurroundReturn.flush^[n] self).run true rl1 start1 end1 nframes1).2
        = Event.flush :: (mid ++ [Event.connect_and_run]) ∧
      Event.flush ∉ mid ∧ Event.connect_and_run ∉ mid) ∧
    ((SurroundReturn.flush^[n] self).run true rl1 start1 end1 nframes1).1._flush = 0 ∧
    Event.flush ∉
      (((SurroundReturn.flush^[n] self).run true rl1 start1 end1 nframes1).1.run true rl2
        start2 end2 nframes2).2 := by
  have hf := flush_iterate self n hn
  obtain ⟨⟨mid, h1, h2, h3⟩, h4⟩ := run_flush (SurroundReturn.flush^[n] self) rl1
    start1 end1 nframes1
  rw [hf] at h1 h4
  simp only [if_true] at h1 h4
  refine ⟨⟨mid, h1, h2, h3⟩, h4, ?_⟩
  obtain ⟨⟨mid2, g1, g2, -⟩, -⟩ := run_flush
    ((SurroundReturn.flush^[n] self).run true rl1 start1 end1 nframes1).1 rl2
    start2 end2 nframes2
  rw [h4] at g1
  rw [g1]
  simp only [Int.reduceEq, if_false, List.nil_append, List.mem_append, List.mem_singleton,
    not_or]
  exact ⟨g2, fun h => by cases h⟩

/-- C18, witness: three `flush ()` calls on a new stage, then two cycles over one route: the
first cycle starts with the flush of the renderer, the second has none. -/
theorem flush_consumed_once_witness :
    ((SurroundReturn.flush^[3] SurroundReturn.new).run true
        [Route.with_pannables [SurroundPannable.manual 0 0 0 0 0 0]] 0 64 64).1._flush = 0 ∧
    Event.flush ∉
      (((SurroundReturn.flush^[3] SurroundReturn.new).run true
        [Route.with_pannables [SurroundPannable.manual 0 0 0 0 0 0]] 0 64 64).1.run true
        [Route.with_pannables [SurroundPannable.manual 0 0 0 0 0 0]] 64 128 64).2 :=
  (flush_consumed_once SurroundReturn.new 3 (by decide)
    [Route.with_pannables [SurroundPannable.manual 0 0 0 0 0 0]]
    [Route.with_pannables [SurroundPannable.manual 0 0 0 0 0 0]] 0 64 64 128 64 64).2

/-! ## Send Stage: gain branches of `run` -/

theorem process_events (c : Collaborators) (self : SendStage) (bufs : List AudioBuffer)
    (start_sample end_sample : Int) (nframes : Nat) (evs : List SendEvent) :
    (self.process c bufs start_sample end_sample nframes evs).2.2
        = evs ++ self.tail_events c ∧
    (self.process c bufs start_sample end_sample nframes evs).1._current_gain
        = self._current_gain := by
  unfold SendStage.process SendStage.tail_events
  simp only [List.append_assoc, and_self]

/-- C20: in an active block of `SurroundSend::run` the branch taken depends on the target
gain and the previously applied gain `_current_gain` only.  When they differ the gain is
ramped (`Amp::apply_gain`) and `_current_gain` becomes the value the ramp returns; when both
are 0 the mix buffers get the zero gain and `run` returns at once; when they are equal,
non-zero and not unity the flat gain `Amp::apply_simple_gain (target)` is applied; at unity
no gain is applied.  In the three branches without a ramp `_current_gain` keeps its value;
in all branches but the silent one the block goes on with fader, delays and
automation. -/
theorem gain_branch_selection (c : Collaborators) (self : SendStage) (tgain : gain_t)
    (bufs : List AudioBuffer) (start_sample end_sample : Int) (nframes : Nat) :
    (tgain ≠ self._current_gain →
      (self.run c true tgain bufs start_sample end_sample nframes).2.2
        = [SendEvent.automation_run start_sample nframes,
            SendEvent.apply_gain self._current_gain tgain] ++ self.tail_events c ∧
      (self.run c true tgain bufs start_sample end_sample nframes).1._current_gain
        = (c.apply_gain (copy_inputs self._mixbufs bufs nframes) nframes
            self._current_gain tgain).2) ∧
    (tgain = self._current_gain → tgain = GAIN_COEFF_ZERO →
      (self.run c true tgain bufs start_sample end_sample nframes).2.2
        = [SendEvent.automation_run start_sample nframes,
            SendEvent.apply_simple_gain GAIN_COEFF_ZERO] ∧
      (self.run c true tgain bufs start_sample end_sample nframes).1._current_gain
        = self._current_gain) ∧
    (tgain = self._current_gain → tgain ≠ GAIN_COEFF_ZERO → tgain ≠ GAIN_COEFF_UNITY →
      (self.run c true tgain bufs start_sample end_sample nframes).2.2
        = [SendEvent.automation_run start_sample nframes,
            SendEvent.apply_simple_gain tgain] ++ self.tail_events c ∧
      (self.run c true tgain bufs start_sample end_sample nframes).1._current_gain
        = self._current_gain) ∧
    (tgain = self._current_gain → tgain = GAIN_COEFF_UNITY →
      (self.run c true tgain bufs start_sample end_sample nframes).2.2
        = [SendEvent.automation_run start_sample nframes] ++ self.tail_events c ∧
      (self.run c true tgain bufs start_sample end_sample nframes).1._current_gain
        = self._current_gain) := by
  have h01 : GAIN_COEFF_UNITY ≠ GAIN_COEFF_ZERO := by decide
  refine ⟨?_, ?_, ?_, ?_⟩
  · intro h
    unfold SendStage.run
    simp only [Bool.not_true, Bool.false_eq_true, if_false]
    rw [if_pos h]
    exact ⟨(process_events c _ bufs start_sample end_sample nframes _).1,
      (process_events c _ bufs start_sample end_sample nframes _).2⟩
  · intro h h0
    unfold SendStage.run
    simp only [Bool.not_true, Bool.false_eq_true, if_false]
    rw [if_neg (not_not.2 h), if_pos h0]
    exact ⟨rfl, rfl⟩
  · intro h h0 h1
    unfold SendStage.run
    simp only [Bool.not_true, Bool.false_eq_true, if_false]
    rw [if_neg (not_not.2 h), if_neg h0, if_pos h1]
    exact ⟨(process_events c _ bufs start_sample end_sample nframes _).1,
      (process_events c _ bufs start_sample end_sample nframes _).2⟩
  · intro h h1
    unfold SendStage.run
    simp only [Bool.not_true, Bool.false_eq_true, if_false]
    rw [if_neg (not_not.2 h), if_neg (by rw [h1]; exact h01), if_neg (not_not.2 h1)]
    exact ⟨(process_events c _ bufs start_sample end_sample nframes _).1,
      (process_events c _ bufs start_sample end_sample nframes _).2⟩

/-- C20, witness: the sample stage (applied gain 0) with target gain 1 takes the ramp
branch and its applied gain becomes what the ramp returns. -/
theorem gain_branch_selection_witness :
    ((SendStage.sample false 1).run (Collaborators.plain false) true 1
        [fun _ => 1] 0 64 64).1._current_gain
      = ((Collaborators.plain false).apply_gain
          (copy_inputs (SendStage.sample false 1)._mixbufs [fun _ => 1] 64) 64
          (SendStage.sample false 1)._current_gain 1).2 :=
  ((gain_branch_selection (Collaborators.plain false) (SendStage.sample false 1) 1
    [fun _ => 1] 0 64 64).1 (by decide)).2

/-! ## Send Stage: the silent fast path -/

/-- The loop `while (_pannable.size () < n) add_pannable ()`, given enough iterations,
appends the Pan Parameter Sets of the missing channels and changes nothing else. -/
theorem grow_spec (c : Collaborators) (fuel : Nat) :
    ∀ (n : Nat) (self : SendStage), n - self._pannable.length ≤ fuel →
      SendStage.grow c fuel n self
        = { self with
            _pannable := self._pannable ++
              (List.range' self._pannable.length (n - self._pannable.length)).map
                c.new_pannable } := by
  induction fuel with
  | zero =>
    intro n self h
    have h0 : n - self._pannable.length = 0 := by omega
    simp [SendStage.grow, h0]
  | succ fuel ih =>
    intro n self h
    unfold SendStage.grow
    by_cases hlt : self._pannable.length < n
    · rw [if_pos hlt, ih n (self.add_pannable c)
        (by simp only [SendStage.add_pannable, List.length_append, List.length_singleton]; omega)]
      obtain ⟨k, hk⟩ : ∃ k, n - self._pannable.length = k + 1 :=
        ⟨n - self._pannable.length - 1, by omega⟩
      have hk2 : n - (self._pannable.length + 1) = k := by omega
      simp only [SendStage.add_pannable, List.length_append, List.length_singleton, hk, hk2,
        List.range'_succ, List.map_cons, List.append_assoc, List.singleton_append]
    · rw [if_neg hlt]
      have h0 : n - self._pannable.length = 0 := by omega
      simp [h0]

theorem grow_length (c : Collaborators) (fuel n : Nat) (self : SendStage)
    (h : n - self._pannable.length ≤ fuel) :
    (SendStage.grow c fuel n self)._pannable.length = max self._pannable.length n := by
  rw [grow_spec c fuel n self h]
  simp only [List.length_append, List.length_map, List.length_range']
  omega

theorem grow_keeps (c : Collaborators) (fuel n : Nat) (self : SendStage)
    (h : n - self._pannable.length ≤ fuel) :
    (SendStage.grow c fuel n self)._configured_input = self._configured_input ∧
      (SendStage.grow c fuel n self)._gain_control = self._gain_control := by
  rw [grow_spec c fuel n self h]
  exact ⟨rfl, rfl⟩

theorem cap_le (c : Collaborators) (n : Nat) : c.cap n ≤ n := by
  unfold Collaborators.cap
  split_ifs <;> omega

theorem cap_cap (c : Collaborators) (n : Nat) : c.cap (c.cap n) = c.cap n := by
  unfold Collaborators.cap
  split_ifs <;> omega

/-- What `configure_io` does to the array of Pan Parameter Sets and to `n_pannables ()`. -/
theorem configure_io_pannables (c : Collaborators) (self : SendStage) (inp out : ChanCount) :
    self._pannable.length ≤ (self.configure_io c inp out).2.1._pannable.length ∧
    ((self.configure_io c inp out).1 = true →
      (self.configure_io c inp out).2.1._pannable.length
        = max self._pannable.length (c.cap inp.n_audio)) ∧
    (self.n_pannables c ≤ self._pannable.length →
      (self.configure_io c inp out).2.1.n_pannables c
        ≤ (self.configure_io c inp out).2.1._pannable.length) := by
  have hg : (SendStage.grow c (c.cap inp.n_audio - self._pannable.length) (c.cap inp.n_audio)
      { self with _configured := true, _configured_input := inp,
                  _configured_output := out })._pannable.length
      = max self._pannable.length (c.cap inp.n_audio) :=
    grow_length c (c.cap inp.n_audio - self._pannable.length) (c.cap inp.n_audio)
      { self with _configured := true, _configured_input := inp, _configured_output := out }
      (le_refl _)
  have hgi : (SendStage.grow c (c.cap inp.n_audio - self._pannable.length) (c.cap inp.n_audio)
      { self with _configured := true, _configured_input := inp,
                  _configured_output := out })._configured_input = inp :=
    (grow_keeps c (c.cap inp.n_audio - self._pannable.length) (c.cap inp.n_audio)
      { self with _configured := true, _configured_input := inp, _configured_output := out }
      (le_refl _)).1
  unfold SendStage.configure_io
  dsimp only
  split_ifs <;> refine ⟨?_, ?_, ?_⟩ <;>
    first
      | exact le_refl _
      | exact fun h => h
      | (intro h; cases h; done)
      | (dsimp only; rw [hg]; omega)
      | (intro _; dsimp only; rw [hg]; done)
      | (intro _; unfold SendStage.n_pannables; dsimp only; rw [hg, hgi]; omega)

theorem restore_pannables_keeps (c : Collaborators) (nodes : List XMLNode) :
    ∀ (self next : SendStage), SendStage.restore_pannables c nodes self = some next →
      next._pannable.length = self._pannable.length ∧
      next._configured_input = self._configured_input ∧
      next._gain_control = self._gain_control := by
  induction nodes with
  | nil =>
    intro self next h
    simp only [SendStage.restore_pannables, Option.some.injEq] at h
    subst h
    exact ⟨rfl, rfl, rfl⟩
  | cons node rest ih =>
    intro self next h
    cases hc : node.get_property "channel" with
    | none =>
      simp only [SendStage.restore_pannables, hc] at h
      exact ih self next h
    | some chn =>
      cases hp : self._pannable[chn]? with
      | none =>
        simp only [SendStage.restore_pannables, hc, hp] at h
        cases h
      | some p =>
        simp only [SendStage.restore_pannables, hc, hp] at h
        obtain ⟨h1, h2, h3⟩ := ih _ next h
        exact ⟨by rw [h1]; simp, h2, h3⟩

/-- What `set_state` does to the array of Pan Parameter Sets and to the configuration. -/
theorem set_state_pannables (c : Collaborators) (self : SendStage) (node : XMLNode)
    (r : Int) (next : SendStage) (h : self.set_state c node = some (r, next)) :
    self._pannable.length ≤ next._pannable.length ∧
      next._configured_input = self._configured_input := by
  unfold SendStage.set_state at h
  split_ifs at h
  · simp only [Option.some.injEq, Prod.mk.injEq] at h
    rw [← h.2]
    exact ⟨le_refl _, rfl⟩
  · cases hg : node.child c.xml_node_name with
    | none =>
      rw [hg] at h
      cases h
    | some gainnode =>
      rw [hg] at h
      dsimp only at h
      cases hn : node.get_property "n-pannables" with
      | none =>
        rw [hn] at h
        simp only [Option.some.injEq, Prod.mk.injEq] at h
        rw [← h.2]
        exact ⟨le_refl _, rfl⟩
      | some npan =>
        rw [hn] at h
        dsimp only at h
        cases hr : SendStage.restore_pannables c (node.children "SurroundPannable")
            (SendStage.grow c (npan - self._pannable.length) npan
              { self with _gain_control := c.gain_set_state self._gain_control gainnode }) with
        | none =>
          rw [hr] at h
          cases h
        | some self3 =>
          rw [hr] at h
          simp only [Option.some.injEq, Prod.mk.injEq] at h
          obtain ⟨h1, h2, -⟩ := restore_pannables_keeps c _ _ _ hr
          have hg2 : (SendStage.grow c (npan - self._pannable.length) npan
              { self with
                _gain_control := c.gain_set_state self._gain_control gainnode })._pannable.length
              = max self._pannable.length npan :=
            grow_length c (npan - self._pannable.length) npan
              { self with _gain_control := c.gain_set_state self._gain_control gainnode }
              (le_refl _)
          have hg3 : (SendStage.grow c (npan - self._pannable.length) npan
              { self with
                _gain_control :=
                  c.gain_set_state self._gain_control gainnode })._configured_input
              = self._configured_input :=
            (grow_keeps c (npan - self._pannable.length) npan
              { self with _gain_control := c.gain_set_state self._gain_control gainnode }
              (le_refl _)).1
          rw [← h.2, h1, h2, hg2, hg3]
          exact ⟨by omega, rfl⟩

theorem apply_op_pannables (c : Collaborators) (self next : SendStage) (op : SendOp)
    (h : self.apply_op c op = some next) :
    self._pannable.length ≤ next._pannable.length ∧
    (self.n_pannables c ≤ self._pannable.length →
      next.n_pannables c ≤ next._pannable.length) := by
  cases op with
  | configure_io inp out =>
    simp only [SendStage.apply_op, Option.some.injEq] at h
    rw [← h]
    exact ⟨(configure_io_pannables c self inp out).1, (configure_io_pannables c self inp out).2.2⟩
  | set_state node =>
    simp only [SendStage.apply_op, Option.map_eq_some'] at h
    obtain ⟨⟨r, s⟩, hs, hn⟩ := h
    dsimp only at hn
    subst hn
    obtain ⟨h1, h2⟩ := set_state_pannables c self node r s hs
    refine ⟨h1, fun hw => ?_⟩
    unfold SendStage.n_pannables at hw ⊢
    rw [h2]
    omega
  | add_pannable =>
    simp only [SendStage.apply_op, Option.some.injEq] at h
    rw [← h]
    refine ⟨by simp [SendStage.add_pannable], fun hw => ?_⟩
    unfold SendStage.n_pannables at hw ⊢
    simp only [SendStage.add_pannable, List.length_append, List.length_singleton]
    omega

theorem apply_ops_pannables (c : Collaborators) (ops : List SendOp) :
    ∀ (self final : SendStage), self.apply_ops c ops = some final →
      self._pannable.length ≤ final._pannable.length ∧
      (self.n_pannables c ≤ self._pannable.length →
        final.n_pannables c ≤ final._pannable.length) := by
  induction ops with
  | nil =>
    intro self final h
    simp only [SendStage.apply_ops, Option.some.injEq] at h
    subst h
    exact ⟨le_refl _, fun h => h⟩
  | cons op rest ih =>
    intro self final h
    unfold SendStage.apply_ops at h
    cases ho : self.apply_op c op with
    | none =>
      rw [ho] at h
      cases h
    | some next =>
      rw [ho] at h
      obtain ⟨a1, a2⟩ := apply_op_pannables c self next op ho
      obtain ⟨b1, b2⟩ := ih next final h
      exact ⟨le_trans a1 b1, fun hw => b2 (a2 hw)⟩

/-- C19, counterexample: in a build with `MIXBUS`, `configure_io` with 4 audio inputs on a
new Send Stage succeeds and leaves 2 Pan Parameter Sets, not max (0, 4) = 4. -/
theorem configure_io_cap_counterexample :
    ((SendStage.new { value := 1 }).configure_io (Collaborators.plain true)
        (ChanCount.audio 4) (ChanCount.audio 4)).1 = true ∧
    (SendStage.new { value := 1 })._pannable.length = 0 ∧
    ((SendStage.new { value := 1 }).configure_io (Collaborators.plain true)
        (ChanCount.audio 4) (ChanCount.audio 4)).2.1._pannable.length = 2 := by
  decide

/-- C19, amended: the array of Pan Parameter Sets only grows: no operation (`configure_io`,
`set_state`, `add_pannable`) decreases its size.  After a successful `configure_io (in, out)`
its size is max (previous size, n), where n is `in.n_audio ()`, capped at 2 in a build with
`MIXBUS`; without `MIXBUS` that is max (previous size, `in.n_audio ()`).  A new stage has
size at least `n_pannables ()`, and every sequence of these operations keeps that, so every
channel index below `n_pannables ()` is in range. -/
theorem pannable_array_grows (c : Collaborators) (self : SendStage) :
    (∀ (op : SendOp) (next : SendStage), self.apply_op c op = some next →
      self._pannable.length ≤ next._pannable.length) ∧
    (∀ inp out : ChanCount, (self.configure_io c inp out).1 = true →
      (self.configure_io c inp out).2.1._pannable.length
        = max self._pannable.length (c.cap inp.n_audio)) ∧
    (c.MIXBUS = false → ∀ inp out : ChanCount, (self.configure_io c inp out).1 = true →
      (self.configure_io c inp out).2.1._pannable.length
        = max self._pannable.length inp.n_audio) ∧
    (∀ g : GainControl, (SendStage.new g).n_pannables c ≤ (SendStage.new g)._pannable.length) ∧
    (self.n_pannables c ≤ self._pannable.length →
      ∀ (ops : List SendOp) (final : SendStage), self.apply_ops c ops = some final →
        self._pannable.length ≤ final._pannable.length ∧
        final.n_pannables c ≤ final._pannable.length ∧
        (∀ chn, chn < final.n_pannables c → chn < final._pannable.length)) := by
  refine ⟨?_, ?_, ?_, ?_, ?_⟩
  · intro op next h
    exact (apply_op_pannables c self next op h).1
  · intro inp out h
    exact (configure_io_pannables c self inp out).2.1 h
  · intro hm inp out h
    have := (configure_io_pannables c self inp out).2.1 h
    simpa [Collaborators.cap, hm] using this
  · intro g
    have := cap_le c 0
    simp only [SendStage.n_pannables, SendStage.new, ChanCount.audio]
    omega
  · intro hw ops final h
    obtain ⟨h1, h2⟩ := apply_ops_pannables c ops self final h
    exact ⟨h1, h2 hw, fun chn hc => lt_of_lt_of_le hc (h2 hw)⟩

/-- C19, witness: without `MIXBUS`, a new stage after `configure_io` with 3 audio inputs and
then with 1 audio input has 3 Pan Parameter Sets and `n_pannables ()` is 1. -/
theorem pannable_array_grows_witness :
    ((SendStage.new { value := 1 }).configure_io (Collaborators.plain false)
        (ChanCount.audio 3) (ChanCount.audio 3)).1 = true ∧
    ((SendStage.new { value := 1 }).configure_io (Collaborators.plain false)
        (ChanCount.audio 3) (ChanCount.audio 3)).2.1._pannable.length
      = max (SendStage.new { value := 1 })._pannable.length 3 ∧
    Option.map (fun s => (s._pannable.length, s.n_pannables (Collaborators.plain false)))
        ((SendStage.new { value := 1 }).apply_ops (Collaborators.plain false)
          [SendOp.configure_io (ChanCount.audio 3) (ChanCount.audio 3),
           SendOp.configure_io (ChanCount.audio 1) (ChanCount.audio 1)])
      = some (3, 1) :=
  ⟨by decide,
   (pannable_array_grows (Collaborators.plain false) (SendStage.new { value := 1 })).2.2.1 rfl
     (ChanCount.audio 3) (ChanCount.audio 3) (by decide),
   by decide⟩

/-! ## Send Stage: persisted state -/

theorem nodes_mk (n : String) (ps : List (String × XMLProperty)) (cs : List XMLNode) :
    (XMLNode.mk n ps cs).nodes = cs := rfl

theorem properties_mk (n : String) (ps : List (String × XMLProperty)) (cs : List XMLNode) :
    (XMLNode.mk n ps cs).properties = ps := rfl

theorem foldl_add_child (f : Nat → XMLNode) (l : List Nat) :
    ∀ node : XMLNode,
      l.foldl (fun node chn => node.add_child_nocopy (f chn)) node
        = XMLNode.mk node.name node.properties (node.nodes ++ l.map f) := by
  induction l with
  | nil =>
    intro node
    cases node
    simp [XMLNode.name, XMLNode.properties, XMLNode.nodes]
  | cons a rest ih =>
    intro node
    rw [List.foldl_cons, ih]
    simp [XMLNode.add_child_nocopy, XMLNode.name, XMLNode.properties, XMLNode.nodes]

/-- The node that `state ()` returns: the node of `Processor::state ()` with the two
properties set, then the gain node and the nodes of the `n_pannables ()` channels. -/
theorem state_eq (c : Collaborators) (self : SendStage) :
    self.state c
      = XMLNode.mk c.processor_state.name
          (("n-pannables", XMLProperty.number (self.n_pannables c)) ::
            ((c.processor_state.set_property "type" (XMLProperty.text "sursend")).properties.filter
              (fun p => !decide (p.1 = "n-pannables"))))
          (c.processor_state.nodes ++ [c.gain_get_state self._gain_control] ++
            (List.range (self.n_pannables c)).map (fun chn =>
              c.pannable_get_state chn (self._pannable.getD chn SurroundPannable.default))) := by
  unfold SendStage.state
  dsimp only
  rw [foldl_add_child]
  simp [XMLNode.add_child_nocopy, XMLNode.set_property, XMLNode.name, XMLNode.properties,
    XMLNode.nodes]

theorem state_n_pannables (c : Collaborators) (self : SendStage) :
    (self.state c).get_property "n-pannables" = some (self.n_pannables c) := by
  rw [state_eq]
  simp [XMLNode.get_property, properties_mk]

theorem state_child (c : Collaborators) (self : SendStage)
    (hps : ∀ n ∈ c.processor_state.nodes, n.name ≠ c.xml_node_name)
    (hgain : (c.gain_get_state self._gain_control).name = c.xml_node_name) :
    (self.state c).child c.xml_node_name = some (c.gain_get_state self._gain_control) := by
  rw [state_eq]
  have h1 : c.processor_state.nodes.find? (fun n => decide (n.name = c.xml_node_name)) = none := by
    rw [List.find?_eq_none]
    intro x hx
    simpa using hps x hx
  simp only [XMLNode.child, nodes_mk, List.find?_append, h1, List.append_assoc,
    Option.none_or]
  simp [hgain]

theorem state_children (c : Collaborators) (self : SendStage)
    (hps : ∀ n ∈ c.processor_state.nodes, n.name ≠ "SurroundPannable")
    (hgain : (c.gain_get_state self._gain_control).name ≠ "SurroundPannable")
    (hpan : ∀ chn p, (c.pannable_get_state chn p).name = "SurroundPannable") :
    (self.state c).children "SurroundPannable"
      = (List.range (self.n_pannables c)).map (fun chn =>
          c.pannable_get_state chn (self._pannable.getD chn SurroundPannable.default)) := by
  rw [state_eq]
  have h1 : c.processor_state.nodes.filter (fun n => decide (n.name = "SurroundPannable"))
      = [] := by
    rw [List.filter_eq_nil_iff]
    intro x hx
    simpa using hps x hx
  have h2 : ((List.range (self.n_pannables c)).map (fun chn =>
        c.pannable_get_state chn (self._pannable.getD chn SurroundPannable.default))).filter
        (fun n => decide (n.name = "SurroundPannable"))
      = (List.range (self.n_pannables c)).map (fun chn =>
        c.pannable_get_state chn (self._pannable.getD chn SurroundPannable.default)) := by
    rw [List.filter_eq_self]
    intro a ha
    obtain ⟨chn, _, rfl⟩ := List.mem_map.mp ha
    simpa using hpan chn _
  simp only [XMLNode.children, nodes_mk, List.filter_append, h1, h2, List.nil_append]
  simp [hgain]

/-- The loop over the nodes of channels `m`, ..., `m + d - 1`, all in range: each node is
restored into the Pan Parameter Set of its channel, nothing else changes. -/
theorem restore_pannables_range (c : Collaborators) (node : Nat → XMLNode)
    (hnode : ∀ chn, (node chn).get_property "channel" = some chn) (d : Nat) :
    ∀ (m : Nat) (self : SendStage), m + d ≤ self._pannable.length →
      ∃ next, SendStage.restore_pannables c ((List.range' m d).map node) self = some next ∧
        ∀ i, next._pannable[i]?
          = if m ≤ i ∧ i < m + d
            then (self._pannable[i]?).map (fun p => c.pannable_set_state p (node i))
            else self._pannable[i]? := by
  induction d with
  | zero =>
    intro m self _
    refine ⟨self, by simp [SendStage.restore_pannables], fun i => ?_⟩
    rw [if_neg (by omega)]
  | succ d ih =>
    intro m self h
    have hm : m < self._pannable.length := by omega
    obtain ⟨p, hp⟩ : ∃ p, self._pannable[m]? = some p :=
      ⟨self._pannable[m], List.getElem?_eq_getElem hm⟩
    obtain ⟨next, hnext, hget⟩ := ih (m + 1)
      { self with _pannable := self._pannable.set m (c.pannable_set_state p (node m)) }
      (by simp only [List.length_set]; omega)
    refine ⟨next, ?_, fun i => ?_⟩
    · rw [List.range'_succ, List.map_cons]
      simp only [SendStage.restore_pannables, hnode, hp]
      exact hnext
    · rw [hget i]
      by_cases him : i = m
      · subst him
        rw [if_neg (by omega), if_pos (by omega), hp]
        simp [List.getElem?_set, hm]
      · rw [List.getElem?_set_ne (fun e => him e.symm)]
        by_cases hr : m ≤ i ∧ i < m + (d + 1)
        · rw [if_pos hr, if_pos (by omega)]
        · rw [if_neg hr, if_neg (by omega)]

/-- C13, counterexample: a Send Stage configured with 1 channel is saved and the node is
restored into a new Send Stage.  `set_state` returns 0 and the new stage has 1 Pan Parameter
Set, but its `n_pannables ()` is 0, not 1. -/
theorem round_trip_channel_count_counterexample :
    (SendStage.sample false 1).n_pannables (Collaborators.plain false) = 1 ∧
    Option.map
        (fun r => (r.1, r.2._pannable.length, r.2.n_pannables (Collaborators.plain false)))
        ((SendStage.new { value := 0 }).set_state (Collaborators.plain false)
          ((SendStage.sample false 1).state (Collaborators.plain false)))
      = some (0, 1, 0) := by
  decide

/-- C13, amended: state round trip.  Let a Send Stage have `n_pannables ()` = K, with K Pan
Parameter Sets in its array, and let `set_state` of a new Send Stage be called with the node
that `state ()` returns, where `Processor::set_state` accepts that node, the node of
`Processor::state ()` has no child named like a gain node or a Pan Parameter Set node, and
the node of the Pan Parameter Set of channel i is named `SurroundPannable` and carries
`channel` = i.  Then `set_state` returns 0, the new stage has an array of exactly K Pan
Parameter Sets, for every i < K the saved state of Pan Parameter Set i is restored into Pan
Parameter Set i, and the saved state of the gain control is restored into the gain control.
`n_pannables ()` of the new stage is not restored: it stays 0. -/
theorem state_round_trip (c : Collaborators) (self : SendStage) (g : GainControl)
    (hsize : self.n_pannables c ≤ self._pannable.length)
    (hproc : c.processor_set_state_fails (self.state c) = false)
    (hname : c.xml_node_name ≠ "SurroundPannable")
    (hps : ∀ n ∈ c.processor_state.nodes,
      n.name ≠ c.xml_node_name ∧ n.name ≠ "SurroundPannable")
    (hgain : (c.gain_get_state self._gain_control).name = c.xml_node_name)
    (hpan : ∀ chn p, (c.pannable_get_state chn p).name = "SurroundPannable" ∧
      (c.pannable_get_state chn p).get_property "channel" = some chn) :
    ∃ restored : SendStage,
      (SendStage.new g).set_state c (self.state c) = some (0, restored) ∧
      restored._pannable.length = self.n_pannables c ∧
      (∀ i, i < self.n_pannables c → ∃ p, self._pannable[i]? = some p ∧
        restored._pannable[i]?
          = some (c.pannable_set_state (c.new_pannable i) (c.pannable_get_state i p))) ∧
      restored._gain_control = c.gain_set_state g (c.gain_get_state self._gain_control) ∧
      restored.n_pannables c = 0 := by
  have hgrow := grow_spec c
    (self.n_pannables c - ({ SendStage.new g with
      _gain_control := c.gain_set_state (SendStage.new g)._gain_control
        (c.gain_get_state self._gain_control) } : SendStage)._pannable.length)
    (self.n_pannables c)
    { SendStage.new g with
      _gain_control := c.gain_set_state (SendStage.new g)._gain_control
        (c.gain_get_state self._gain_control) }
    (le_refl _)
  have hlen := grow_length c
    (self.n_pannables c - ({ SendStage.new g with
      _gain_control := c.gain_set_state (SendStage.new g)._gain_control
        (c.gain_get_state self._gain_control) } : SendStage)._pannable.length)
    (self.n_pannables c)
    { SendStage.new g with
      _gain_control := c.gain_set_state (SendStage.new g)._gain_control
        (c.gain_get_state self._gain_control) }
    (le_refl _)
  have hkeep := grow_keeps c
    (self.n_pannables c - ({ SendStage.new g with
      _gain_control := c.gain_set_state (SendStage.new g)._gain_control
        (c.gain_get_state self._gain_control) } : SendStage)._pannable.length)
    (self.n_pannables c)
    { SendStage.new g with
      _gain_control := c.gain_set_state (SendStage.new g)._gain_control
        (c.gain_get_state self._gain_control) }
    (le_refl _)
  have hl0 : (SendStage.new g)._pannable = [] := rfl
  have hlen2 : (SendStage.grow c
      (self.n_pannables c - ({ SendStage.new g with
        _gain_control := c.gain_set_state (SendStage.new g)._gain_control
          (c.gain_get_state self._gain_control) } : SendStage)._pannable.length)
      (self.n_pannables c)
      { SendStage.new g with
        _gain_control := c.gain_set_state (SendStage.new g)._gain_control
          (c.gain_get_state self._gain_control) })._pannable.length = self.n_pannables c := by
    rw [hlen]
    simp [hl0]
  obtain ⟨next, hnext, hget⟩ := restore_pannables_range c
    (fun chn => c.pannable_get_state chn (self._pannable.getD chn SurroundPannable.default))
    (fun chn => (hpan chn _).2) (self.n_pannables c) 0 _ (by rw [hlen2]; omega)
  obtain ⟨k1, k2, k3⟩ := restore_pannables_keeps c _ _ next hnext
  refine ⟨next, ?_, by rw [k1, hlen2], fun i hi => ?_, by rw [k3, hkeep.2]; rfl, ?_⟩
  · unfold SendStage.set_state
    rw [hproc]
    simp only [Bool.false_eq_true, if_false]
    rw [state_child c self (fun n hn => (hps n hn).1) hgain]
    dsimp only
    rw [state_n_pannables]
    dsimp only
    rw [state_children c self (fun n hn => (hps n hn).2) (by rw [hgain]; exact hname)
      (fun chn p => (hpan chn p).1), List.range_eq_range', hnext]
  · have hi2 : i < self._pannable.length := by omega
    refine ⟨self._pannable[i], List.getElem?_eq_getElem hi2, ?_⟩
    rw [hget i, if_pos (by omega), hgrow]
    simp [hl0, List.getElem?_range', hi, List.getD_eq_getElem?_getD,
      List.getElem?_eq_getElem hi2]
  · unfold SendStage.n_pannables
    rw [k2, hkeep.1]
    have := cap_le c 0
    simp only [SendStage.new, ChanCount.audio]
    omega

/-- C13, witness: the sample Send Stage with 2 channels, saved and restored into a new Send
Stage with the sample collaborators. -/
theorem state_round_trip_witness :
    ∃ restored : SendStage,
      (SendStage.new { value := 0 }).set_state (Collaborators.plain false)
          ((SendStage.sample false 2).state (Collaborators.plain false)) = some (0, restored) ∧
      restored._pannable.length = (SendStage.sample false 2).n_pannables (Collaborators.plain false) ∧
      (∀ i, i < (SendStage.sample false 2).n_pannables (Collaborators.plain false) →
        ∃ p, (SendStage.sample false 2)._pannable[i]? = some p ∧
          restored._pannable[i]?
            = some ((Collaborators.plain false).pannable_set_state
                ((Collaborators.plain false).new_pannable i)
                ((Collaborators.plain false).pannable_get_state i p))) ∧
      restored._gain_control
        = (Collaborators.plain false).gain_set_state { value := 0 }
            ((Collaborators.plain false).gain_get_state (SendStage.sample false 2)._gain_control) ∧
      restored.n_pannables (Collaborators.plain false) = 0 :=
  state_round_trip (Collaborators.plain false) (SendStage.sample false 2) { value := 0 }
    (by decide) rfl (by decide) (fun n hn => (by cases hn)) rfl
    (fun _ _ => ⟨rfl, rfl⟩)

/-! ## Return Stage: sample offsets of the metadata messages -/

theorem metadata_msg_time_frame (id sample : Nat) (v : Nat → pan_t) :
    (metadata_msg id sample v).time_frame = some (sample : Int) := rfl

theorem mem_metadata_msgs (k : Nat) (l : List Event) (m : Msg) :
    m ∈ metadata_msgs k l ↔
      Event.write_from_ui m ∈ l ∧ m.otype = URID.surr_MetaData ∧ m.channel = some k := by
  constructor
  · intro h
    obtain ⟨e, he, h2⟩ := List.mem_filterMap.1 h
    cases e with
    | write_from_ui m' =>
      simp only at h2
      split_ifs at h2 with hc
      · cases h2
        exact ⟨he, hc.1, hc.2⟩
    | _ => cases h2
  · rintro ⟨h1, h2, h3⟩
    exact List.mem_filterMap.2 ⟨_, h1, by simp [h2, h3]⟩

theorem mem_evaluations (k : Nat) (l : List Event) (t : Int) (off : Nat) :
    (t, off) ∈ evaluations k l ↔ Event.evaluate k t off ∈ l := by
  constructor
  · intro h
    obtain ⟨e, he, h2⟩ := List.mem_filterMap.1 h
    cases e with
    | evaluate id t' off' =>
      simp only at h2
      split_ifs at h2 with hc
      · cases h2
        rw [← hc]
        exact he
    | _ => cases h2
  · intro h
    exact List.mem_filterMap.2 ⟨_, h, by simp⟩

/-- The events of one call of `evaluate`: the call itself and, at most, one metadata message
that carries the sample offset of the call. -/
theorem evaluate_events (self : SurroundReturn) (id : Nat) (p : SurroundPannable)
    (when : Int) (sample : Nat) :
    Event.evaluate id when sample ∈ (self.evaluate id p when sample).2 ∧
    ∀ e ∈ (self.evaluate id p when sample).2,
      e = Event.evaluate id when sample ∨
        ∃ v, e = Event.write_from_ui (metadata_msg id sample v) := by
  unfold SurroundReturn.evaluate
  dsimp only
  split_ifs
  · refine ⟨List.mem_cons_self _ _, fun e he => ?_⟩
    rcases List.mem_cons.1 he with h | h
    · exact Or.inl h
    · rw [maybe_send_metadata_snd] at h
      split_ifs at h
      · exact Or.inr ⟨_, List.mem_singleton.1 h⟩
      · cases h
  · exact ⟨List.mem_singleton.2 rfl, fun e he => Or.inl (List.mem_singleton.1 he)⟩

/-- Every event of the breakpoint loop belongs to a breakpoint `t` strictly between the scan
position and `stop`: it is the call of `evaluate` at `t`, with the clamped offset of line
156, or a metadata message that carries this offset. -/
theorem scan_events_offsets (id : Nat) (p : SurroundPannable) (start_sample : Int)
    (nframes : Nat) (stop : Int) (fuel : Nat) :
    ∀ (start : Int) (self : SurroundReturn),
      ∀ e ∈ (SurroundReturn.scan_events id p start_sample nframes stop fuel start self).2,
        ∃ t, t ∈ p.events ∧ start < t ∧ t < stop ∧
          (e = Event.evaluate id t (min (t - start_sample) ((nframes : Int) - 1)).toNat ∨
            ∃ v, e = Event.write_from_ui
              (metadata_msg id (min (t - start_sample) ((nframes : Int) - 1)).toNat v)) := by
  induction fuel with
  | zero =>
    intro start self e he
    cases he
  | succ fuel ih =>
    intro start self e he
    unfold SurroundReturn.scan_events at he
    cases hf : p.find_next_event start stop with
    | none =>
      rw [hf] at he
      cases he
    | some t =>
      rw [hf] at he
      dsimp only at he
      obtain ⟨m1, m2, m3⟩ := find_next_event_range p start stop t hf
      rcases List.mem_append.1 he with h | h
      · exact ⟨t, m1, m2, m3, (evaluate_events _ _ _ _ _).2 e h⟩
      · obtain ⟨u, u1, u2, u3, u4⟩ := ih _ _ e h
        exact ⟨u, u1, by omega, u3, u4⟩

/-- The calls of `evaluate` in the breakpoint loop: one per breakpoint visited, with the
clamped offset; the breakpoints visited increase strictly from the scan position and stay
below `stop`. -/
theorem scan_events_evaluations (id : Nat) (p : SurroundPannable) (start_sample : Int)
    (nframes : Nat) (stop : Int) (fuel : Nat) :
    ∀ (start : Int) (self : SurroundReturn),
      ∃ bps : List Int,
        evaluations id
            (SurroundReturn.scan_events id p start_sample nframes stop fuel start self).2
          = bps.map (fun t => (t, (min (t - start_sample) ((nframes : Int) - 1)).toNat)) ∧
        List.Chain (fun a b => a < b) start bps ∧
        (∀ t ∈ bps, t ∈ p.events ∧ start < t ∧ t < stop) := by
  induction fuel with
  | zero =>
    intro start self
    exact ⟨[], rfl, List.Chain.nil, fun t ht => (List.not_mem_nil _ ht).elim⟩
  | succ fuel ih =>
    intro start self
    unfold SurroundReturn.scan_events
    cases hf : p.find_next_event start stop with
    | none => exact ⟨[], rfl, List.Chain.nil, fun t ht => (List.not_mem_nil _ ht).elim⟩
    | some t =>
      dsimp only
      obtain ⟨m1, m2, m3⟩ := find_next_event_range p start stop t hf
      obtain ⟨bps, b1, b2, b3⟩ := ih t (self.evaluate id p t
        (min (t - start_sample) ((nframes : Int) - 1)).toNat).1
      refine ⟨t :: bps, ?_, List.Chain.cons m2 b2, ?_⟩
      · rw [evaluations_append, evaluations_evaluate, b1]
        rfl
      · intro u hu
        rcases List.mem_cons.1 hu with h | h
        · rw [h]
          exact ⟨m1, m2, m3⟩
        · obtain ⟨c1, c2, c3⟩ := b3 u h
          exact ⟨c1, by omega, c3⟩

/-- A strictly increasing list of integers above `a` and below `b` has at most `b - a - 1`
members. -/
theorem chain_lt_length (l : List Int) :
    ∀ (a b : Int), List.Chain (fun x y => x < y) a l → (∀ t ∈ l, t < b) →
      l.length ≤ (b - a - 1).toNat := by
  induction l with
  | nil =>
    intro a b _ _
    exact Nat.zero_le _
  | cons x xs ih =>
    intro a b hc hb
    obtain ⟨h1, h2⟩ := List.chain_cons.1 hc
    have hx := hb x (List.mem_cons_self _ _)
    have := ih x b h2 (fun t ht => hb t (List.mem_cons_of_mem _ ht))
    simp only [List.length_cons]
    omega

/-- The metadata messages of a cycle for the slot of the channel at position `n` of the walk
order are forged by the pan metadata code (lines 129 to 163) for that channel. -/
theorem run_metadata_events (self : SurroundReturn) (rl : RouteList)
    (start_sample end_sample : Int) (nframes n i s : Nat) (ss : SurroundSend)
    (hw : (walk_order 0 rl)[n]? = some (i, ss, s)) (hlt : 10 + n < 128) :
    ∀ m ∈ metadata_msgs (10 + n) (self.run true rl start_sample end_sample nframes).2,
      Event.write_from_ui m ∈
        (((self.begin_cycle nframes).1.read_channel (10 + n) (ss.get_audio s)
          nframes).object_metadata (10 + n) (ss.pan_param s)
          start_sample end_sample nframes).2 := by
  intro m hm
  obtain ⟨h1, -⟩ := run_slot self rl start_sample end_sample nframes n i s ss hw hlt
  rw [← metadata_msgs_slot_events, h1, process_channel_object _ _ _ _ _ _ _ _ (by omega)] at hm
  obtain ⟨g1, g2, -⟩ := (mem_metadata_msgs _ _ _).1 hm
  simp only [List.mem_cons, List.mem_append] at g1
  rcases g1 with g | g | g | g
  · cases g
  · cases g
  · exact g
  · rw [object_render_mode_snd] at g
    split_ifs at g
    · have e := List.mem_singleton.1 g
      injection e with e
      rw [e] at g2
      cases g2
    · cases g

theorem write_from_ui_time_frame (m : Msg) (id sample : Nat) (v : Nat → pan_t)
    (h : Event.write_from_ui m = Event.write_from_ui (metadata_msg id sample v)) :
    m.time_frame = some (sample : Int) := by
  injection h with h
  rw [h]
  rfl

/-- Offsets of an object that is not automated in this block: every message carries 0 and
`evaluate` is not called. -/
theorem object_metadata_offsets_manual (self : SurroundReturn) (id : Nat)
    (p : SurroundPannable) (start_sample end_sample : Int) (nframes : Nat)
    (h : p.automated = false ∨ start_sample ≥ end_sample) :
    evaluations id (self.object_metadata id p start_sample end_sample nframes).2 = [] ∧
    ∀ m, Event.write_from_ui m ∈ (self.object_metadata id p start_sample end_sample nframes).2 →
      m.time_frame = some 0 := by
  rw [object_metadata_manual _ _ _ _ _ _ h, maybe_send_metadata_snd]
  split_ifs
  · refine ⟨by simp [evaluations], fun m hm => ?_⟩
    exact write_from_ui_time_frame m id 0 _ (List.mem_singleton.1 hm)
  · exact ⟨rfl, fun m hm => (List.not_mem_nil _ hm).elim⟩

/-- Offsets of an automated object in a block of fewer than 2 frames: one call of `evaluate`,
at `start_sample` with offset 0. -/
theorem object_metadata_offsets_short (self : SurroundReturn) (id : Nat)
    (p : SurroundPannable) (start_sample end_sample : Int) (nframes : Nat)
    (ha : p.automated = true) (hse : start_sample < end_sample) (hn : nframes < 2) :
    evaluations id (self.object_metadata id p start_sample end_sample nframes).2
      = [(start_sample, 0)] ∧
    ∀ m, Event.write_from_ui m ∈ (self.object_metadata id p start_sample end_sample nframes).2 →
      m.time_frame = some 0 := by
  unfold SurroundReturn.object_metadata
  rw [if_neg (by simp [ha]; omega), if_pos hn]
  refine ⟨evaluations_evaluate _ _ _ _ _, fun m hm => ?_⟩
  rcases (evaluate_events _ _ _ _ _).2 _ hm with h | ⟨v, h⟩
  · cases h
  · exact write_from_ui_time_frame m id 0 v h

/-- Offsets of an automated object in a block of at least 2 frames: the breakpoints visited
are evaluated with the clamped offset of line 156, the closing evaluation is at
`end_sample - 1` with offset `nframes - 1`, and every message carries the offset of one of
them. -/
theorem object_metadata_offsets_scan (self : SurroundReturn) (id : Nat)
    (p : SurroundPannable) (start_sample end_sample : Int) (nframes : Nat)
    (ha : p.automated = true) (hse : start_sample < end_sample) (hn : 2 ≤ nframes) :
    (∃ bps : List Int,
      evaluations id (self.object_metadata id p start_sample end_sample nframes).2
        = bps.map (fun t => (t, (min (t - start_sample) ((nframes : Int) - 1)).toNat)) ++
            [(end_sample - 1, nframes - 1)] ∧
      List.Chain (fun a b => a < b) start_sample bps ∧
      (∀ t ∈ bps, t ∈ p.events ∧ start_sample < t ∧ t < end_sample - 1)) ∧
    ∀ m, Event.write_from_ui m ∈ (self.object_metadata id p start_sample end_sample nframes).2 →
      (∃ t, t ∈ p.events ∧ start_sample < t ∧ t < end_sample - 1 ∧
        m.time_frame = some (min (t - start_sample) ((nframes : Int) - 1))) ∨
      m.time_frame = some ((nframes : Int) - 1) := by
  unfold SurroundReturn.object_metadata
  rw [if_neg (by simp [ha]; omega), if_neg (by omega)]
  dsimp only
  refine ⟨?_, fun m hm => ?_⟩
  · obtain ⟨bps, b1, b2, b3⟩ := scan_events_evaluations id p start_sample nframes
      (end_sample - 1) (end_sample - 1 - start_sample).toNat start_sample self
    exact ⟨bps, by rw [evaluations_append, evaluations_evaluate, b1], b2, b3⟩
  · rcases List.mem_append.1 hm with h | h
    · obtain ⟨t, t1, t2, t3, t4⟩ := scan_events_offsets id p start_sample nframes
        (end_sample - 1) _ _ _ _ h
      rcases t4 with t4 | ⟨v, t4⟩
      · cases t4
      · refine Or.inl ⟨t, t1, t2, t3, ?_⟩
        rw [write_from_ui_time_frame m id _ v t4]
        congr 1
        omega
    · rcases (evaluate_events _ _ _ _ _).2 _ h with h | ⟨v, h⟩
      · cases h
      · refine Or.inr ?_
        rw [write_from_ui_time_frame m id _ v h]
        congr 1
        omega

/-- C21: metadata time offsets stay inside the block.  In a cycle of `nframes >= 1` frames,
for the object at position `n` of the walk order (slot `10 + n`): every metadata message
forged by the cycle carries a sample offset between 0 and `nframes - 1`.  An object that is
not automated (or a block with `start_sample >= end_sample`) is not evaluated and its message
carries offset 0.  An automated block of fewer than 2 frames is evaluated exactly once, at
`start_sample` with offset 0.  In an automated block of at least 2 frames every breakpoint
visited, at time t, is evaluated with offset min (t - `start_sample`, `nframes - 1`), the
closing evaluation is at `end_sample - 1` with offset `nframes - 1`, and every message
carries the offset of a breakpoint or of the closing evaluation. -/
theorem metadata_offsets_in_block (self : SurroundReturn) (rl : RouteList)
    (start_sample end_sample : Int) (nframes n i s : Nat) (ss : SurroundSend)
    (hw : (walk_order 0 rl)[n]? = some (i, ss, s)) (hlt : 10 + n < 128) (hn : 1 ≤ nframes) :
    (∀ m ∈ metadata_msgs (10 + n) (self.run true rl start_sample end_sample nframes).2,
      ∃ off : Int, m.time_frame = some off ∧ 0 ≤ off ∧ off ≤ (nframes : Int) - 1) ∧
    ((ss.pan_param s).automated = false ∨ start_sample ≥ end_sample →
      evaluations (10 + n) (self.run true rl start_sample end_sample nframes).2 = [] ∧
      ∀ m ∈ metadata_msgs (10 + n) (self.run true rl start_sample end_sample nframes).2,
        m.time_frame = some 0) ∧
    ((ss.pan_param s).automated = true → start_sample < end_sample → nframes < 2 →
      evaluations (10 + n) (self.run true rl start_sample end_sample nframes).2
        = [(start_sample, 0)] ∧
      ∀ m ∈ metadata_msgs (10 + n) (self.run true rl start_sample end_sample nframes).2,
        m.time_frame = some 0) ∧
    ((ss.pan_param s).automated = true → start_sample < end_sample → 2 ≤ nframes →
      (∃ bps : List Int,
        evaluations (10 + n) (self.run true rl start_sample end_sample nframes).2
          = bps.map (fun t => (t, (min (t - start_sample) ((nframes : Int) - 1)).toNat)) ++
              [(end_sample - 1, nframes - 1)] ∧
        (∀ t ∈ bps, t ∈ (ss.pan_param s).events ∧ start_sample < t ∧ t < end_sample - 1)) ∧
      ∀ m ∈ metadata_msgs (10 + n) (self.run true rl start_sample end_sample nframes).2,
        (∃ t, t ∈ (ss.pan_param s).events ∧ start_sample < t ∧ t < end_sample - 1 ∧
          m.time_frame = some (min (t - start_sample) ((nframes : Int) - 1))) ∨
        m.time_frame = some ((nframes : Int) - 1)) := by
  have hev := run_evaluations self rl start_sample end_sample nframes n i s ss hw hlt
  have hmsg := run_metadata_events self rl start_sample end_sample nframes n i s ss hw hlt
  have hman : (ss.pan_param s).automated = false ∨ start_sample ≥ end_sample →
      evaluations (10 + n) (self.run true rl start_sample end_sample nframes).2 = [] ∧
      ∀ m ∈ metadata_msgs (10 + n) (self.run true rl start_sample end_sample nframes).2,
        m.time_frame = some 0 := by
    intro h
    obtain ⟨a1, a2⟩ := object_metadata_offsets_manual
      ((self.begin_cycle nframes).1.read_channel (10 + n) (ss.get_audio s) nframes) (10 + n)
      (ss.pan_param s) start_sample end_sample nframes h
    exact ⟨hev.trans a1, fun m hm => a2 m (hmsg m hm)⟩
  have hshort : (ss.pan_param s).automated = true → start_sample < end_sample → nframes < 2 →
      evaluations (10 + n) (self.run true rl start_sample end_sample nframes).2
        = [(start_sample, 0)] ∧
      ∀ m ∈ metadata_msgs (10 + n) (self.run true rl start_sample end_sample nframes).2,
        m.time_frame = some 0 := by
    intro ha hse h2
    obtain ⟨a1, a2⟩ := object_metadata_offsets_short
      ((self.begin_cycle nframes).1.read_channel (10 + n) (ss.get_audio s) nframes) (10 + n)
      (ss.pan_param s) start_sample end_sample nframes ha hse h2
    exact ⟨hev.trans a1, fun m hm => a2 m (hmsg m hm)⟩
  have hscan : (ss.pan_param s).automated = true → start_sample < end_sample → 2 ≤ nframes →
      (∃ bps : List Int,
        evaluations (10 + n) (self.run true rl start_sample end_sample nframes).2
          = bps.map (fun t => (t, (min (t - start_sample) ((nframes : Int) - 1)).toNat)) ++
              [(end_sample - 1, nframes - 1)] ∧
        (∀ t ∈ bps, t ∈ (ss.pan_param s).events ∧ start_sample < t ∧ t < end_sample - 1)) ∧
      ∀ m ∈ metadata_msgs (10 + n) (self.run true rl start_sample end_sample nframes).2,
        (∃ t, t ∈ (ss.pan_param s).events ∧ start_sample < t ∧ t < end_sample - 1 ∧
          m.time_frame = some (min (t - start_sample) ((nframes : Int) - 1))) ∨
        m.time_frame = some ((nframes : Int) - 1) := by
    intro ha hse h2
    obtain ⟨⟨bps, b1, -, b3⟩, a2⟩ := object_metadata_offsets_scan
      ((self.begin_cycle nframes).1.read_channel (10 + n) (ss.get_audio s) nframes) (10 + n)
      (ss.pan_param s) start_sample end_sample nframes ha hse h2
    exact ⟨⟨bps, hev.trans b1, b3⟩, fun m hm => a2 m (hmsg m hm)⟩
  refine ⟨fun m hm => ?_, hman, hshort, hscan⟩
  by_cases hb : (ss.pan_param s).automated = true ∧ start_sample < end_sample
  · by_cases h2 : nframes < 2
    · exact ⟨0, (hshort hb.1 hb.2 h2).2 m hm, le_refl _, by omega⟩
    · rcases (hscan hb.1 hb.2 (by omega)).2 m hm with ⟨t, -, t2, -, t4⟩ | h
      · exact ⟨min (t - start_sample) ((nframes : Int) - 1), t4, by omega, by omega⟩
      · exact ⟨(nframes : Int) - 1, h, by omega, le_refl _⟩
  · refine ⟨0, (hman ?_).2 m hm, le_refl _, by omega⟩
    by_cases ha : (ss.pan_param s).automated = true
    · have hge : ¬ start_sample < end_sample := fun h => hb ⟨ha, h⟩
      exact Or.inr (by omega)
    · exact Or.inl (by simpa using ha)

/-- C21, witness: a cycle `[100, 108)` of 8 frames on a new Return Stage and an automated
object with breakpoints at 100, 102, 105 and 107: the metadata message forged for slot 10 at
the breakpoint 102 carries an offset between 0 and 7. -/
theorem metadata_offsets_in_block_witness :
    ∃ off : Int, (metadata_msg 10 2 (fun _ => 0)).time_frame = some off ∧ 0 ≤ off ∧
      off ≤ ((8 : Nat) : Int) - 1 :=
  (metadata_offsets_in_block SurroundReturn.new
    [Route.with_pannables [SurroundPannable.playing 0 0 [100, 102, 105, 107]]]
    100 108 8 0 0 0
    (SurroundSend.with_pannables [SurroundPannable.playing 0 0 [100, 102, 105, 107]])
    rfl (by decide) (by decide)).1 (metadata_msg 10 2 (fun _ => 0)) (by decide)

/-! ## Return Stage: the multiplex buffer after the walk -/

/-- The multiplex buffer of the slot of an object after the loop body: the first `nframes`
samples are those of the source channel. -/
theorem process_channel_bufs (self : SurroundReturn) (ri : Nat) (ss : SurroundSend)
    (s id : Nat) (start_sample end_sample : Int) (nframes : Nat) (h : id > 9) :
    (self.process_channel ri ss s id start_sample end_sample nframes).1._surround_bufs id
      = (self._surround_bufs id).read_from (ss.get_audio s) nframes := by
  rw [process_channel_object _ _ _ _ _ _ _ _ h]
  dsimp only
  rw [object_render_mode_fst]
  dsimp only
  rw [(object_metadata_keeps _ _ _ _ _ _).2]
  simp [SurroundReturn.read_channel]

/-- No event of a cycle sums a channel into a slot: the id counter starts at 10, so the bed
branch of the loop body (line 176) is never taken. -/
theorem run_no_merge (self : SurroundReturn) (active : Bool) (rl : RouteList)
    (start_sample end_sample : Int) (nframes : Nat) (j : Nat) :
    Event.merge_from j ∉ (self.run active rl start_sample end_sample nframes).2 := by
  intro he
  obtain ⟨h1, h2⟩ := run_slot_range self active rl start_sample end_sample nframes _ he j rfl
  cases active with
  | false =>
    rw [run_inactive] at he
    cases he
  | true =>
    have hlen : j - 10 < (walk_order 0 rl).length := by
      rw [walk_order_length]
      omega
    obtain ⟨⟨i, ss, s⟩, hw⟩ : ∃ c, (walk_order 0 rl)[j - 10]? = some c :=
      ⟨_, List.getElem?_eq_getElem hlen⟩
    have hj : 10 + (j - 10) = j := by omega
    obtain ⟨g1, -⟩ := run_slot self rl start_sample end_sample nframes (j - 10) i s ss hw
      (by rw [hj]; have : max_object_id = 128 := rfl; omega)
    rw [hj] at g1
    have hmem : Event.merge_from j ∈
        slot_events j (self.run true rl start_sample end_sample nframes).2 :=
      (mem_slot_events _ _ _).2 ⟨he, rfl⟩
    rw [g1] at hmem
    obtain ⟨rest, r1, r2, -⟩ := process_channel_events (self.begin_cycle nframes).1 i ss s j
      start_sample end_sample nframes
    rw [r1, if_pos (by omega)] at hmem
    rcases List.mem_cons.1 hmem with h | h
    · cases h
    · rcases List.mem_cons.1 h with h | h
      · cases h
      · have := r2 _ h
        simp [Event.is_object_event] at this

/-- C22: the multiplex buffer after the walk, as handed to the renderer.  The slot `10 + n`
given to the channel at position `n` of the walk order holds, in its first `nframes` samples,
exactly the samples of that source channel (copied: no event of the cycle sums a channel into
a slot).  Every other slot, that is the bed slots 0 to 9 and the slots from the final id
counter on, holds silence in its first `nframes` samples.  The final id counter is the
smaller of 10 + the number of channels of the active sends and 128. -/
theorem multiplex_buffer_contents (self : SurroundReturn) (rl : RouteList)
    (start_sample end_sample : Int) (nframes : Nat) :
    (∀ (n i s : Nat) (ss : SurroundSend),
      (walk_order 0 rl)[n]? = some (i, ss, s) → 10 + n < 128 →
      ∀ k, k < nframes →
        (self.run true rl start_sample end_sample nframes).1._surround_bufs (10 + n) k
          = ss.get_audio s k) ∧
    (∀ j, (j < 10 ∨ min (10 + total_channels rl) 128 ≤ j) →
      ∀ k, k < nframes →
        (self.run true rl start_sample end_sample nframes).1._surround_bufs j k = 0) ∧
    (SurroundReturn.route_loop start_sample end_sample nframes rl 0 10
        (self.begin_cycle nframes).1).2.1 = min (10 + total_channels rl) 128 ∧
    (∀ j, Event.merge_from j ∉ (self.run true rl start_sample end_sample nframes).2) := by
  refine ⟨?_, ?_, ?_, fun j => run_no_merge self true rl start_sample end_sample nframes j⟩
  · intro n i s ss hw hlt k hk
    obtain ⟨-, -, -, h3⟩ := run_slot self rl start_sample end_sample nframes n i s ss hw hlt
    rw [h3, process_channel_bufs _ _ _ _ _ _ _ _ (by omega)]
    simp [AudioBuffer.read_from, hk]
  · intro j hj k hk
    have hm : max_object_id = 128 := rfl
    obtain ⟨-, -, h1⟩ := report_count_slot_eq
      (SurroundReturn.route_loop start_sample end_sample nframes rl 0 10
        (self.begin_cycle nframes).1).1
      (SurroundReturn.route_loop start_sample end_sample nframes rl 0 10
        (self.begin_cycle nframes).1).2.1 j
    obtain ⟨-, -, h2⟩ := (route_loop_range start_sample end_sample nframes rl 0 10
      (self.begin_cycle nframes).1).2.1 j (by omega)
    rw [run_active]
    dsimp only
    rw [h1, h2]
    simp [SurroundReturn.begin_cycle, AudioBuffer.silence, hk]
  · rw [route_loop_counter]
    have hm : max_object_id = 128 := rfl
    omega

/-- C22, witness: a route whose send has one channel holding the samples 1, 2, 3, ...; after
a cycle of 4 frames sample 2 of slot 10 is 3. -/
theorem multiplex_buffer_contents_witness :
    (SurroundReturn.new.run true
        [{ active := true,
           surround_send := some { SurroundSend.with_pannables
             [SurroundPannable.manual 0 0 0 0 0 0] with _mixbufs := [fun k => (k : ℚ) + 1] } }]
        0 4 4).1._surround_bufs (10 + 0) 2 = 3 :=
  ((multiplex_buffer_contents SurroundReturn.new
      [{ active := true,
         surround_send := some { SurroundSend.with_pannables
           [SurroundPannable.manual 0 0 0 0 0 0] with _mixbufs := [fun k => (k : ℚ) + 1] } }]
      0 4 4).1 0 0 0
      { SurroundSend.with_pannables
        [SurroundPannable.manual 0 0 0 0 0 0] with _mixbufs := [fun k => (k : ℚ) + 1] }
      rfl (by decide) 2 (by decide)).trans (by norm_num [SurroundSend.get_audio])

/-! ## Send Stage: the channel index in `set_state` -/

/-- C23, failing input: `set_state` of a new Send Stage with a state node for which
`Processor::set_state` succeeds, that carries `n-pannables` = 1 and whose `SurroundPannable`
child has `channel` = 3.  The array is grown to 1 Pan Parameter Set and then indexed at 3,
out of range: the execution is undefined. -/
theorem set_state_index_out_of_range :
    (Collaborators.plain false).processor_set_state_fails XMLNode.channel_beyond = false ∧
    XMLNode.channel_beyond.get_property "n-pannables" = some 1 ∧
    (XMLNode.channel_beyond.children "SurroundPannable").map
        (fun node => node.get_property "channel") = [some 3] ∧
    (SendStage.grow (Collaborators.plain false) 1 1
        (SendStage.new { value := 1 }))._pannable.length = 1 ∧
    (SendStage.restore_pannables (Collaborators.plain false)
        (XMLNode.channel_beyond.children "SurroundPannable")
        (SendStage.grow (Collaborators.plain false) 1 1
          (SendStage.new { value := 1 }))).isNone = true ∧
    ((SendStage.new { value := 1 }).set_state (Collaborators.plain false)
        XMLNode.channel_beyond).isNone = true := by
  decide

/-! ## Return Stage: the breakpoint loop is bounded -/

/-- C24, counterexample: a cycle `[100, 120)` run with `nframes` = 4 on a new Return Stage
and an automated object with breakpoints at 101, 102, ..., 118.  The loop calls `evaluate` 18
times before the closing evaluation at 119, more than `nframes - 2` = 2; every offset is
clamped to 3. -/
theorem scan_loop_bound_counterexample :
    evaluations 10
        (SurroundReturn.new.run true
          [Route.with_pannables [SurroundPannable.playing 0 0
            [101, 102, 103, 104, 105, 106, 107, 108, 109, 110, 111, 112, 113, 114, 115, 116,
             117, 118]]] 100 120 4).2
      = [(101, 1), (102, 2), (103, 3), (104, 3), (105, 3), (106, 3), (107, 3), (108, 3),
         (109, 3), (110, 3), (111, 3), (112, 3), (113, 3), (114, 3), (115, 3), (116, 3),
         (117, 3), (118, 3), (119, 3)] := by
  decide

/-- C24, amended: the breakpoint loop of `SurroundReturn::run` terminates.
`find_next_event` only returns a breakpoint strictly between the scan position and the end
of the range, so the scan position increases strictly with every iteration.  For a cycle
with `start_sample < end_sample` and `nframes >= 2` and an automated object (the channel at
position `n` of the walk order): allowing the loop more than `end_sample - 1 - start_sample`
iterations changes nothing, and the loop makes at most `end_sample - start_sample - 2` calls
of `evaluate`, at strictly increasing times, before the closing evaluation at
`end_sample - 1`.  That is at most `nframes - 2` calls when
`nframes = end_sample - start_sample`. -/
theorem scan_loop_terminates (self : SurroundReturn) (rl : RouteList)
    (start_sample end_sample : Int) (nframes n i s : Nat) (ss : SurroundSend)
    (hw : (walk_order 0 rl)[n]? = some (i, ss, s)) (hlt : 10 + n < 128)
    (ha : (ss.pan_param s).automated = true)
    (hse : start_sample < end_sample) (hn : 2 ≤ nframes) :
    (∀ a b t, (ss.pan_param s).find_next_event a b = some t → a < t ∧ t < b) ∧
    (∀ (fuel : Nat) (st : SurroundReturn), (end_sample - 1 - start_sample).toNat ≤ fuel →
      SurroundReturn.scan_events (10 + n) (ss.pan_param s) start_sample nframes
          (end_sample - 1) fuel start_sample st
        = SurroundReturn.scan_events (10 + n) (ss.pan_param s) start_sample nframes
          (end_sample - 1) (end_sample - 1 - start_sample).toNat start_sample st) ∧
    ∃ bps : List Int,
      evaluations (10 + n) (self.run true rl start_sample end_sample nframes).2
        = bps.map (fun t => (t, (min (t - start_sample) ((nframes : Int) - 1)).toNat)) ++
            [(end_sample - 1, nframes - 1)] ∧
      List.Chain (fun a b => a < b) start_sample bps ∧
      (∀ t ∈ bps, t < end_sample - 1) ∧
      bps.length ≤ (end_sample - start_sample - 2).toNat ∧
      ((nframes : Int) = end_sample - start_sample → bps.length ≤ nframes - 2) := by
  refine ⟨fun a b t h => (find_next_event_range _ a b t h).2, fun fuel st hf => ?_, ?_⟩
  · exact scan_events_fuel _ _ _ _ _ fuel _ _ st hf (le_refl _)
  · obtain ⟨⟨bps, b1, b2, b3⟩, -⟩ := object_metadata_offsets_scan
      ((self.begin_cycle nframes).1.read_channel (10 + n) (ss.get_audio s) nframes) (10 + n)
      (ss.pan_param s) start_sample end_sample nframes ha hse hn
    have hb : ∀ t ∈ bps, t < end_sample - 1 := fun t ht => (b3 t ht).2.2
    have hl := chain_lt_length bps start_sample (end_sample - 1) b2 hb
    refine ⟨bps, ?_, b2, hb, by omega, fun hlen => by omega⟩
    rw [run_evaluations self rl start_sample end_sample nframes n i s ss hw hlt, b1]

/-- C24, witness: a cycle `[100, 108)` of 8 frames on a new Return Stage and an automated
object with breakpoints at 100, 102, 105 and 107. -/
theorem scan_loop_terminates_witness :
    ∃ bps : List Int,
      evaluations (10 + 0)
          (SurroundReturn.new.run true
            [Route.with_pannables [SurroundPannable.playing 0 0 [100, 102, 105, 107]]]
            100 108 8).2
        = bps.map (fun t => (t, (min (t - 100) (((8 : Nat) : Int) - 1)).toNat)) ++
            [(108 - 1, 8 - 1)] ∧
      List.Chain (fun a b => a < b) 100 bps ∧
      (∀ t ∈ bps, t < 108 - 1) ∧
      bps.length ≤ ((108 : Int) - 100 - 2).toNat ∧
      ((((8 : Nat) : Int) = 108 - 100) → bps.length ≤ 8 - 2) :=
  (scan_loop_terminates SurroundReturn.new
    [Route.with_pannables [SurroundPannable.playing 0 0 [100, 102, 105, 107]]]
    100 108 8 0 0 0
    (SurroundSend.with_pannables [SurroundPannable.playing 0 0 [100, 102, 105, 107]])
    rfl (by decide) rfl (by decide) (by decide)).2.2

/-! ## Send Stage: what the silent fast path leaves alone -/

theorem copy_inputs_zero (mix : List AudioBuffer) (nframes : Nat) :
    ∀ bufs : List AudioBuffer,
      apply_simple_gain (copy_inputs mix bufs nframes) nframes GAIN_COEFF_ZERO
        = mix.map (fun b => b.silence nframes) := by
  induction mix with
  | nil =>
    intro bufs
    rfl
  | cons o os ih =>
    intro bufs
    cases bufs with
    | nil =>
      unfold apply_simple_gain copy_inputs
      apply List.map_congr_left
      intro b _
      funext k
      simp [AudioBuffer.silence, GAIN_COEFF_ZERO]
    | cons b bs =>
      have h := ih bs
      unfold apply_simple_gain at h ⊢
      unfold copy_inputs
      rw [List.map_cons, List.map_cons, h]
      congr 1
      funext k
      simp only [AudioBuffer.silence, AudioBuffer.read_from, GAIN_COEFF_ZERO]
      split_ifs <;> simp

/-- C25, counterexample: the sample stage whose Pan Parameter Set plays automation (current
X position 0, automation value 7), with collaborators whose automation steps advance the pan
controls.  The stage is active, the target gain and the applied gain are 0, and `run` takes
the silent fast path (its events are the entry automation step and the zero gain); after
it the X position of the Pan Parameter Set is 7, not 0 as before. -/
theorem silent_fast_path_pannable_counterexample :
    SendStage.playing_sample._current_gain = GAIN_COEFF_ZERO ∧
    SendStage.playing_sample._pannable.map (fun p => p.pan_pos_x.get_value) = [0] ∧
    (SendStage.playing_sample.run (Collaborators.advancing false) true GAIN_COEFF_ZERO
        [fun _ => 1] 0 64 64).2.2
      = [SendEvent.automation_run 0 64, SendEvent.apply_simple_gain GAIN_COEFF_ZERO] ∧
    (SendStage.playing_sample.run (Collaborators.advancing false) true GAIN_COEFF_ZERO
        [fun _ => 1] 0 64 64).1._pannable.map (fun p => p.pan_pos_x.get_value) = [7] := by
  decide

/-- C25, amended: frame of the silent fast path of `SurroundSend::run`.  When the stage is
active and the target gain and the previously applied gain are both 0, `run` makes the
automation step at entry, which acts on the gain control and on the Pan Parameter Sets
(their controls are registered on the stage), confirms the activation, and zeroes the first
`nframes` samples of every mix buffer, and nothing else: the recorded cycle window,
`_current_gain`, both delay lines, both requested delays, the pending activation and the
pass-through buffers are as they were.  The Pan Parameter Sets are as the entry step leaves
them: their own `automation_run` (line 127) is not run, and no delay line (`thru_delay`
included) or fader is run. -/
theorem silent_fast_path_frame (c : Collaborators) (self : SendStage)
    (bufs : List AudioBuffer) (start_sample end_sample : Int) (nframes : Nat)
    (h : self._current_gain = GAIN_COEFF_ZERO) :
    (self.run c true GAIN_COEFF_ZERO bufs start_sample end_sample nframes).1
      = { self with
          active := true
          _gain_control :=
            (c.automation_run self._gain_control self._pannable start_sample nframes).1
          _pannable :=
            (c.automation_run self._gain_control self._pannable start_sample nframes).2
          _mixbufs := self._mixbufs.map (fun b => b.silence nframes) } ∧
    (self.run c true GAIN_COEFF_ZERO bufs start_sample end_sample nframes).2.1 = bufs ∧
    (self.run c true GAIN_COEFF_ZERO bufs start_sample end_sample nframes).1._cycle_start
      = self._cycle_start ∧
    (self.run c true GAIN_COEFF_ZERO bufs start_sample end_sample nframes).1._cycle_end
      = self._cycle_end ∧
    (self.run c true GAIN_COEFF_ZERO bufs start_sample end_sample nframes).1._current_gain
      = self._current_gain ∧
    (self.run c true GAIN_COEFF_ZERO bufs start_sample end_sample nframes).1._send_delay
      = self._send_delay ∧
    (self.run c true GAIN_COEFF_ZERO bufs start_sample end_sample nframes).1._thru_delay
      = self._thru_delay ∧
    (self.run c true GAIN_COEFF_ZERO bufs start_sample end_sample nframes).1._delay_in
      = self._delay_in ∧
    (self.run c true GAIN_COEFF_ZERO bufs start_sample end_sample nframes).1._delay_out
      = self._delay_out ∧
    (self.run c true GAIN_COEFF_ZERO bufs start_sample end_sample nframes).1._pending_active
      = self._pending_active ∧
    (self.run c true GAIN_COEFF_ZERO bufs start_sample end_sample nframes).1._pannable
      = (c.automation_run self._gain_control self._pannable start_sample nframes).2 ∧
    (self.run c true GAIN_COEFF_ZERO bufs start_sample end_sample nframes).2.2
      = [SendEvent.automation_run start_sample nframes,
          SendEvent.apply_simple_gain GAIN_COEFF_ZERO] ∧
    (∀ e ∈ (self.run c true GAIN_COEFF_ZERO bufs start_sample end_sample nframes).2.2,
      e ≠ SendEvent.thru_delay_run ∧ e ≠ SendEvent.send_delay_run ∧ e ≠ SendEvent.amp_run ∧
      ∀ chn, e ≠ SendEvent.pannable_automation_run chn) := by
  have hrun : self.run c true GAIN_COEFF_ZERO bufs start_sample end_sample nframes
      = ({ self with
            active := true
            _gain_control :=
              (c.automation_run self._gain_control self._pannable start_sample nframes).1
            _pannable :=
              (c.automation_run self._gain_control self._pannable start_sample nframes).2
            _mixbufs := self._mixbufs.map (fun b => b.silence nframes) }, bufs,
          [SendEvent.automation_run start_sample nframes,
            SendEvent.apply_simple_gain GAIN_COEFF_ZERO]) := by
    unfold SendStage.run
    simp only [Bool.not_true, Bool.false_eq_true, if_false]
    rw [if_neg (not_not.2 h.symm)]
    simp only [if_true]
    rw [copy_inputs_zero]
  rw [hrun]
  refine ⟨rfl, rfl, rfl, rfl, rfl, rfl, rfl, rfl, rfl, rfl, rfl, rfl, fun e he => ?_⟩
  simp only [List.mem_cons, List.mem_singleton, List.not_mem_nil, or_false] at he
  rcases he with rfl | rfl <;> exact ⟨by simp, by simp, by simp, fun _ => by simp⟩

/-- C25, witness: the sample stage whose Pan Parameter Set plays automation, with target
gain 0: the pass-through buffers come back as they were given. -/
theorem silent_fast_path_frame_witness :
    (SendStage.playing_sample.run (Collaborators.advancing false) true GAIN_COEFF_ZERO
        [fun _ => 1] 0 64 64).2.1 = [fun _ => 1] :=
  (silent_fast_path_frame (Collaborators.advancing false) SendStage.playing_sample
    [fun _ => 1] 0 64 64 rfl).2.1

end ARDOUR
